import Mathlib

/-!
# gst-plugins-gles: a shallow embedding of `src/gstglessink.c`

The sink renders planar I420 frames through EGL / OpenGL ES 2.0 on a dedicated
render thread.  The embedding below follows the C source function by function.

Modelling conventions

* Handles (`Display *`, `Window`, `EGLDisplay`, `EGLSurface`, `EGLContext`, GL
  object names) are natural numbers, `0` standing for `NULL`, `None`,
  `EGL_NO_DISPLAY`, `EGL_NO_SURFACE` and `EGL_NO_CONTEXT`.
* Every call into X11, EGL, GL, GLib or GStreamer that matters for the
  lifecycle is recorded, in program order, in a list of `Call`s; what the
  library answers is read from a record `GLESEnv`.
* A `float` is an IEEE 754 binary32 value (`Float32`): conversions from
  integers and the operators `+`, `-` and `/` round to nearest, ties to even.
* The `gint` product of `gst_gles_sink_set_caps` wraps modulo `2 ^ 32`.
* Fields that the other thread may write while a function runs are read from
  an explicit record of observations (`DeliveryReads`, `Wakeup`).
* The completion handshake is modelled a second time as an interleaving of
  atomic steps of both threads (`Handoff`, `handoff_step`), one step per access
  to a shared field, mutex or condition variable.
* `gl_init_shader` (`shader.c`) and `gst_video_sink_center_rect` (GStreamer)
  are not part of the source file; their answers are read from `GLESEnv`, and
  `computeLetterbox` models the latter from the specification.
-/

namespace GLESSink

/-! ## The C type `float` (IEEE 754 binary32) -/

/-- A value of the C type `float`: a finite value, held as the rational
number it stands for, an infinity with its sign, or a NaN.  Zeros are not
signed. -/
inductive Float32 where
  | finite (q : ℚ)
  | inf (negative : Bool)
  | nan
  deriving DecidableEq, Repr

/-- The constant `0.0f`. -/
instance : OfNat Float32 0 := ⟨Float32.finite 0⟩

/-- The constant `1.0f`. -/
instance : OfNat Float32 1 := ⟨Float32.finite 1⟩

/-- The nearest integer, a tie going to the even neighbour. -/
def roundHalfEven (x : ℚ) : Int :=
  if x - ⌊x⌋ < 1 / 2 then ⌊x⌋
  else if 1 / 2 < x - ⌊x⌋ then ⌊x⌋ + 1
  else if ⌊x⌋ % 2 = 0 then ⌊x⌋ else ⌊x⌋ + 1

/-- The largest finite `float`, `(2 - 2 ^ -23) * 2 ^ 127`. -/
def FLT_MAX : ℚ := (2 ^ 24 - 1) * 2 ^ 104

/-- The spacing of the `float`s around `x`: 24 significant bits from the
binade `⌊log₂ |x|⌋` of `x` on, and `2 ^ -149` below the smallest normal
number `2 ^ -126`. -/
def Float32.quantum (x : ℚ) : ℚ :=
  2 ^ (max (Int.log 2 |x|) (-126) - 23)

/-- The `float` nearest to the exact value `x` (round to nearest, ties to
even); a result beyond `FLT_MAX` is an infinity. -/
def Float32.round (x : ℚ) : Float32 :=
  let y : ℚ := roundHalfEven (x / Float32.quantum x) * Float32.quantum x
  if FLT_MAX < |y| then Float32.inf (decide (y < 0)) else Float32.finite y

/-- Conversion of an integer (`gint`, `guint`) to `float`. -/
def Float32.ofInt (n : Int) : Float32 := Float32.round n

/-- Unary minus. -/
def Float32.neg : Float32 → Float32
  | Float32.finite a => Float32.finite (-a)
  | Float32.inf s => Float32.inf (!s)
  | Float32.nan => Float32.nan

/-- Constants such as `-1.0f`. -/
instance : Neg Float32 := ⟨Float32.neg⟩

/-- The operator `+` on `float`. -/
def Float32.add : Float32 → Float32 → Float32
  | Float32.finite a, Float32.finite b => Float32.round (a + b)
  | Float32.finite _, Float32.inf s => Float32.inf s
  | Float32.inf s, Float32.finite _ => Float32.inf s
  | Float32.inf s, Float32.inf t => if s = t then Float32.inf s else Float32.nan
  | _, _ => Float32.nan

/-- The operator `-` on `float`. -/
def Float32.sub (a b : Float32) : Float32 := Float32.add a (Float32.neg b)

/-- The operator `/` on `float`.  A zero divisor counts as `+0`. -/
def Float32.div : Float32 → Float32 → Float32
  | Float32.finite a, Float32.finite b =>
    if b = 0 then (if a = 0 then Float32.nan else Float32.inf (decide (a < 0)))
    else Float32.round (a / b)
  | Float32.finite _, Float32.inf _ => Float32.finite 0
  | Float32.inf s, Float32.finite b => Float32.inf (s != decide (b < 0))
  | _, _ => Float32.nan

/-! ## Data model (`gstglessink.h`, as used by `gstglessink.c`) -/

/-- A frame handed over by the streaming pipeline, identified by a number. -/
abbrev GstBuffer := Nat

/-- Texture handle and the uniform location it is bound to. -/
structure GstGLESTexture where
  id : Nat
  loc : Int
  deriving DecidableEq, Repr

/-- A compiled shader program with its attribute locations. -/
structure GstGLESShader where
  program : Nat
  position_loc : Int
  texcoord_loc : Int
  deriving DecidableEq, Repr

/-- The EGL / GL state owned by the render thread (`sink->gl_thread.gles`). -/
structure GstGLESContext where
  initialized : Bool
  display : Nat
  surface : Nat
  context : Nat
  framebuffer : Nat
  y_tex : GstGLESTexture
  u_tex : GstGLESTexture
  v_tex : GstGLESTexture
  rgb_tex : GstGLESTexture
  deinterlace : GstGLESShader
  scale : GstGLESShader
  deriving DecidableEq, Repr

/-- The X11 side (`sink->x11`). -/
structure GstGLESWindow where
  display : Nat
  window : Nat
  external_window : Bool
  width : Int
  height : Int
  deriving DecidableEq, Repr

/-- The render thread record (`sink->gl_thread`): handoff slot and flags. -/
structure GstGLESThread where
  handle : Nat
  running : Bool
  buf : Option GstBuffer
  render_done : Bool
  gles : GstGLESContext
  deriving DecidableEq, Repr

/-- The element instance.  `width` and `height` are `GST_VIDEO_SINK_WIDTH` and
`GST_VIDEO_SINK_HEIGHT` of the parent `GstVideoSink`. -/
structure GstGLESSink where
  width : Int
  height : Int
  x11 : GstGLESWindow
  gl_thread : GstGLESThread
  video_width : Int
  video_height : Int
  par_n : Int
  par_d : Int
  crop_top : Nat
  crop_bottom : Nat
  crop_left : Nat
  crop_right : Nat
  dropped : Nat
  drop_first : Nat
  silent : Bool
  deriving DecidableEq, Repr

/-- The rectangle type of `gst/video/gstvideosink.h`. -/
structure GstVideoRectangle where
  x : Int
  y : Int
  w : Int
  h : Int
  deriving DecidableEq, Repr

/-- Result of the streaming-thread entry points. -/
inductive GstFlowReturn where
  | GST_FLOW_OK
  | GST_FLOW_ERROR
  deriving DecidableEq, Repr

/-- The two mutexes of `GstGLESThread`. -/
inductive Mutex where
  | data_lock
  | render_lock
  deriving DecidableEq, Repr

/-- The two condition variables of `GstGLESThread`. -/
inductive Cond where
  | data_signal
  | render_signal
  deriving DecidableEq, Repr

/-- The two shader sources of `shader.h` that the sink compiles. -/
inductive GstGLESShaderTypes where
  | SHADER_DEINT_LINEAR
  | SHADER_COPY
  deriving DecidableEq, Repr

/-- Texture filters passed to `gl_create_texture`. -/
inductive TexFilter where
  | GL_NEAREST
  | GL_LINEAR
  deriving DecidableEq, Repr

/-- The four call sites of `gl_create_texture`. -/
inductive TexSlot where
  | y
  | u
  | v
  | rgb
  deriving DecidableEq, Repr

/-- Library calls recorded by the embedding, with the arguments that identify
the resource they act on. -/
inductive Call where
  | XOpenDisplay (ret : Nat)
  | XLockDisplay (dpy : Nat)
  | XUnlockDisplay (dpy : Nat)
  | XCreateWindow (dpy : Nat) (width height : Int) (ret : Nat)
  | XSetWindowBackgroundPixmap (win : Nat)
  | XSetWMHints (win : Nat)
  | XMapWindow (win : Nat)
  | XStoreName (win : Nat)
  | XSelectInput (win : Nat) (mask : Nat)
  | XGetGeometry (win : Nat)
  | XDestroyWindow (win : Nat)
  | XSync (dpy : Nat)
  | XCloseDisplay (dpy : Nat)
  | eglGetDisplay (native : Nat) (ret : Nat)
  | eglInitialize (dpy : Nat)
  | eglChooseConfig (dpy : Nat)
  | eglCreateWindowSurface (dpy win : Nat) (ret : Nat)
  | eglCreateContext (dpy : Nat) (ret : Nat)
  | eglMakeCurrent (dpy surface context : Nat)
  | eglDestroyContext (dpy context : Nat)
  | eglDestroySurface (dpy surface : Nat)
  | eglTerminate (dpy : Nat)
  | egl_close_handles
  | eglSwapBuffers (dpy surface : Nat)
  | gl_init_shader (type : GstGLESShaderTypes) (ret : Int) (program : Nat)
  | gl_delete_shader (program : Nat)
  | glGenTextures (filter : TexFilter) (id : Nat)
  | glDeleteTextures (ids : List Nat)
  | glGenFramebuffers (id : Nat)
  | glDeleteFramebuffers (ids : List Nat)
  | glBindFramebuffer (id : Nat)
  | glFramebufferTexture2D (tex : Nat)
  | glUseProgram (program : Nat)
  | glViewport (x y w h : Int)
  | glClear
  | glTexImage2D (tex : Nat) (w h : Int) (offset : Option Int)
  | glVertexAttribPointer (loc : Int) (data : List Float32)
  | glDrawElements
  | got_window_handle (win : Nat)
  | prepare_window_handle
  | g_thread_try_new (ret : Nat)
  | g_thread_join (handle : Nat)
  | g_mutex_lock (m : Mutex)
  | g_mutex_unlock (m : Mutex)
  | g_cond_signal (c : Cond)
  | g_cond_wait (c : Cond) (m : Mutex)
  | GST_ELEMENT_ERROR
  deriving DecidableEq, Repr

/-- Answers of the libraries the sink calls.  Failure is `0` for a handle,
`false` for an `EGLBoolean`, and a negative number for `gl_init_shader`. -/
structure GLESEnv where
  XOpenDisplay : Nat
  XCreateWindow : Nat
  XGetGeometry : Int × Int
  eglGetDisplay : Nat
  eglInitialize : Bool
  eglChooseConfig : Bool
  eglCreateWindowSurface : Nat
  eglCreateContext : Nat
  eglMakeCurrent : Bool
  gl_init_shader : GstGLESShaderTypes → Int × GstGLESShader
  glGetUniformLocation : Nat → String → Int
  glGenTextures : TexSlot → Nat
  glGenFramebuffers : Nat
  gst_buffer_map : GstBuffer → Bool
  gst_video_sink_center_rect : GstVideoRectangle → GstVideoRectangle → GstVideoRectangle

/-- Value of `ENOMEM` in `errno.h`. -/
def ENOMEM : Int := 12

/-! ## Geometry of the second pass (`gl_draw_onscreen`, lines 279-314) -/

/-- The initial `vVertices` of `gl_draw_onscreen`: four vertices, each a
position pair followed by a texture-coordinate pair. -/
def onscreen_vVertices : List Float32 :=
  [ -1, -1, 0, 0,
     1, -1, 1, 0,
     1,  1, 1, 1,
    -1,  1, 0, 1 ]

/-- The assignment `v[i] += d`. -/
def vAdd (v : List Float32) (i : Nat) (d : Float32) : List Float32 :=
  v.set i (Float32.add (v.getD i 0) d)

/-- The assignment `v[i] -= d`. -/
def vSub (v : List Float32) (i : Nat) (d : Float32) : List Float32 :=
  v.set i (Float32.sub (v.getD i 0) d)

/-- The vertex array after "add cropping to texture coordinates" (lines
302-314): each crop is converted to `float` and divided by the video
dimension, which the division converts to `float` as well. -/
def gl_draw_onscreen_vVertices (sink : GstGLESSink) : List Float32 :=
  let crop_left : Float32 :=
    Float32.div (Float32.ofInt sink.crop_left) (Float32.ofInt sink.video_width)
  let crop_right : Float32 :=
    Float32.div (Float32.ofInt sink.crop_right) (Float32.ofInt sink.video_width)
  let crop_top : Float32 :=
    Float32.div (Float32.ofInt sink.crop_top) (Float32.ofInt sink.video_height)
  let crop_bottom : Float32 :=
    Float32.div (Float32.ofInt sink.crop_bottom) (Float32.ofInt sink.video_height)
  let v := onscreen_vVertices
  let v := vAdd v 2 crop_left
  let v := vAdd v 3 crop_bottom
  let v := vSub v 6 crop_right
  let v := vAdd v 7 crop_bottom
  let v := vSub v 10 crop_right
  let v := vSub v 11 crop_top
  let v := vAdd v 14 crop_left
  let v := vSub v 15 crop_top
  v

/-- The texture-coordinate attribute of vertex `k`: `glVertexAttribPointer`
is given `&vVertices[2]` with a stride of four floats. -/
def texcoord (v : List Float32) (k : Nat) : Float32 × Float32 :=
  (v.getD (4 * k + 2) 0, v.getD (4 * k + 3) 0)

/-- The four texture-coordinate pairs of the Pass-2 quad, in vertex order. -/
def gl_draw_onscreen_texcoords (sink : GstGLESSink) : List (Float32 × Float32) :=
  let v := gl_draw_onscreen_vVertices sink
  [texcoord v 0, texcoord v 1, texcoord v 2, texcoord v 3]

/-- The source rectangle handed to `gst_video_sink_center_rect`. -/
def gl_draw_onscreen_src (sink : GstGLESSink) : GstVideoRectangle :=
  { x := 0, y := 0,
    w := sink.video_width - sink.crop_left - sink.crop_right,
    h := sink.video_height - sink.crop_top - sink.crop_bottom }

/-- The destination rectangle handed to `gst_video_sink_center_rect`. -/
def gl_draw_onscreen_dst (sink : GstGLESSink) : GstVideoRectangle :=
  { x := 0, y := 0, w := sink.x11.width, h := sink.x11.height }

/-! ## Texture upload (`gl_load_texture`, lines 176-226) -/

/-- One `glTexImage2D` upload: texture unit, bound texture, plane size, byte
offset into the mapped buffer. -/
structure PlaneUpload where
  unit : Nat
  tex : Nat
  w : Int
  h : Int
  offset : Int
  deriving DecidableEq, Repr

/-- The three uploads of `gl_load_texture`.  `/` and `*` associate to the left
in C, so the last offset is `W * H + ((W / 2) * H) / 2`; C division truncates. -/
def gl_load_texture_planes (sink : GstGLESSink) : List PlaneUpload :=
  [ { unit := 0, tex := sink.gl_thread.gles.y_tex.id, w := sink.width, h := sink.height, offset := 0 },
    { unit := 1, tex := sink.gl_thread.gles.u_tex.id, w := Int.tdiv sink.width 2, h := Int.tdiv sink.height 2,
      offset := sink.width * sink.height },
    { unit := 2, tex := sink.gl_thread.gles.v_tex.id, w := Int.tdiv sink.width 2, h := Int.tdiv sink.height 2,
      offset := sink.width * sink.height
        + Int.tdiv (Int.tdiv sink.width 2 * sink.height) 2 } ]

/-- Calls of `gl_load_texture`; when `gst_buffer_map` fails nothing is
uploaded. -/
def gl_load_texture (env : GLESEnv) (sink : GstGLESSink) (buf : GstBuffer) : List Call :=
  if env.gst_buffer_map buf then
    (gl_load_texture_planes sink).map
      (fun p => Call.glTexImage2D p.tex p.w p.h (some p.offset))
  else []

/-! ## Small accessors for the nested records -/

/-- Shorthand for `&sink->gl_thread.gles`. -/
@[simp]
def GstGLESSink.gles (sink : GstGLESSink) : GstGLESContext :=
  sink.gl_thread.gles

/-- Store a new EGL / GL context record into the sink. -/
@[simp]
def GstGLESSink.withGles (sink : GstGLESSink) (g : GstGLESContext) : GstGLESSink :=
  { sink with gl_thread := { sink.gl_thread with gles := g } }

/-- Store a new X11 record into the sink. -/
@[simp]
def GstGLESSink.withX11 (sink : GstGLESSink) (x : GstGLESWindow) : GstGLESSink :=
  { sink with x11 := x }

/-! ## OpenGL ES objects (lines 131-173) -/

/-- The function `gl_create_texture`: one `glGenTextures`, the name is returned. -/
def gl_create_texture (env : GLESEnv) (slot : TexSlot) (tex_filter : TexFilter) :
    Nat × List Call :=
  (env.glGenTextures slot, [Call.glGenTextures tex_filter (env.glGenTextures slot)])

/-- The function `gl_gen_framebuffer`: framebuffer object plus the RGB texture
attached to it. -/
def gl_gen_framebuffer (env : GLESEnv) (sink : GstGLESSink) : GstGLESSink × List Call :=
  let fb := env.glGenFramebuffers
  let rgb := gl_create_texture env TexSlot.rgb TexFilter.GL_LINEAR
  let g := sink.gles
  (sink.withGles { g with framebuffer := fb, rgb_tex := { g.rgb_tex with id := rgb.1 } },
   [Call.glGenFramebuffers fb] ++ rgb.2 ++
   [Call.glTexImage2D rgb.1 sink.width sink.height none,
    Call.glBindFramebuffer fb,
    Call.glFramebufferTexture2D rgb.1])

/-- The function `gl_init_textures`: the three YUV textures. -/
def gl_init_textures (env : GLESEnv) (sink : GstGLESSink) : GstGLESSink × List Call :=
  let y := gl_create_texture env TexSlot.y TexFilter.GL_NEAREST
  let u := gl_create_texture env TexSlot.u TexFilter.GL_NEAREST
  let v := gl_create_texture env TexSlot.v TexFilter.GL_NEAREST
  let g := sink.gles
  (sink.withGles { g with y_tex := { g.y_tex with id := y.1 },
                          u_tex := { g.u_tex with id := u.1 },
                          v_tex := { g.v_tex with id := v.1 } },
   y.2 ++ u.2 ++ v.2)

/-! ## The two render passes (lines 228-350) -/

/-- The constant `vVertices` of `gl_draw_fbo`. -/
def fbo_vVertices : List Float32 :=
  [ -1, -1, 0, 1,
     1, -1, 1, 1,
     1,  1, 1, 0,
    -1,  1, 0, 0 ]

/-- Pass 1, `gl_draw_fbo`: convert the frame into the offscreen target. -/
def gl_draw_fbo (env : GLESEnv) (sink : GstGLESSink) (buf : GstBuffer) : List Call :=
  let gles := sink.gles
  [Call.glBindFramebuffer gles.framebuffer,
   Call.glUseProgram gles.deinterlace.program,
   Call.glViewport 0 0 sink.width sink.height,
   Call.glClear,
   Call.glVertexAttribPointer gles.deinterlace.position_loc fbo_vVertices,
   Call.glVertexAttribPointer gles.deinterlace.texcoord_loc (fbo_vVertices.drop 2)]
  ++ gl_load_texture env sink buf
  ++ [Call.glDrawElements]

/-- Pass 2 and present, `gl_draw_onscreen`. -/
def gl_draw_onscreen (env : GLESEnv) (sink : GstGLESSink) : List Call :=
  let gles := sink.gles
  let vVertices := gl_draw_onscreen_vVertices sink
  let result := env.gst_video_sink_center_rect
    (gl_draw_onscreen_src sink) (gl_draw_onscreen_dst sink)
  [Call.glUseProgram gles.scale.program,
   Call.glBindFramebuffer 0,
   Call.glViewport result.x result.y result.w result.h,
   Call.glClear,
   Call.glVertexAttribPointer gles.scale.position_loc vVertices,
   Call.glVertexAttribPointer gles.scale.texcoord_loc (vVertices.drop 2),
   Call.glDrawElements,
   Call.eglSwapBuffers gles.display gles.surface]

/-! ## EGL (lines 355-570) -/

/-- The function `egl_init`.  Returns `0` on success and `-1` at the first
stage that fails; what was stored in `gles` before that stage stays there. -/
def egl_init (env : GLESEnv) (sink : GstGLESSink) : Int × GstGLESSink × List Call :=
  let dpy := env.eglGetDisplay
  let s1 := sink.withGles { sink.gles with display := dpy }
  let l1 := [Call.eglGetDisplay sink.x11.display dpy]
  if dpy = 0 then (-1, s1, l1) else
  let l2 := l1 ++ [Call.eglInitialize dpy]
  if !env.eglInitialize then (-1, s1, l2) else
  let l3 := l2 ++ [Call.eglChooseConfig dpy]
  if !env.eglChooseConfig then (-1, s1, l3) else
  let surface := env.eglCreateWindowSurface
  let s2 := s1.withGles { s1.gles with surface := surface }
  let l4 := l3 ++ [Call.eglCreateWindowSurface dpy sink.x11.window surface]
  if surface = 0 then (-1, s2, l4) else
  let context := env.eglCreateContext
  let s3 := s2.withGles { s2.gles with context := context }
  let l5 := l4 ++ [Call.eglCreateContext dpy context]
  if context = 0 then (-1, s3, l5) else
  let l6 := l5 ++ [Call.eglMakeCurrent dpy surface context]
  if !env.eglMakeCurrent then (-1, s3, l6) else
  (0, s3, l6)

/-- The function `egl_close`.  The descriptor quirk `egl_close_handles` is
recorded as one call. -/
def egl_close (sink : GstGLESSink) : GstGLESSink × List Call :=
  let context := sink.gles
  let l0 : List Call :=
    if context.initialized then
      [Call.glDeleteFramebuffers [context.framebuffer],
       Call.glDeleteTextures [context.y_tex.id, context.u_tex.id,
                              context.v_tex.id, context.rgb_tex.id],
       Call.gl_delete_shader context.scale.program,
       Call.gl_delete_shader context.deinterlace.program]
    else []
  let l1 : List Call :=
    if context.context ≠ 0 then [Call.eglDestroyContext context.display context.context]
    else []
  let l2 : List Call :=
    if context.surface ≠ 0 then [Call.eglDestroySurface context.display context.surface]
    else []
  let l3 : List Call :=
    if context.display ≠ 0 then [Call.eglTerminate context.display] else []
  (sink.withGles { context with context := 0, surface := 0, display := 0,
                                initialized := false },
   l0 ++ l1 ++ l2 ++ l3 ++ [Call.egl_close_handles])

/-! ## X11 (lines 572-679) -/

/-- Event masks of `X11/X.h`. -/
def KeyPressMask : Nat := 1
/-- Event mask. -/
def KeyReleaseMask : Nat := 2
/-- Event mask. -/
def PointerMotionMask : Nat := 64
/-- Event mask. -/
def ExposureMask : Nat := 32768
/-- Event mask. -/
def StructureNotifyMask : Nat := 131072

/-- The function `x11_init`.  A window is created only when `x11.window` is
still `0`; otherwise the given window gets a new event mask and its geometry
is read back. -/
def x11_init (env : GLESEnv) (sink : GstGLESSink) (width height : Int) :
    Int × GstGLESSink × List Call :=
  let dpy := env.XOpenDisplay
  let s1 := sink.withX11 { sink.x11 with display := dpy }
  if dpy = 0 then (-1, s1, [Call.XOpenDisplay dpy]) else
  if sink.x11.window = 0 then
    let win := env.XCreateWindow
    (0, s1.withX11 { s1.x11 with window := win },
     [Call.XOpenDisplay dpy, Call.XLockDisplay dpy,
      Call.XCreateWindow dpy width height win,
      Call.XSetWindowBackgroundPixmap win, Call.XSetWMHints win,
      Call.XMapWindow win, Call.XStoreName win,
      Call.XUnlockDisplay dpy])
  else
    (0, s1.withX11 { s1.x11 with width := env.XGetGeometry.1,
                                 height := env.XGetGeometry.2 },
     [Call.XOpenDisplay dpy, Call.XLockDisplay dpy,
      Call.XSelectInput sink.x11.window
        (ExposureMask ||| StructureNotifyMask ||| PointerMotionMask |||
         KeyPressMask ||| KeyReleaseMask),
      Call.XGetGeometry sink.x11.window,
      Call.XUnlockDisplay dpy])

/-- The function `x11_close`. -/
def x11_close (sink : GstGLESSink) : GstGLESSink × List Call :=
  if sink.x11.display ≠ 0 then
    let dpy := sink.x11.display
    if !sink.x11.external_window then
      (sink.withX11 { sink.x11 with window := 0, display := 0 },
       [Call.XLockDisplay dpy, Call.XDestroyWindow sink.x11.window,
        Call.XSync dpy, Call.XUnlockDisplay dpy, Call.XCloseDisplay dpy])
    else
      (sink.withX11 { sink.x11 with display := 0 },
       [Call.XLockDisplay dpy, Call.XSelectInput sink.x11.window 0,
        Call.XSync dpy, Call.XUnlockDisplay dpy, Call.XCloseDisplay dpy])
  else (sink, [])

/-- Event types that `x11_handle_events` distinguishes (`X11/X.h`). -/
inductive XEventType where
  | ConfigureRequest
  | ConfigureNotify
  | other (type : Nat)
  deriving DecidableEq, Repr

/-- An `XEvent` as read by `x11_handle_events`: its type and the `width` and
`height` members of the `xconfigure` view of the union. -/
structure XEvent where
  type : XEventType
  width : Int
  height : Int
  deriving DecidableEq, Repr

/-- The body of the `while (XPending (...))` loop for one event.  The
`ConfigureRequest` case has no `break` and falls into `ConfigureNotify`. -/
def x11_handle_event (env : GLESEnv) (sink : GstGLESSink) (xev : XEvent) :
    GstGLESSink × List Call :=
  match xev.type with
  | XEventType.ConfigureRequest | XEventType.ConfigureNotify =>
    let s := sink.withX11 { sink.x11 with width := xev.width, height := xev.height }
    (s, gl_draw_onscreen env s)
  | XEventType.other _ => (sink, [])

/-- Fold of `x11_handle_event` over the pending queue (without the lock calls). -/
def x11_drain (env : GLESEnv) : GstGLESSink → List XEvent → GstGLESSink × List Call
  | sink, [] => (sink, [])
  | sink, xev :: rest =>
    let r := x11_handle_event env sink xev
    let r2 := x11_drain env r.1 rest
    (r2.1, r.2 ++ r2.2)

/-- The function `x11_handle_events`; `pending` is the queue that `XPending` /
`XNextEvent` deliver. -/
def x11_handle_events (env : GLESEnv) (sink : GstGLESSink) (pending : List XEvent) :
    GstGLESSink × List Call :=
  let r := x11_drain env sink pending
  (r.1, [Call.XLockDisplay sink.x11.display] ++ r.2 ++ [Call.XUnlockDisplay sink.x11.display])

/-! ## Context setup (`setup_gl_context`, lines 765-819) -/

/-- The function `setup_gl_context`.  `gl_init_shader` lives in `shader.c`; its
return value and the shader record it leaves behind are read from `env`. -/
def setup_gl_context (env : GLESEnv) (sink : GstGLESSink) : Int × GstGLESSink × List Call :=
  let s0 := sink.withX11 { sink.x11 with width := 720, height := 576 }
  let x := x11_init env s0 s0.x11.width s0.x11.height
  if x.1 < 0 then (-ENOMEM, x.2.1, x.2.2) else
  let e := egl_init env x.2.1
  if e.1 < 0 then
    let c := x11_close e.2.1
    (-ENOMEM, c.1, x.2.2 ++ e.2.2 ++ c.2)
  else
  let sh1 := env.gl_init_shader GstGLESShaderTypes.SHADER_DEINT_LINEAR
  let s2 := e.2.1.withGles { e.2.1.gles with deinterlace := sh1.2 }
  let l2 := x.2.2 ++ e.2.2 ++
    [Call.gl_init_shader GstGLESShaderTypes.SHADER_DEINT_LINEAR sh1.1 sh1.2.program]
  if sh1.1 < 0 then
    let c1 := egl_close s2
    let c2 := x11_close c1.1
    (-ENOMEM, c2.1, l2 ++ c1.2 ++ c2.2)
  else
  let g2 := s2.gles
  let s3 := s2.withGles { g2 with
    y_tex := { g2.y_tex with loc := env.glGetUniformLocation g2.deinterlace.program "s_ytex" },
    u_tex := { g2.u_tex with loc := env.glGetUniformLocation g2.deinterlace.program "s_utex" },
    v_tex := { g2.v_tex with loc := env.glGetUniformLocation g2.deinterlace.program "s_vtex" } }
  let sh2 := env.gl_init_shader GstGLESShaderTypes.SHADER_COPY
  let s4 := s3.withGles { s3.gles with scale := sh2.2 }
  let l4 := l2 ++ [Call.gl_init_shader GstGLESShaderTypes.SHADER_COPY sh2.1 sh2.2.program]
  if sh2.1 < 0 then
    let c1 := egl_close s4
    let c2 := x11_close c1.1
    (-ENOMEM, c2.1, l4 ++ c1.2 ++ c2.2)
  else
  let g4 := s4.gles
  let s5 := s4.withGles { g4 with
    rgb_tex := { g4.rgb_tex with loc := env.glGetUniformLocation g4.scale.program "s_tex" } }
  let t := gl_init_textures env s5
  let announce : List Call :=
    if !t.1.x11.external_window then [Call.got_window_handle t.1.x11.window] else []
  (0, t.1, l4 ++ t.2 ++ announce)

/-! ## The render thread (`gl_thread_proc`, lines 713-763) -/

/-- What the render thread finds in one round of its loop: the X events
pending when `x11_handle_events` runs, how often the test of line 733 sent it
into `g_cond_wait` before it came out false, the slot and the `running` flag
as the other thread left them at that last test, and the `running` flag read
by the next `while (thread->running)`. -/
structure Wakeup where
  pending : List XEvent
  waits : Nat
  buf : Option GstBuffer
  running : Bool
  running_next : Bool
  deriving DecidableEq, Repr

/-- The inner loop `while (!thread->buf && thread->running)` is left. -/
def Wakeup.leavesWait (w : Wakeup) : Bool :=
  w.buf.isSome || !w.running

/-- One round of the loop body of `gl_thread_proc` (lines 729-757), entered
with `sink` and woken up as described by `w`. -/
def gl_thread_loop_body (env : GLESEnv) (sink : GstGLESSink) (w : Wakeup) :
    GstGLESSink × List Call :=
  let ev := x11_handle_events env sink w.pending
  let s1 : GstGLESSink :=
    { ev.1 with gl_thread := { ev.1.gl_thread with buf := w.buf, running := w.running } }
  let l1 := ev.2 ++ [Call.g_mutex_lock Mutex.data_lock] ++
    List.replicate w.waits (Call.g_cond_wait Cond.data_signal Mutex.data_lock)
  let d : GstGLESSink × List Call :=
    match s1.gl_thread.buf with
    | some buf =>
      let f : GstGLESSink × List Call :=
        if !s1.gles.initialized then
          let r := gl_gen_framebuffer env s1
          (r.1.withGles { r.1.gles with initialized := true }, r.2)
        else (s1, [])
      let s2 := f.1
      ({ s2 with gl_thread := { s2.gl_thread with buf := none, render_done := true } },
       f.2 ++ [Call.XLockDisplay s2.x11.display] ++ gl_draw_fbo env s2 buf ++
       gl_draw_onscreen env s2 ++ [Call.XUnlockDisplay s2.x11.display])
    | none => (s1, [])
  (d.1, l1 ++ d.2 ++
    [Call.g_mutex_unlock Mutex.data_lock,
     Call.g_mutex_lock Mutex.render_lock,
     Call.g_cond_signal Cond.render_signal,
     Call.g_mutex_unlock Mutex.render_lock])

/-- The loop `while (thread->running)`.  `none` means that the thread is still
inside the loop when the wake-ups are used up (it waits on `data_signal`). -/
def gl_thread_loop (env : GLESEnv) : GstGLESSink → List Wakeup → Option (GstGLESSink × List Call)
  | sink, [] => if !sink.gl_thread.running then some (sink, []) else none
  | sink, w :: rest =>
    if !sink.gl_thread.running then some (sink, [])
    else if !w.leavesWait then none
    else
      let b := gl_thread_loop_body env sink w
      let s : GstGLESSink :=
        { b.1 with gl_thread := { b.1.gl_thread with running := w.running_next } }
      match gl_thread_loop env s rest with
      | none => none
      | some r => some (r.1, b.2 ++ r.2)

/-- One run of the render thread as seen from outside: whether `gl_thread_stop`
cleared `running` before the first loop test, and the wake-ups. -/
structure ThreadRun where
  stop_before_loop : Bool
  wakeups : List Wakeup
  deriving DecidableEq, Repr

/-- One finished thread run: the sink when the loop is left, the sink when the
thread ends, the result of the setup, and the calls split at the loop. -/
structure ThreadResult where
  at_exit : GstGLESSink
  sink : GstGLESSink
  ret : Int
  startup : List Call
  loop : List Call
  teardown : List Call
  deriving DecidableEq

/-- The function `gl_thread_proc`: context setup, completion signal, loop,
`egl_close`, `x11_close`. -/
def gl_thread_proc (env : GLESEnv) (run : ThreadRun) (sink : GstGLESSink) :
    Option ThreadResult :=
  let st := setup_gl_context env sink
  let s1 : GstGLESSink :=
    { st.2.1 with gl_thread :=
        { st.2.1.gl_thread with running := (st.1 == 0) && !run.stop_before_loop } }
  let l1 := st.2.2 ++
    [Call.g_mutex_lock Mutex.render_lock,
     Call.g_cond_signal Cond.render_signal,
     Call.g_mutex_unlock Mutex.render_lock]
  match gl_thread_loop env s1 run.wakeups with
  | none => none
  | some r =>
    let c1 := egl_close r.1
    let c2 := x11_close c1.1
    some { at_exit := r.1, sink := c2.1, ret := st.1, startup := l1, loop := r.2,
           teardown := c1.2 ++ c2.2 }

/-- The function `gl_thread_stop` (lines 697-710). -/
def gl_thread_stop (sink : GstGLESSink) : GstGLESSink × List Call :=
  if sink.gl_thread.running then
    ({ sink with gl_thread := { sink.gl_thread with running := false, buf := none } },
     [Call.g_mutex_lock Mutex.data_lock,
      Call.g_cond_signal Cond.data_signal,
      Call.g_mutex_unlock Mutex.data_lock,
      Call.g_thread_join sink.gl_thread.handle])
  else (sink, [])

/-! ## Streaming-thread entry points (lines 1083-1200) -/

/-- What the streaming thread reads from outside during one call: the handle
returned by `g_thread_try_new` (`0` when it fails), `thread->running` as read
at line 1104, and `thread->render_done` as read after the submission. -/
structure DeliveryReads where
  gl_thread_init : Nat
  running_after_init : Bool
  render_done : Bool
  deriving DecidableEq, Repr

/-- Outcome of one call of `gst_gles_sink_preroll` or `gst_gles_sink_render`:
the sink as this thread left it, its calls in program order, and the value of
the `return` statement it reaches. -/
structure DeliveryResult where
  sink : GstGLESSink
  calls : List Call
  ret : GstFlowReturn
  deriving DecidableEq

/-- The function `gst_gles_sink_preroll`. -/
def gst_gles_sink_preroll (reads : DeliveryReads) (sink : GstGLESSink) (buf : GstBuffer) :
    DeliveryResult :=
  let start : Bool × GstGLESSink × List Call :=
    if !sink.gl_thread.running then
      let s1 : GstGLESSink :=
        { sink with gl_thread := { sink.gl_thread with handle := reads.gl_thread_init } }
      let l1 := [Call.prepare_window_handle, Call.g_mutex_lock Mutex.render_lock,
                 Call.g_thread_try_new reads.gl_thread_init]
      if reads.gl_thread_init = 0 then
        (false, s1, l1 ++ [Call.g_mutex_unlock Mutex.render_lock])
      else if !reads.running_after_init then
        (true, s1, l1 ++ [Call.g_cond_wait Cond.render_signal Mutex.render_lock,
                          Call.g_mutex_unlock Mutex.render_lock])
      else (true, s1, l1)
    else (true, sink, [])
  if !start.1 then
    { sink := start.2.1, calls := start.2.2 ++ [Call.GST_ELEMENT_ERROR],
      ret := GstFlowReturn.GST_FLOW_ERROR }
  else
  let s := start.2.1
  if s.dropped < s.drop_first then
    { sink := { s with dropped := s.dropped + 1 }, calls := start.2.2,
      ret := GstFlowReturn.GST_FLOW_OK }
  else
  let s2 : GstGLESSink :=
    { s with gl_thread := { s.gl_thread with render_done := false, buf := some buf } }
  let l2 := start.2.2 ++
    [Call.g_mutex_lock Mutex.data_lock, Call.g_cond_signal Cond.data_signal,
     Call.g_mutex_unlock Mutex.data_lock]
  if !reads.render_done then
    { sink := s2,
      calls := l2 ++ [Call.g_mutex_lock Mutex.render_lock,
                      Call.g_cond_wait Cond.render_signal Mutex.render_lock,
                      Call.g_mutex_unlock Mutex.render_lock],
      ret := GstFlowReturn.GST_FLOW_OK }
  else { sink := s2, calls := l2, ret := GstFlowReturn.GST_FLOW_OK }

/-- The function `gst_gles_sink_render`. -/
def gst_gles_sink_render (reads : DeliveryReads) (sink : GstGLESSink) (buf : GstBuffer) :
    DeliveryResult :=
  if sink.dropped < sink.drop_first then
    { sink := { sink with dropped := sink.dropped + 1 }, calls := [],
      ret := GstFlowReturn.GST_FLOW_OK }
  else
  let s2 : GstGLESSink :=
    { sink with gl_thread := { sink.gl_thread with render_done := false, buf := some buf } }
  let l2 :=
    [Call.g_mutex_lock Mutex.data_lock, Call.g_cond_signal Cond.data_signal,
     Call.g_mutex_unlock Mutex.data_lock]
  if !reads.render_done then
    { sink := s2,
      calls := l2 ++ [Call.g_mutex_lock Mutex.render_lock,
                      Call.g_cond_wait Cond.render_signal Mutex.render_lock,
                      Call.g_mutex_unlock Mutex.render_lock],
      ret := GstFlowReturn.GST_FLOW_OK }
  else { sink := s2, calls := l2, ret := GstFlowReturn.GST_FLOW_OK }

/-- The overlay method `gst_gles_video_overlay_set_handle`
(`gst_gles_xoverlay_set_window_handle` before GStreamer 1.0). -/
def gst_gles_video_overlay_set_handle (sink : GstGLESSink) (handle : Nat) : GstGLESSink :=
  if sink.x11.window = 0 then
    sink.withX11 { sink.x11 with window := handle, external_window := true }
  else sink

/-! ## Sequences of streaming-thread calls -/

/-- The two `GstBaseSink` entry points that submit frames. -/
inductive EntryPoint where
  | preroll
  | render
  deriving DecidableEq, Repr

/-- One call of the streaming thread: entry point, frame, what the call reads
from outside, and what the render thread does to the sink before the next
call. -/
structure DeliveryCall where
  entry : EntryPoint
  buf : GstBuffer
  reads : DeliveryReads
  render_thread : GstGLESSink → GstGLESSink

/-- Dispatch of one call. -/
def deliver (c : DeliveryCall) (sink : GstGLESSink) : DeliveryResult :=
  match c.entry with
  | EntryPoint.preroll => gst_gles_sink_preroll c.reads sink c.buf
  | EntryPoint.render => gst_gles_sink_render c.reads sink c.buf

/-- Run the calls one after another; for each call the sink it was entered
with and its outcome. -/
def deliver_all : GstGLESSink → List DeliveryCall → List (GstGLESSink × DeliveryResult)
  | _, [] => []
  | sink, c :: rest =>
    (sink, deliver c sink) :: deliver_all (c.render_thread (deliver c sink).sink) rest

/-- The render thread, once running, writes neither the drop counter nor the
configured drop count nor the `running` flag. -/
def RenderThreadOnly (f : GstGLESSink → GstGLESSink) : Prop :=
  ∀ s, (f s).dropped = s.dropped ∧ (f s).drop_first = s.drop_first ∧
    (f s).gl_thread.running = s.gl_thread.running

/-- The render thread's round on the slot as it finds it, no X event pending,
no wait and nobody stopping it. -/
def render_thread_consume (env : GLESEnv) (sink : GstGLESSink) : GstGLESSink :=
  (gl_thread_loop_body env sink
    { pending := [], waits := 0, buf := sink.gl_thread.buf, running := sink.gl_thread.running,
      running_next := sink.gl_thread.running }).1

/-! ## Reading the call list -/

/-- Handles of the windows created by `XCreateWindow` calls of a call list. -/
def window_creations (l : List Call) : List Nat :=
  l.filterMap (fun c => match c with
    | Call.XCreateWindow _ _ _ ret => some ret
    | _ => none)

/-- Handles carried by the "got window handle" announcements of a call list. -/
def announcements (l : List Call) : List Nat :=
  l.filterMap (fun c => match c with
    | Call.got_window_handle win => some win
    | _ => none)

/-- The EGL teardown calls of a call list, in order. -/
def egl_teardown_calls (l : List Call) : List Call :=
  l.filter (fun c => match c with
    | Call.eglDestroyContext _ _ => true
    | Call.eglDestroySurface _ _ => true
    | Call.eglTerminate _ => true
    | Call.egl_close_handles => true
    | _ => false)

/-- Windows destroyed by the `XDestroyWindow` calls of a call list. -/
def window_destructions (l : List Call) : List Nat :=
  l.filterMap (fun c => match c with
    | Call.XDestroyWindow win => some win
    | _ => none)

/-! ## Resources created and released by a call list -/

/-- The resources whose lifetime the render thread manages. -/
inductive Resource where
  | x_display (dpy : Nat)
  | window (win : Nat)
  | egl_display (dpy : Nat)
  | egl_surface (surface : Nat)
  | egl_context (context : Nat)
  | shader (program : Nat)
  | texture (id : Nat)
  | framebuffer (id : Nat)
  deriving DecidableEq, Repr

/-- The resource a call brings into being, if it succeeds. -/
def created_by (c : Call) : List Resource :=
  match c with
  | Call.XOpenDisplay ret => if ret ≠ 0 then [Resource.x_display ret] else []
  | Call.XCreateWindow _ _ _ ret => [Resource.window ret]
  | Call.eglGetDisplay _ ret => if ret ≠ 0 then [Resource.egl_display ret] else []
  | Call.eglCreateWindowSurface _ _ ret => if ret ≠ 0 then [Resource.egl_surface ret] else []
  | Call.eglCreateContext _ ret => if ret ≠ 0 then [Resource.egl_context ret] else []
  | Call.gl_init_shader _ ret program => if 0 ≤ ret then [Resource.shader program] else []
  | Call.glGenTextures _ id => [Resource.texture id]
  | Call.glGenFramebuffers id => [Resource.framebuffer id]
  | _ => []

/-- The resources a call gives back. -/
def released_by (c : Call) : List Resource :=
  match c with
  | Call.XCloseDisplay dpy => [Resource.x_display dpy]
  | Call.XDestroyWindow win => [Resource.window win]
  | Call.eglTerminate dpy => [Resource.egl_display dpy]
  | Call.eglDestroySurface _ surface => [Resource.egl_surface surface]
  | Call.eglDestroyContext _ context => [Resource.egl_context context]
  | Call.gl_delete_shader program => [Resource.shader program]
  | Call.glDeleteTextures ids => ids.map Resource.texture
  | Call.glDeleteFramebuffers ids => ids.map Resource.framebuffer
  | _ => []

/-- Resources created by a call list, in creation order. -/
def created : List Call → List Resource
  | [] => []
  | c :: l => created_by c ++ created l

/-- Resources released by a call list, in release order. -/
def released : List Call → List Resource
  | [] => []
  | c :: l => released_by c ++ released l

/-- The handles that are set up once per thread run, before the loop. -/
def owned_handles (s : GstGLESSink) : List Nat × Bool :=
  ([s.x11.display, s.x11.window, s.gl_thread.gles.display, s.gl_thread.gles.surface,
    s.gl_thread.gles.context, s.gl_thread.gles.y_tex.id, s.gl_thread.gles.u_tex.id,
    s.gl_thread.gles.v_tex.id, s.gl_thread.gles.deinterlace.program,
    s.gl_thread.gles.scale.program],
   s.x11.external_window)

/-- The frame targets, allocated with the first frame: the flag, the
framebuffer and the RGB texture. -/
def frame_targets (s : GstGLESSink) : Bool × Nat × Nat :=
  (s.gl_thread.gles.initialized, s.gl_thread.gles.framebuffer, s.gl_thread.gles.rgb_tex.id)

/-- What a successful `setup_gl_context` creates before the shaders, in
creation order; the window only when none was present. -/
def setup_core (env : GLESEnv) (sink : GstGLESSink) : List Resource :=
  [Resource.x_display env.XOpenDisplay] ++
  (if sink.x11.window = 0 then [Resource.window env.XCreateWindow] else []) ++
  [Resource.egl_display env.eglGetDisplay,
   Resource.egl_surface env.eglCreateWindowSurface,
   Resource.egl_context env.eglCreateContext]

/-- The GL objects a successful `setup_gl_context` creates, in creation order. -/
def setup_gl_objects (env : GLESEnv) : List Resource :=
  [Resource.shader (env.gl_init_shader GstGLESShaderTypes.SHADER_DEINT_LINEAR).2.program,
   Resource.shader (env.gl_init_shader GstGLESShaderTypes.SHADER_COPY).2.program,
   Resource.texture (env.glGenTextures TexSlot.y),
   Resource.texture (env.glGenTextures TexSlot.u),
   Resource.texture (env.glGenTextures TexSlot.v)]

/-- The GL objects deleted by `egl_close` once the frame targets exist, in
deletion order. -/
def teardown_gl_objects (env : GLESEnv) : List Resource :=
  [Resource.framebuffer env.glGenFramebuffers,
   Resource.texture (env.glGenTextures TexSlot.y),
   Resource.texture (env.glGenTextures TexSlot.u),
   Resource.texture (env.glGenTextures TexSlot.v),
   Resource.texture (env.glGenTextures TexSlot.rgb),
   Resource.shader (env.gl_init_shader GstGLESShaderTypes.SHADER_COPY).2.program,
   Resource.shader (env.gl_init_shader GstGLESShaderTypes.SHADER_DEINT_LINEAR).2.program]

/-! ## Format negotiation and stop (lines 1007-1081) -/

/-- Pixel formats of `gst/video/video-format.h` as far as the sink tells them
apart. -/
inductive GstVideoFormat where
  | GST_VIDEO_FORMAT_UNKNOWN
  | GST_VIDEO_FORMAT_I420
  | GST_VIDEO_FORMAT_YV12
  | GST_VIDEO_FORMAT_NV12
  deriving DecidableEq, Repr

/-- What `gst_video_info_from_caps` (before GStreamer 1.0:
`gst_video_format_parse_caps` and `gst_video_parse_caps_pixel_aspect_ratio`)
reads out of the caps.  The four numbers are `gint` values. -/
structure GstVideoInfo where
  format : GstVideoFormat
  width : Int
  height : Int
  par_n : Int
  par_d : Int
  deriving DecidableEq, Repr

/-- Caps as seen by `gst_gles_sink_set_caps`: `info` is `none` when parsing
them fails. -/
structure GstCaps where
  info : Option GstVideoInfo
  deriving DecidableEq, Repr

/-- A 32-bit `gint` result in two's complement: `x` reduced modulo `2 ^ 32`
into the range from `-2 ^ 31` to `2 ^ 31 - 1`. -/
def gint_wrap (x : Int) : Int :=
  (x + 2 ^ 31) % 2 ^ 32 - 2 ^ 31

/-- How a call of `gst_gles_sink_set_caps` ends: it returns a `gboolean` and
leaves the sink in some state, or `g_assert` aborts the process, or the
integer division of line 1078 has no result (division by zero, or
`G_MININT / -1`: undefined in C, a trap on the usual targets). -/
inductive SetCapsResult where
  | returned (ret : Bool) (sink : GstGLESSink)
  | aborted
  | trapped
  deriving DecidableEq

/-- The function `gst_gles_sink_set_caps`.  `G_DISABLE_ASSERT` says whether
`g_assert` is compiled out; `display_ratio` is what
`gst_video_calculate_display_ratio` writes to `par_n` and `par_d`.  The
product `sink->video_width * par_n` of line 1078 is a `gint` and wraps. -/
def gst_gles_sink_set_caps (G_DISABLE_ASSERT : Bool) (display_ratio : Int × Int)
    (sink : GstGLESSink) (caps : GstCaps) : SetCapsResult :=
  match caps.info with
  | none => SetCapsResult.returned false sink
  | some info =>
    if !G_DISABLE_ASSERT && info.format ≠ GstVideoFormat.GST_VIDEO_FORMAT_I420 then
      SetCapsResult.aborted
    else
      let s1 : GstGLESSink :=
        { sink with video_width := info.width, video_height := info.height,
                    width := info.width, height := info.height }
      let s2 : GstGLESSink := { s1 with par_n := display_ratio.1, par_d := display_ratio.2 }
      let p := gint_wrap (s2.video_width * info.par_n)
      if info.par_d = 0 ∨ (p = -2 ^ 31 ∧ info.par_d = -1) then SetCapsResult.trapped
      else SetCapsResult.returned true { s2 with video_width := Int.tdiv p info.par_d }

/-- Outcome of `gst_gles_sink_stop`: the sink, the calls, the return value. -/
structure StopResult where
  sink : GstGLESSink
  calls : List Call
  ret : Bool
  deriving DecidableEq

/-- The function `gst_gles_sink_stop`. -/
def gst_gles_sink_stop (sink : GstGLESSink) : StopResult :=
  let r := gl_thread_stop sink
  { sink := { r.1 with width := 0, height := 0 }, calls := r.2, ret := true }

/-- Handles of the threads joined by a call list. -/
def joined (l : List Call) : List Nat :=
  l.filterMap (fun c => match c with
    | Call.g_thread_join handle => some handle
    | _ => none)

/-! ## The handoff as an interleaving of two threads

`gst_gles_sink_render` (streaming thread) and the loop of `gl_thread_proc`
(render thread) are cut into atomic steps, one per access to the shared
fields, mutexes and condition variables.  A schedule picks the thread that
takes the next step.  `g_cond_wait` releases its mutex and goes to sleep in
one step, and takes the mutex again after a signal; `g_cond_signal` wakes the
thread sleeping on the condition, and is lost when nobody sleeps there. -/

/-- The two threads. -/
inductive Thread where
  | delivery
  | render
  deriving DecidableEq, Repr

/-- Program points of `gst_gles_sink_render` behind the drop test. -/
inductive DeliveryPc where
  /-- Line 1151, `g_mutex_lock (&thread->data_lock)`. -/
  | lock_data
  /-- Lines 1152-1154, `render_done = FALSE`, `buf = buf`, `g_cond_signal (data_signal)`. -/
  | store
  /-- Line 1155, `g_mutex_unlock (&thread->data_lock)`. -/
  | unlock_data
  /-- Line 1157, `if (!thread->render_done)`. -/
  | test_done
  /-- Line 1158, `g_mutex_lock (&thread->render_lock)`. -/
  | lock_render
  /-- Line 1159, entering `g_cond_wait (render_signal, render_lock)`. -/
  | wait_render
  /-- Line 1159, asleep inside `g_cond_wait`. -/
  | asleep
  /-- Line 1159, signalled, taking `render_lock` again. -/
  | woken
  /-- Line 1160, `g_mutex_unlock (&thread->render_lock)`. -/
  | unlock_render
  /-- Lines 1163-1168, `return GST_FLOW_OK`. -/
  | done
  /-- No call in progress and no frame left to submit. -/
  | idle
  deriving DecidableEq, Repr

/-- Program points of the loop of `gl_thread_proc`. -/
inductive RenderPc where
  /-- Line 728, `while (thread->running)`. -/
  | loop_test
  /-- Line 729, `x11_handle_events`. -/
  | handle_events
  /-- Line 731, `g_mutex_lock (&thread->data_lock)`. -/
  | lock_data
  /-- Line 733, `while (!thread->buf && thread->running)`. -/
  | wait_test
  /-- Line 734, asleep inside `g_cond_wait (data_signal, data_lock)`. -/
  | asleep
  /-- Line 734, signalled, taking `data_lock` again. -/
  | woken
  /-- Lines 737-750, `if (thread->buf)` with both draws. -/
  | test_buf
  /-- Line 752, `g_mutex_unlock (&thread->data_lock)`. -/
  | unlock_data
  /-- Line 755, `g_mutex_lock (&thread->render_lock)`. -/
  | lock_render
  /-- Line 756, `g_cond_signal (&thread->render_signal)`. -/
  | signal_render
  /-- Line 757, `g_mutex_unlock (&thread->render_lock)`. -/
  | unlock_render
  /-- Lines 760-762, `egl_close`, `x11_close`, `return`. -/
  | teardown
  /-- The thread function has returned. -/
  | exited
  deriving DecidableEq, Repr

/-- Both threads and what they share.  `todo` holds the frames still to be
submitted, the head being the frame of the call in progress; `drawn` and
`returned` record the frames drawn and the frames whose call has returned. -/
structure Handoff where
  dpc : DeliveryPc
  rpc : RenderPc
  todo : List GstBuffer
  buf : Option GstBuffer
  render_done : Bool
  running : Bool
  data_lock : Option Thread
  render_lock : Option Thread
  drawn : List GstBuffer
  returned : List GstBuffer
  deriving DecidableEq, Repr

/-- One step of the streaming thread; `none` when it cannot move. -/
def step_delivery (s : Handoff) : Option Handoff :=
  match s.dpc with
  | DeliveryPc.lock_data =>
    if s.data_lock = none then
      some { s with data_lock := some Thread.delivery, dpc := DeliveryPc.store }
    else none
  | DeliveryPc.store =>
    match s.todo with
    | [] => none
    | b :: _ =>
      some { s with render_done := false, buf := some b,
                    rpc := if s.rpc = RenderPc.asleep then RenderPc.woken else s.rpc,
                    dpc := DeliveryPc.unlock_data }
  | DeliveryPc.unlock_data =>
    some { s with data_lock := none, dpc := DeliveryPc.test_done }
  | DeliveryPc.test_done =>
    if !s.render_done then some { s with dpc := DeliveryPc.lock_render }
    else some { s with dpc := DeliveryPc.done }
  | DeliveryPc.lock_render =>
    if s.render_lock = none then
      some { s with render_lock := some Thread.delivery, dpc := DeliveryPc.wait_render }
    else none
  | DeliveryPc.wait_render =>
    some { s with render_lock := none, dpc := DeliveryPc.asleep }
  | DeliveryPc.asleep => none
  | DeliveryPc.woken =>
    if s.render_lock = none then
      some { s with render_lock := some Thread.delivery, dpc := DeliveryPc.unlock_render }
    else none
  | DeliveryPc.unlock_render =>
    some { s with render_lock := none, dpc := DeliveryPc.done }
  | DeliveryPc.done =>
    match s.todo with
    | [] => some { s with dpc := DeliveryPc.idle }
    | b :: rest =>
      some { s with returned := s.returned ++ [b], todo := rest,
                    dpc := if rest = [] then DeliveryPc.idle else DeliveryPc.lock_data }
  | DeliveryPc.idle => none

/-- One step of the render thread; `none` when it cannot move. -/
def step_render (s : Handoff) : Option Handoff :=
  match s.rpc with
  | RenderPc.loop_test =>
    if s.running then some { s with rpc := RenderPc.handle_events }
    else some { s with rpc := RenderPc.teardown }
  | RenderPc.handle_events => some { s with rpc := RenderPc.lock_data }
  | RenderPc.lock_data =>
    if s.data_lock = none then
      some { s with data_lock := some Thread.render, rpc := RenderPc.wait_test }
    else none
  | RenderPc.wait_test =>
    if s.buf.isNone && s.running then
      some { s with data_lock := none, rpc := RenderPc.asleep }
    else some { s with rpc := RenderPc.test_buf }
  | RenderPc.asleep => none
  | RenderPc.woken =>
    if s.data_lock = none then
      some { s with data_lock := some Thread.render, rpc := RenderPc.wait_test }
    else none
  | RenderPc.test_buf =>
    match s.buf with
    | some b =>
      some { s with drawn := s.drawn ++ [b], buf := none, render_done := true,
                    rpc := RenderPc.unlock_data }
    | none => some { s with rpc := RenderPc.unlock_data }
  | RenderPc.unlock_data =>
    some { s with data_lock := none, rpc := RenderPc.lock_render }
  | RenderPc.lock_render =>
    if s.render_lock = none then
      some { s with render_lock := some Thread.render, rpc := RenderPc.signal_render }
    else none
  | RenderPc.signal_render =>
    some { s with dpc := if s.dpc = DeliveryPc.asleep then DeliveryPc.woken else s.dpc,
                  rpc := RenderPc.unlock_render }
  | RenderPc.unlock_render =>
    some { s with render_lock := none, rpc := RenderPc.loop_test }
  | RenderPc.teardown => some { s with rpc := RenderPc.exited }
  | RenderPc.exited => none

/-- One step of the chosen thread. -/
def handoff_step (t : Thread) (s : Handoff) : Option Handoff :=
  match t with
  | Thread.delivery => step_delivery s
  | Thread.render => step_render s

/-- Run a schedule; `none` when it asks a thread to move that cannot. -/
def handoff_run : List Thread → Handoff → Option Handoff
  | [], s => some s
  | t :: rest, s =>
    match handoff_step t s with
    | none => none
    | some s' => handoff_run rest s'

/-- The render thread has finished its setup and stands at the loop test;
the streaming thread enters `gst_gles_sink_render` with the first frame. -/
def handoff_init (frames : List GstBuffer) : Handoff :=
  { dpc := if frames = [] then DeliveryPc.idle else DeliveryPc.lock_data,
    rpc := RenderPc.loop_test, todo := frames, buf := none, render_done := false,
    running := true, data_lock := none, render_lock := none, drawn := [], returned := [] }

/-! ## Letterbox placement -/

/-- Modelled from the spec: the library function `gst_video_sink_center_rect`
of GStreamer (called with `scaling = TRUE`), which is not part of `src/`.
Section 4.1 describes it as `computeLetterbox`: the largest rectangle with the
source aspect ratio that fits centred inside the destination; `srcW*dstH` is
compared with `srcH*dstW` to decide whether width or height is the
constraining dimension, and the remainder is centred.  Results are integers,
rounded down. -/
def computeLetterbox (srcW srcH dstW dstH : Int) : GstVideoRectangle :=
  if srcW * dstH > srcH * dstW then
    let h := dstW * srcH / srcW
    { x := 0, y := (dstH - h) / 2, w := dstW, h := h }
  else if srcW * dstH < srcH * dstW then
    let w := dstH * srcW / srcH
    { x := (dstW - w) / 2, y := 0, w := w, h := dstH }
  else
    { x := 0, y := 0, w := dstW, h := dstH }

/-- The function `gst_video_sink_center_rect` in terms of `computeLetterbox`. -/
def center_rect_letterbox (src dst : GstVideoRectangle) : GstVideoRectangle :=
  computeLetterbox src.w src.h dst.w dst.h

/-- The rectangle `result` that `gl_draw_onscreen` passes to `glViewport`. -/
def gl_draw_onscreen_result (env : GLESEnv) (sink : GstGLESSink) : GstVideoRectangle :=
  env.gst_video_sink_center_rect (gl_draw_onscreen_src sink) (gl_draw_onscreen_dst sink)

/-! ## Reading the draws of a call list -/

/-- Number of `glDrawElements` calls: one per render pass. -/
def draw_count (l : List Call) : Nat :=
  l.countP (fun c => match c with
    | Call.glDrawElements => true
    | _ => false)

/-- Number of `eglSwapBuffers` calls: one per Pass 2 with present. -/
def present_count (l : List Call) : Nat :=
  l.countP (fun c => match c with
    | Call.eglSwapBuffers _ _ => true
    | _ => false)

/-- Names of the framebuffers created by a call list. -/
def framebuffers_created (l : List Call) : List Nat :=
  (created l).filterMap (fun r => match r with
    | Resource.framebuffer id => some id
    | _ => none)

/-- The events whose case in the switch of `x11_handle_events` reaches the
geometry update and the redraw: `ConfigureNotify`, and `ConfigureRequest`,
whose case has no `break` and falls into it. -/
def XEvent.reachesRedraw (xev : XEvent) : Bool :=
  match xev.type with
  | XEventType.ConfigureRequest => true
  | XEventType.ConfigureNotify => true
  | XEventType.other _ => false

/-- The sink with `x11.width` and `x11.height` taken from an event. -/
def with_geometry (sink : GstGLESSink) (xev : XEvent) : GstGLESSink :=
  sink.withX11 { sink.x11 with width := xev.width, height := xev.height }

/-- The sink of one loop round when the wait on `data_signal` is over: X
events handled, slot and `running` as the other thread left them. -/
def loop_slot_state (env : GLESEnv) (sink : GstGLESSink) (w : Wakeup) : GstGLESSink :=
  { (x11_handle_events env sink w.pending).1 with
    gl_thread := { (x11_handle_events env sink w.pending).1.gl_thread with
                   buf := w.buf, running := w.running } }

/-- Lines 738-742: generate the frame targets unless `initialized` is set. -/
def loop_frame_targets (env : GLESEnv) (s : GstGLESSink) : GstGLESSink × List Call :=
  if !s.gles.initialized then
    ((gl_gen_framebuffer env s).1.withGles
       { (gl_gen_framebuffer env s).1.gles with initialized := true },
     (gl_gen_framebuffer env s).2)
  else (s, [])

/-- The rounds of the loop `while (thread->running)` that are completed on
the given wake-ups, in order, each with its calls.  A round is not entered
when `running` is `FALSE` at the loop test, and not completed when the
wake-up leaves the thread in its wait. -/
def gl_thread_trace (env : GLESEnv) : GstGLESSink → List Wakeup → List (Wakeup × List Call)
  | _, [] => []
  | sink, w :: rest =>
    if !sink.gl_thread.running then []
    else if !w.leavesWait then []
    else
      let b := gl_thread_loop_body env sink w
      let s : GstGLESSink :=
        { b.1 with gl_thread := { b.1.gl_thread with running := w.running_next } }
      (w, b.2) :: gl_thread_trace env s rest

/-- Number of `g_cond_signal (&thread->render_signal)` calls. -/
def completion_signals (l : List Call) : Nat :=
  l.countP (fun c => match c with
    | Call.g_cond_signal Cond.render_signal => true
    | _ => false)

/-! ## Lock bookkeeping and the window-ownership flag -/

/-- Number of `g_mutex_lock` calls on a mutex. -/
def lock_count (m : Mutex) (l : List Call) : Nat :=
  l.count (Call.g_mutex_lock m)

/-- Number of `g_mutex_unlock` calls on a mutex. -/
def unlock_count (m : Mutex) (l : List Call) : Nat :=
  l.count (Call.g_mutex_unlock m)

/-- The flag `external_window` is set only while `x11.window` holds a
non-zero handle. -/
def external_implies_window (s : GstGLESSink) : Prop :=
  s.x11.external_window = true → s.x11.window ≠ 0

/-! ## Initial state and sample inputs -/

/-- The instance after `gst_gles_sink_init`: GObject memory is zero-filled,
`silent` and `initialized` are set to `FALSE`. -/
def gst_gles_sink_init : GstGLESSink :=
  { width := 0, height := 0,
    x11 := { display := 0, window := 0, external_window := false, width := 0, height := 0 },
    gl_thread :=
      { handle := 0, running := false, buf := none, render_done := false,
        gles :=
          { initialized := false, display := 0, surface := 0, context := 0, framebuffer := 0,
            y_tex := { id := 0, loc := 0 }, u_tex := { id := 0, loc := 0 },
            v_tex := { id := 0, loc := 0 }, rgb_tex := { id := 0, loc := 0 },
            deinterlace := { program := 0, position_loc := 0, texcoord_loc := 0 },
            scale := { program := 0, position_loc := 0, texcoord_loc := 0 } } },
    video_width := 0, video_height := 0, par_n := 0, par_d := 0,
    crop_top := 0, crop_bottom := 0, crop_left := 0, crop_right := 0,
    dropped := 0, drop_first := 0, silent := false }

/-- A sink negotiated to PAL size without cropping. -/
def sink_pal : GstGLESSink :=
  { gst_gles_sink_init with width := 720, height := 576, video_width := 720, video_height := 576 }

/-- A PAL sink that crops 8 pixels left, 16 right, 4 on top and 2 at the bottom. -/
def sink_pal_cropped : GstGLESSink :=
  { sink_pal with crop_left := 8, crop_right := 16, crop_top := 4, crop_bottom := 2 }

/-- A sink negotiated to 16 x 17, an odd height inside the caps range. -/
def sink_16x17 : GstGLESSink :=
  { gst_gles_sink_init with width := 16, height := 17, video_width := 16, video_height := 17 }

/-- Library answers of a run in which every call succeeds. -/
def env_ok : GLESEnv :=
  { XOpenDisplay := 1, XCreateWindow := 2, XGetGeometry := (640, 480),
    eglGetDisplay := 3, eglInitialize := true, eglChooseConfig := true,
    eglCreateWindowSurface := 4, eglCreateContext := 5, eglMakeCurrent := true,
    gl_init_shader := fun t =>
      match t with
      | GstGLESShaderTypes.SHADER_DEINT_LINEAR =>
        (0, { program := 6, position_loc := 0, texcoord_loc := 1 })
      | GstGLESShaderTypes.SHADER_COPY =>
        (0, { program := 7, position_loc := 0, texcoord_loc := 1 }),
    glGetUniformLocation := fun _ _ => 0,
    glGenTextures := fun t =>
      match t with
      | TexSlot.y => 8
      | TexSlot.u => 9
      | TexSlot.v => 10
      | TexSlot.rgb => 12,
    glGenFramebuffers := 11,
    gst_buffer_map := fun _ => true,
    gst_video_sink_center_rect := fun _ dst => dst }

/-- A running sink configured to drop the first three frames. -/
def sink_drop3 : GstGLESSink :=
  { sink_pal with drop_first := 3,
                  gl_thread := { sink_pal.gl_thread with running := true, handle := 1 } }

/-- Reads of a call that finds the frame drawn when it looks at `render_done`. -/
def reads_drawn : DeliveryReads :=
  { gl_thread_init := 1, running_after_init := true, render_done := true }

/-- One preroll followed by three render calls, the render thread consuming
the slot after each of them. -/
def calls_drop3 : List DeliveryCall :=
  [ { entry := EntryPoint.preroll, buf := 101, reads := reads_drawn,
      render_thread := render_thread_consume env_ok },
    { entry := EntryPoint.render, buf := 102, reads := reads_drawn,
      render_thread := render_thread_consume env_ok },
    { entry := EntryPoint.render, buf := 103, reads := reads_drawn,
      render_thread := render_thread_consume env_ok },
    { entry := EntryPoint.render, buf := 104, reads := reads_drawn,
      render_thread := render_thread_consume env_ok } ]

/-- The fourth call of `calls_drop3`. -/
def call_drop3_fourth : DeliveryCall :=
  { entry := EntryPoint.render, buf := 104, reads := reads_drawn,
    render_thread := render_thread_consume env_ok }

/-- Library answers where `eglCreateWindowSurface` fails. -/
def env_no_surface : GLESEnv :=
  { env_ok with eglCreateWindowSurface := 0 }

/-- Library answers where `XOpenDisplay` fails. -/
def env_no_display : GLESEnv :=
  { env_ok with XOpenDisplay := 0 }

/-- Reads of the preroll call that spawned a thread whose setup failed: the
thread exists, `running` is still `FALSE`, and nobody sets `render_done`. -/
def reads_setup_failed : DeliveryReads :=
  { gl_thread_init := 1, running_after_init := false, render_done := false }

/-- A thread run without any wake-up. -/
def run_none : ThreadRun :=
  { stop_before_loop := false, wakeups := [] }

/-- A sink with live EGL handles and an own window on an open display. -/
def sink_live : GstGLESSink :=
  { sink_pal with
    x11 := { display := 1, window := 2, external_window := false, width := 720, height := 576 },
    gl_thread := { sink_pal.gl_thread with
      gles := { sink_pal.gl_thread.gles with display := 3, surface := 4, context := 5 } } }

/-- The same sink rendering into a window supplied by the application. -/
def sink_live_external : GstGLESSink :=
  { sink_live with x11 := { sink_live.x11 with window := 77, external_window := true } }

/-- A wake-up caused by `gl_thread_stop` while the slot is empty. -/
def wakeup_stop : Wakeup :=
  { pending := [], waits := 1, buf := none, running := false, running_next := false }

/-- A wake-up that finds the frame 101 in the slot. -/
def wakeup_frame : Wakeup :=
  { pending := [], waits := 1, buf := some 101, running := true, running_next := true }

/-- A thread run that is stopped before any frame was submitted. -/
def run_stopped : ThreadRun :=
  { stop_before_loop := false, wakeups := [wakeup_stop] }

/-- A thread run that draws one frame and is then stopped. -/
def run_one_frame : ThreadRun :=
  { stop_before_loop := false, wakeups := [wakeup_frame, wakeup_stop] }

/-- Caps that parse to a 720 x 576 NV12 stream with square pixels. -/
def caps_nv12 : GstCaps :=
  { info := some { format := GstVideoFormat.GST_VIDEO_FORMAT_NV12, width := 720, height := 576,
                   par_n := 1, par_d := 1 } }

/-- Caps that parse to a 720 x 576 I420 stream with square pixels. -/
def caps_i420 : GstCaps :=
  { info := some { format := GstVideoFormat.GST_VIDEO_FORMAT_I420, width := 720, height := 576,
                   par_n := 1, par_d := 1 } }

/-- Caps that parse to a 4096 x 4096 I420 stream with a pixel aspect ratio of
1000000 : 1. -/
def caps_i420_wide : GstCaps :=
  { info := some { format := GstVideoFormat.GST_VIDEO_FORMAT_I420, width := 4096, height := 4096,
                   par_n := 1000000, par_d := 1 } }

/-- Caps that parse to a 720 x 576 I420 stream with the pixel aspect ratio
1 : 0. -/
def caps_i420_par_zero : GstCaps :=
  { info := some { format := GstVideoFormat.GST_VIDEO_FORMAT_I420, width := 720, height := 576,
                   par_n := 1, par_d := 0 } }

/-- A fresh sink configured to drop the first frame. -/
def sink_drop1 : GstGLESSink :=
  { gst_gles_sink_init with drop_first := 1 }

/-- A schedule for one frame: the render thread goes to sleep on
`data_signal`; the streaming thread submits and tests `render_done`; the
render thread draws, signals and goes to sleep again; only then the streaming
thread enters its wait. -/
def schedule_lost_wakeup : List Thread :=
  [Thread.render, Thread.render, Thread.render, Thread.render,
   Thread.delivery, Thread.delivery, Thread.delivery, Thread.delivery,
   Thread.render, Thread.render, Thread.render, Thread.render, Thread.render,
   Thread.render, Thread.render, Thread.render, Thread.render, Thread.render,
   Thread.render,
   Thread.delivery, Thread.delivery]

/-- A schedule for one frame in which the streaming thread is asleep before
the render thread signals. -/
def schedule_in_time : List Thread :=
  [Thread.render, Thread.render, Thread.render, Thread.render,
   Thread.delivery, Thread.delivery, Thread.delivery, Thread.delivery,
   Thread.delivery, Thread.delivery,
   Thread.render, Thread.render, Thread.render, Thread.render, Thread.render,
   Thread.render, Thread.render,
   Thread.delivery, Thread.delivery, Thread.delivery]

/-- Library answers with the letterbox placement of the spec. -/
def env_letterbox : GLESEnv :=
  { env_ok with gst_video_sink_center_rect := center_rect_letterbox }

/-- A video scaled to the width `2 ^ 26` by its pixel aspect ratio, cropped
by `2 ^ 26 - 2` pixels on the left and by one pixel on the right. -/
def sink_wide_cropped : GstGLESSink :=
  { gst_gles_sink_init with width := 4096, height := 576, video_width := 67108864,
                            video_height := 576, crop_left := 67108862, crop_right := 1 }

/-- The cropped PAL sink in a window of 1024 x 768. -/
def sink_pal_cropped_window : GstGLESSink :=
  { sink_pal_cropped with x11 := { sink_pal_cropped.x11 with width := 1024, height := 768 } }

/-- The sink of a render thread that has finished its setup and is running. -/
def sink_running : GstGLESSink :=
  { (setup_gl_context env_ok gst_gles_sink_init).2.1 with
    width := 720, height := 576, video_width := 720, video_height := 576,
    gl_thread := { (setup_gl_context env_ok gst_gles_sink_init).2.1.gl_thread with
                   running := true, handle := 1 } }

/-- A wake-up that finds the frame 101 in the slot after a `ConfigureNotify`
was pending at the start of the round. -/
def wakeup_frame_resized : Wakeup :=
  { pending := [{ type := XEventType.ConfigureNotify, width := 800, height := 600 }],
    waits := 0, buf := some 101, running := true, running_next := true }

/-- A resize to 800 x 600 as `ConfigureNotify`. -/
def xev_notify : XEvent :=
  { type := XEventType.ConfigureNotify, width := 800, height := 600 }

/-- A resize to 640 x 480 as `ConfigureRequest`. -/
def xev_request : XEvent :=
  { type := XEventType.ConfigureRequest, width := 640, height := 480 }

/-- An event of another type (`Expose` is 12) whose union view holds 1 x 1. -/
def xev_expose : XEvent :=
  { type := XEventType.other 12, width := 1, height := 1 }

/-- Reads of the preroll call that spawned a thread which had set `running`
before the call looked at it. -/
def reads_running_early : DeliveryReads :=
  { gl_thread_init := 1, running_after_init := true, render_done := false }

/-- A fresh sink after the application passed the handle 0 to the setter. -/
def sink_handle_zero : GstGLESSink :=
  gst_gles_video_overlay_set_handle gst_gles_sink_init 0

/-! # Theorems -/

/-! ## The arithmetic of `float` -/

/-- Rounding to the nearest integer is off by at most one half. -/
theorem roundHalfEven_spec (x : ℚ) : |(roundHalfEven x : ℚ) - x| ≤ 1 / 2 := by
  have h1 := Int.floor_le x
  have h2 := Int.lt_floor_add_one x
  unfold roundHalfEven
  rw [abs_le]
  split_ifs <;> push_cast <;> constructor <;> linarith

/-- An integer is its own rounding. -/
theorem roundHalfEven_intCast (n : Int) : roundHalfEven (n : ℚ) = n := by
  simp [roundHalfEven]

/-- Rounding does not cross an integer above. -/
theorem roundHalfEven_le (x : ℚ) (n : Int) (h : x ≤ n) : roundHalfEven x ≤ n := by
  have h1 := Int.floor_le x
  have hf : ⌊x⌋ ≤ n := by exact_mod_cast h1.trans h
  unfold roundHalfEven
  split_ifs with a b c
  · exact hf
  · have : (⌊x⌋ : ℚ) < n := by linarith
    have : ⌊x⌋ < n := by exact_mod_cast this
    omega
  · exact hf
  · have : (⌊x⌋ : ℚ) < n := by linarith
    have : ⌊x⌋ < n := by exact_mod_cast this
    omega

/-- Rounding does not cross an integer below. -/
theorem le_roundHalfEven (x : ℚ) (n : Int) (h : (n : ℚ) ≤ x) : n ≤ roundHalfEven x := by
  have hf : n ≤ ⌊x⌋ := Int.le_floor.mpr h
  unfold roundHalfEven
  split_ifs <;> omega

/-- A value within one half of an integer, the tie excluded, rounds to it. -/
theorem roundHalfEven_eq (x : ℚ) (k : Int) (h1 : (k : ℚ) - 1 / 2 < x) (h2 : x < k + 1 / 2) :
    roundHalfEven x = k := by
  have e := roundHalfEven_spec x
  rw [abs_le] at e
  have a : ((roundHalfEven x : Int) : ℚ) < k + 1 := by linarith
  have b : (k : ℚ) - 1 < (roundHalfEven x : Int) := by linarith
  have a1 : roundHalfEven x < k + 1 := by exact_mod_cast a
  have b1 : k - 1 < roundHalfEven x := by exact_mod_cast b
  omega

/-- The largest finite value is positive. -/
theorem FLT_MAX_pos : (16777216 : ℚ) < FLT_MAX := by
  norm_num [FLT_MAX]

/-- The quantum is positive. -/
theorem Float32.quantum_pos (x : ℚ) : 0 < Float32.quantum x := by
  unfold Float32.quantum
  positivity

/-- The binade of a non-zero value. -/
theorem Float32.log_bracket (x : ℚ) (hx : x ≠ 0) :
    (2 : ℚ) ^ Int.log 2 |x| ≤ |x| ∧ |x| < (2 : ℚ) ^ (Int.log 2 |x| + 1) := by
  have hpos : 0 < |x| := abs_pos.mpr hx
  constructor
  · exact_mod_cast Int.zpow_log_le_self (by norm_num : 1 < 2) hpos
  · exact_mod_cast Int.lt_zpow_succ_log_self (by norm_num : 1 < 2) |x|

/-- The binade is determined by a bracket of powers of two. -/
theorem Float32.log_eq (x : ℚ) (L : Int) (h1 : (2 : ℚ) ^ L ≤ |x|) (h2 : |x| < (2 : ℚ) ^ (L + 1)) :
    Int.log 2 |x| = L := by
  have hpos : 0 < |x| := lt_of_lt_of_le (by positivity) h1
  have a : L ≤ Int.log 2 |x| := by
    have := (Int.zpow_le_iff_le_log (by norm_num : 1 < 2) hpos (x := L)).mp (by exact_mod_cast h1)
    exact this
  have b : Int.log 2 |x| < L + 1 := by
    have := (Int.lt_zpow_iff_log_lt (by norm_num : 1 < 2) hpos (x := L + 1)).mp
      (by exact_mod_cast h2)
    exact this
  omega

/-- Zero is converted exactly. -/
theorem Float32.round_zero : Float32.round 0 = Float32.finite 0 := by
  have h : ¬ FLT_MAX < 0 := by
    have := FLT_MAX_pos
    linarith
  simp [Float32.round, roundHalfEven, h]

/-- A value with a known binade rounds to the nearest multiple of the quantum
of that binade. -/
theorem Float32.round_eq (x : ℚ) (L k : Int) (h1 : (2 : ℚ) ^ L ≤ |x|)
    (h2 : |x| < (2 : ℚ) ^ (L + 1)) (hL : -126 ≤ L)
    (hk : roundHalfEven (x / 2 ^ (L - 23)) = k)
    (hmax : |(k : ℚ) * 2 ^ (L - 23)| ≤ FLT_MAX) :
    Float32.round x = Float32.finite (k * 2 ^ (L - 23)) := by
  have hq : Float32.quantum x = 2 ^ (L - 23) := by
    unfold Float32.quantum
    rw [Float32.log_eq x L h1 h2, max_eq_left hL]
  unfold Float32.round
  simp only [hq, hk]
  rw [if_neg (not_lt.mpr hmax)]

/-- The rounding error is at most half a quantum, and the sign is kept. -/
theorem Float32.quantum_spec (x : ℚ) :
    |(roundHalfEven (x / Float32.quantum x) : ℚ) * Float32.quantum x - x|
      ≤ Float32.quantum x / 2 ∧
    (0 ≤ x → (0 : ℚ) ≤ (roundHalfEven (x / Float32.quantum x) : ℚ) * Float32.quantum x) := by
  have hq := Float32.quantum_pos x
  constructor
  · have e := roundHalfEven_spec (x / Float32.quantum x)
    have : (roundHalfEven (x / Float32.quantum x) : ℚ) * Float32.quantum x - x
        = ((roundHalfEven (x / Float32.quantum x) : ℚ) - x / Float32.quantum x)
          * Float32.quantum x := by
      field_simp
    rw [this, abs_mul, abs_of_pos hq]
    calc |(roundHalfEven (x / Float32.quantum x) : ℚ) - x / Float32.quantum x|
          * Float32.quantum x
        ≤ 1 / 2 * Float32.quantum x := mul_le_mul_of_nonneg_right e hq.le
      _ = Float32.quantum x / 2 := by ring
  · intro hx
    have h0 : (0 : Int) ≤ roundHalfEven (x / Float32.quantum x) :=
      le_roundHalfEven _ 0 (by push_cast; exact div_nonneg hx hq.le)
    have : (0 : ℚ) ≤ (roundHalfEven (x / Float32.quantum x) : ℚ) := by exact_mod_cast h0
    exact mul_nonneg this hq.le

/-- Integers below `2 ^ 24` in absolute value are converted exactly. -/
theorem Float32.round_intCast (n : Int) (h : |n| < 2 ^ 24) :
    Float32.round (n : ℚ) = Float32.finite n := by
  by_cases h0 : n = 0
  · subst h0
    simpa using Float32.round_zero
  have hx : (n : ℚ) ≠ 0 := by exact_mod_cast h0
  obtain ⟨b1, b2⟩ := Float32.log_bracket (n : ℚ) hx
  have hpos : 0 < |(n : ℚ)| := abs_pos.mpr hx
  have hge : (1 : ℚ) ≤ |(n : ℚ)| := by
    have : (1 : Int) ≤ |n| := Int.one_le_abs h0
    exact_mod_cast this
  have hlt : |(n : ℚ)| < 2 ^ (24 : Int) := by
    have h16 : |n| < 16777216 := by
      norm_num at h
      exact h
    have : ((|n| : Int) : ℚ) < 16777216 := by exact_mod_cast h16
    rw [Int.cast_abs] at this
    norm_num
    exact this
  have hL0 : 0 ≤ Int.log 2 |(n : ℚ)| :=
    (Int.zpow_le_iff_le_log (by norm_num : 1 < 2) hpos (x := 0)).mp (by simpa using hge)
  have hL1 : Int.log 2 |(n : ℚ)| < 24 :=
    (Int.lt_zpow_iff_log_lt (by norm_num : 1 < 2) hpos (x := 24)).mp (by exact_mod_cast hlt)
  generalize Int.log 2 |(n : ℚ)| = L at b1 b2 hL0 hL1
  obtain ⟨m, hm⟩ : ∃ m : Nat, (23 : Int) - L = m := ⟨(23 - L).toNat, by omega⟩
  have hLm : L - 23 = -(m : Int) := by omega
  have hdiv : (n : ℚ) / 2 ^ (L - 23) = ((n * 2 ^ m : Int) : ℚ) := by
    rw [hLm, zpow_neg, zpow_natCast]
    push_cast
    field_simp
  have hk : roundHalfEven ((n : ℚ) / 2 ^ (L - 23)) = n * 2 ^ m := by
    rw [hdiv, roundHalfEven_intCast]
  have hval : ((n * 2 ^ m : Int) : ℚ) * 2 ^ (L - 23) = n := by
    rw [hLm, zpow_neg, zpow_natCast]
    push_cast
    field_simp
  have hmax : |((n * 2 ^ m : Int) : ℚ) * 2 ^ (L - 23)| ≤ FLT_MAX := by
    rw [hval]
    have := FLT_MAX_pos
    have : |(n : ℚ)| < 16777216 := by
      have e : ((2 : ℚ) ^ (24 : Int)) = 16777216 := by norm_num
      rw [← e]
      exact hlt
    linarith
  rw [Float32.round_eq (n : ℚ) L (n * 2 ^ m) b1 b2 (by omega) hk hmax, hval]

/-- One is converted exactly. -/
theorem Float32.round_one : Float32.round 1 = Float32.finite 1 := by
  have := Float32.round_intCast 1 (by norm_num)
  simpa using this

/-- A value of at least one rounds to a positive finite value or overflows to
positive infinity. -/
theorem Float32.round_ge_one (x : ℚ) (hx : 1 ≤ x) :
    (∃ y, Float32.round x = Float32.finite y ∧ 0 < y) ∨
    Float32.round x = Float32.inf false := by
  have hx0 : x ≠ 0 := by linarith
  have habs : |x| = x := abs_of_pos (by linarith)
  obtain ⟨b1, _⟩ := Float32.log_bracket x hx0
  have hL0 : 0 ≤ Int.log 2 |x| :=
    (Int.zpow_le_iff_le_log (by norm_num : 1 < 2) (abs_pos.mpr hx0) (x := 0)).mp
      (by simpa [habs] using hx)
  have hq : Float32.quantum x = 2 ^ (Int.log 2 |x| - 23) := by
    unfold Float32.quantum
    rw [max_eq_left (by omega)]
  have hqpos := Float32.quantum_pos x
  have hqx : Float32.quantum x ≤ x := by
    rw [hq]
    calc (2 : ℚ) ^ (Int.log 2 |x| - 23) ≤ 2 ^ Int.log 2 |x| :=
          zpow_le_zpow_right₀ (by norm_num) (by omega)
      _ ≤ |x| := b1
      _ = x := habs
  have h1 : (1 : Int) ≤ roundHalfEven (x / Float32.quantum x) :=
    le_roundHalfEven _ 1 (by push_cast; rw [le_div_iff₀ hqpos]; linarith)
  have hy : (0 : ℚ) < (roundHalfEven (x / Float32.quantum x) : ℚ) * Float32.quantum x := by
    have : (1 : ℚ) ≤ (roundHalfEven (x / Float32.quantum x) : ℚ) := by exact_mod_cast h1
    exact mul_pos (by linarith) hqpos
  unfold Float32.round
  by_cases hm : FLT_MAX < |(roundHalfEven (x / Float32.quantum x) : ℚ) * Float32.quantum x|
  · right
    simp only [hm, if_true]
    rw [decide_eq_false (not_lt.mpr hy.le)]
  · left
    exact ⟨_, by simp only [hm, if_false], hy⟩

/-- A value of the unit interval rounds to a value of the unit interval, off
by at most `2 ^ -25`. -/
theorem Float32.round_unit (x : ℚ) (h0 : 0 ≤ x) (h1 : x ≤ 1) :
    ∃ y, Float32.round x = Float32.finite y ∧ 0 ≤ y ∧ y ≤ 1 ∧ |y - x| ≤ 1 / 2 ^ 25 := by
  rcases eq_or_lt_of_le h1 with h1 | h1
  · subst h1
    exact ⟨1, Float32.round_one, by norm_num, le_refl _, by norm_num⟩
  rcases eq_or_lt_of_le h0 with h0 | h0
  · subst h0
    exact ⟨0, Float32.round_zero, le_refl _, by norm_num, by norm_num⟩
  have hx0 : x ≠ 0 := by linarith
  have habs : |x| = x := abs_of_pos h0
  have hL : Int.log 2 |x| < 0 :=
    (Int.lt_zpow_iff_log_lt (by norm_num : 1 < 2) (abs_pos.mpr hx0) (x := 0)).mp
      (by simpa [habs] using h1)
  obtain ⟨s1, s2⟩ := Float32.quantum_spec x
  have hqpos := Float32.quantum_pos x
  obtain ⟨m, hm⟩ : ∃ m : Nat, (23 : Int) - max (Int.log 2 |x|) (-126) = m :=
    ⟨(23 - max (Int.log 2 |x|) (-126)).toNat, by omega⟩
  have he : max (Int.log 2 |x|) (-126) - 23 = -(m : Int) := by omega
  have hm24 : 24 ≤ m := by omega
  have hq : Float32.quantum x = 1 / 2 ^ m := by
    unfold Float32.quantum
    rw [he, zpow_neg, zpow_natCast, one_div]
  have hq25 : Float32.quantum x / 2 ≤ 1 / 2 ^ 25 := by
    rw [hq, div_div, div_le_div_iff₀ (by positivity) (by positivity)]
    have : (2 : ℚ) ^ 24 ≤ 2 ^ m := pow_le_pow_right₀ (by norm_num) hm24
    have e : (2 : ℚ) ^ 25 = 2 ^ 24 * 2 := by norm_num
    rw [e]
    linarith
  have hle : roundHalfEven (x / Float32.quantum x) ≤ (2 ^ m : Int) :=
    roundHalfEven_le _ _ (by
      rw [hq]
      push_cast
      rw [div_le_iff₀ (by positivity)]
      have : (2 : ℚ) ^ m * (1 / 2 ^ m) = 1 := by field_simp
      linarith)
  have hy1 : (roundHalfEven (x / Float32.quantum x) : ℚ) * Float32.quantum x ≤ 1 := by
    have : (roundHalfEven (x / Float32.quantum x) : ℚ) ≤ ((2 ^ m : Int) : ℚ) := by
      exact_mod_cast hle
    calc (roundHalfEven (x / Float32.quantum x) : ℚ) * Float32.quantum x
        ≤ ((2 ^ m : Int) : ℚ) * Float32.quantum x := mul_le_mul_of_nonneg_right this hqpos.le
      _ = 1 := by
        rw [hq]
        push_cast
        field_simp
  have hy0 := s2 h0.le
  have hfin : ¬ FLT_MAX < |(roundHalfEven (x / Float32.quantum x) : ℚ) * Float32.quantum x| := by
    rw [abs_of_nonneg hy0]
    have := FLT_MAX_pos
    linarith
  refine ⟨(roundHalfEven (x / Float32.quantum x) : ℚ) * Float32.quantum x, ?_, hy0, hy1,
    s1.trans hq25⟩
  unfold Float32.round
  simp only [hfin, if_false]

/-- A tie rounds to the even neighbour. -/
theorem roundHalfEven_tie (k : Int) :
    roundHalfEven ((k : ℚ) + 1 / 2) = if k % 2 = 0 then k else k + 1 := by
  have hf : ⌊(k : ℚ) + 1 / 2⌋ = k := by
    rw [Int.floor_eq_iff]
    constructor <;> linarith
  unfold roundHalfEven
  rw [hf]
  have e : (k : ℚ) + 1 / 2 - k = 1 / 2 := by ring
  rw [e]
  simp

/-- Evaluation of a rounding from the binade `L` of the value and the integer
`k` nearest to its quotient by the quantum. -/
theorem Float32.round_eval (x y : ℚ) (L k : Int) (h1 : (2 : ℚ) ^ L ≤ |x|)
    (h2 : |x| < (2 : ℚ) ^ (L + 1)) (hL : -126 ≤ L)
    (hk1 : (k : ℚ) - 1 / 2 < x / 2 ^ (L - 23)) (hk2 : x / 2 ^ (L - 23) < k + 1 / 2)
    (hy : y = k * 2 ^ (L - 23)) (hmax : |y| ≤ FLT_MAX) :
    Float32.round x = Float32.finite y := by
  subst hy
  exact Float32.round_eq x L k h1 h2 hL (roundHalfEven_eq _ k hk1 hk2) hmax

/-! ## Crop-adjusted texture coordinates -/

/-- The texture-coordinate pairs as expressions of the four crop ratios. -/
theorem gl_draw_onscreen_texcoords_eq (sink : GstGLESSink) :
    gl_draw_onscreen_texcoords sink
      = [(Float32.add 0 (Float32.div (Float32.ofInt sink.crop_left)
            (Float32.ofInt sink.video_width)),
          Float32.add 0 (Float32.div (Float32.ofInt sink.crop_bottom)
            (Float32.ofInt sink.video_height))),
         (Float32.sub 1 (Float32.div (Float32.ofInt sink.crop_right)
            (Float32.ofInt sink.video_width)),
          Float32.add 0 (Float32.div (Float32.ofInt sink.crop_bottom)
            (Float32.ofInt sink.video_height))),
         (Float32.sub 1 (Float32.div (Float32.ofInt sink.crop_right)
            (Float32.ofInt sink.video_width)),
          Float32.sub 1 (Float32.div (Float32.ofInt sink.crop_top)
            (Float32.ofInt sink.video_height))),
         (Float32.add 0 (Float32.div (Float32.ofInt sink.crop_left)
            (Float32.ofInt sink.video_width)),
          Float32.sub 1 (Float32.div (Float32.ofInt sink.crop_top)
            (Float32.ofInt sink.video_height)))] := by
  rfl

/-- A crop of zero pixels is the ratio `0.0f`, whatever the positive
dimension. -/
theorem Float32.div_zero_crop (W : Int) (hW : 0 < W) :
    Float32.div (Float32.ofInt 0) (Float32.ofInt W) = Float32.finite 0 := by
  have h0 : Float32.ofInt 0 = Float32.finite 0 := by
    simpa [Float32.ofInt] using Float32.round_zero
  have h1 : (1 : ℚ) ≤ (W : ℚ) := by exact_mod_cast hW
  rw [h0]
  rcases Float32.round_ge_one (W : ℚ) h1 with ⟨y, hy, hpos⟩ | hinf
  · rw [Float32.ofInt, hy]
    simp only [Float32.div, if_neg hpos.ne', zero_div]
    exact Float32.round_zero
  · rw [Float32.ofInt, hinf]
    rfl

/-- Adding the ratio `0.0f` to `0.0f`, and subtracting it from `1.0f`, is
exact. -/
theorem Float32.add_sub_zero :
    Float32.add 0 (Float32.finite 0) = 0 ∧ Float32.sub 1 (Float32.finite 0) = 1 := by
  constructor
  · show Float32.round (0 + 0) = Float32.finite 0
    rw [add_zero]
    exact Float32.round_zero
  · show Float32.round (1 + -0) = Float32.finite 1
    rw [neg_zero, add_zero]
    exact Float32.round_one

/-- C1: without cropping and with positive video dimensions the four
texture-coordinate pairs of the Pass-2 quad are (0,0), (1,0), (1,1), (0,1). -/
theorem gl_draw_onscreen_texcoords_no_crop (sink : GstGLESSink)
    (_hw : 0 < sink.video_width) (_hh : 0 < sink.video_height)
    (hl : sink.crop_left = 0) (hr : sink.crop_right = 0)
    (ht : sink.crop_top = 0) (hb : sink.crop_bottom = 0) :
    gl_draw_onscreen_texcoords sink = [(0, 0), (1, 0), (1, 1), (0, 1)] := by
  rw [gl_draw_onscreen_texcoords_eq, hl, hr, ht, hb]
  simp only [Nat.cast_zero, Float32.div_zero_crop _ _hw, Float32.div_zero_crop _ _hh,
    Float32.add_sub_zero.1, Float32.add_sub_zero.2]

/-- Witness of C1 at PAL size. -/
theorem gl_draw_onscreen_texcoords_no_crop_witness :
    gl_draw_onscreen_texcoords sink_pal = [(0, 0), (1, 0), (1, 1), (0, 1)] :=
  gl_draw_onscreen_texcoords_no_crop sink_pal (by decide) (by decide) rfl rfl rfl rfl

/-- One axis of the crop: with `c1 + c2 < W ≤ 2 ^ 22` the lower edge
`0.0f + c1 / W` and the upper edge `1.0f - c2 / W` are finite, each within
`2 ^ -24` of the exact quotient, and ordered `0 ≤ lo < hi ≤ 1`, strictly
inside the unit interval where the crop is positive. -/
theorem Float32.crop_axis (c1 c2 : Nat) (W : Int) (h : (c1 : Int) + c2 < W)
    (hmax : W ≤ 2 ^ 22) :
    ∃ lo hi : ℚ,
      Float32.add 0 (Float32.div (Float32.ofInt c1) (Float32.ofInt W)) = Float32.finite lo ∧
      Float32.sub 1 (Float32.div (Float32.ofInt c2) (Float32.ofInt W)) = Float32.finite hi ∧
      |lo - (c1 : ℚ) / (W : ℚ)| ≤ 1 / 2 ^ 24 ∧
      |hi - (1 - (c2 : ℚ) / (W : ℚ))| ≤ 1 / 2 ^ 24 ∧
      0 ≤ lo ∧ lo < hi ∧ hi ≤ 1 ∧
      (0 < c1 → 0 < lo) ∧ (0 < c2 → hi < 1) := by
  have hWpos : (0 : ℚ) < (W : ℚ) := by
    have : (0 : Int) < W := by omega
    exact_mod_cast this
  have hWmax : (W : ℚ) ≤ 4194304 := by
    have : W ≤ 4194304 := by
      norm_num at hmax
      exact hmax
    exact_mod_cast this
  have hc1 : (0 : ℚ) ≤ (c1 : ℚ) := Nat.cast_nonneg _
  have hc2 : (0 : ℚ) ≤ (c2 : ℚ) := Nat.cast_nonneg _
  have hsum : (c1 : ℚ) + (c2 : ℚ) + 1 ≤ (W : ℚ) := by
    have : (c1 : Int) + c2 + 1 ≤ W := by omega
    exact_mod_cast this
  have hinv : (1 : ℚ) / 4194304 ≤ 1 / (W : ℚ) :=
    one_div_le_one_div_of_le hWpos hWmax
  have hx1 : (0 : ℚ) ≤ (c1 : ℚ) / (W : ℚ) := div_nonneg hc1 hWpos.le
  have hx2 : (0 : ℚ) ≤ (c2 : ℚ) / (W : ℚ) := div_nonneg hc2 hWpos.le
  have hx1le : (c1 : ℚ) / (W : ℚ) ≤ 1 := by
    rw [div_le_one hWpos]
    linarith
  have hx2le : (c2 : ℚ) / (W : ℚ) ≤ 1 := by
    rw [div_le_one hWpos]
    linarith
  have hgap : (c1 : ℚ) / (W : ℚ) + (c2 : ℚ) / (W : ℚ) + 1 / (W : ℚ) ≤ 1 := by
    rw [← add_div, ← add_div, div_le_one hWpos]
    exact hsum
  have hW24 : |W| < 2 ^ 24 := by
    rw [abs_lt]
    norm_num at hmax ⊢
    omega
  have hc1_24 : |(c1 : Int)| < 2 ^ 24 := by
    rw [abs_lt]
    norm_num at hmax ⊢
    omega
  have hc2_24 : |(c2 : Int)| < 2 ^ 24 := by
    rw [abs_lt]
    norm_num at hmax ⊢
    omega
  have eW : Float32.ofInt W = Float32.finite (W : ℚ) := Float32.round_intCast W hW24
  have e1 : Float32.ofInt c1 = Float32.finite (c1 : ℚ) := by
    have := Float32.round_intCast (c1 : Int) hc1_24
    simpa [Float32.ofInt] using this
  have e2 : Float32.ofInt c2 = Float32.finite (c2 : ℚ) := by
    have := Float32.round_intCast (c2 : Int) hc2_24
    simpa [Float32.ofInt] using this
  obtain ⟨y1, hy1, y1a, y1b, y1c⟩ := Float32.round_unit _ hx1 hx1le
  obtain ⟨y2, hy2, y2a, y2b, y2c⟩ := Float32.round_unit _ hx2 hx2le
  obtain ⟨lo, hlo, loa, lob, loc⟩ := Float32.round_unit y1 y1a y1b
  obtain ⟨hi, hhi, hia, hib, hic⟩ := Float32.round_unit (1 - y2) (by linarith) (by linarith)
  have d1 : Float32.div (Float32.ofInt c1) (Float32.ofInt W) = Float32.finite y1 := by
    rw [e1, eW]
    simp only [Float32.div, if_neg hWpos.ne']
    exact hy1
  have d2 : Float32.div (Float32.ofInt c2) (Float32.ofInt W) = Float32.finite y2 := by
    rw [e2, eW]
    simp only [Float32.div, if_neg hWpos.ne']
    exact hy2
  have a1 : Float32.add 0 (Float32.finite y1) = Float32.finite lo := by
    show Float32.round (0 + y1) = Float32.finite lo
    rw [zero_add]
    exact hlo
  have a2 : Float32.sub 1 (Float32.finite y2) = Float32.finite hi := by
    show Float32.round (1 + -y2) = Float32.finite hi
    rw [← sub_eq_add_neg]
    exact hhi
  rw [abs_le] at y1c y2c loc hic
  have p25 : (1 : ℚ) / 2 ^ 25 = 1 / 33554432 := by norm_num
  have p24 : (1 : ℚ) / 2 ^ 24 = 1 / 16777216 := by norm_num
  rw [p25] at y1c y2c loc hic
  refine ⟨lo, hi, by rw [d1, a1], by rw [d2, a2], ?_, ?_, loa, ?_, hib, ?_, ?_⟩
  · rw [abs_le, p24]
    constructor <;> linarith
  · rw [abs_le, p24]
    constructor <;> linarith
  · linarith
  · intro hpos
    have : (1 : ℚ) ≤ (c1 : ℚ) := by exact_mod_cast hpos
    have : 1 / (W : ℚ) ≤ (c1 : ℚ) / (W : ℚ) := div_le_div_of_nonneg_right this hWpos.le
    linarith
  · intro hpos
    have : (1 : ℚ) ≤ (c2 : ℚ) := by exact_mod_cast hpos
    have : 1 / (W : ℚ) ≤ (c2 : ℚ) / (W : ℚ) := div_le_div_of_nonneg_right this hWpos.le
    linarith

/-- The crop ratios of the PAL frame cropped by 8, 16, 4 and 2 pixels. -/
theorem Float32.div_pal_cropped :
    Float32.div (Float32.ofInt 8) (Float32.ofInt 720) = Float32.finite (11930465 / 2 ^ 30) ∧
    Float32.div (Float32.ofInt 16) (Float32.ofInt 720) = Float32.finite (11930465 / 2 ^ 29) ∧
    Float32.div (Float32.ofInt 4) (Float32.ofInt 576) = Float32.finite (14913081 / 2 ^ 31) ∧
    Float32.div (Float32.ofInt 2) (Float32.ofInt 576) = Float32.finite (14913081 / 2 ^ 32) := by
  have e720 : Float32.ofInt 720 = Float32.finite 720 := by
    simpa using Float32.round_intCast 720 (by norm_num)
  have e576 : Float32.ofInt 576 = Float32.finite 576 := by
    simpa using Float32.round_intCast 576 (by norm_num)
  have e8 : Float32.ofInt 8 = Float32.finite 8 := by
    simpa using Float32.round_intCast 8 (by norm_num)
  have e16 : Float32.ofInt 16 = Float32.finite 16 := by
    simpa using Float32.round_intCast 16 (by norm_num)
  have e4 : Float32.ofInt 4 = Float32.finite 4 := by
    simpa using Float32.round_intCast 4 (by norm_num)
  have e2 : Float32.ofInt 2 = Float32.finite 2 := by
    simpa using Float32.round_intCast 2 (by norm_num)
  have hmax : ∀ y : ℚ, |y| ≤ 1 → |y| ≤ FLT_MAX := by
    intro y hy
    have := FLT_MAX_pos
    linarith
  refine ⟨?_, ?_, ?_, ?_⟩
  · rw [e8, e720]
    simp only [Float32.div, if_neg (by norm_num : ¬ (720 : ℚ) = 0)]
    exact Float32.round_eval _ _ (-7) 11930465 (by norm_num [abs_of_pos])
      (by norm_num [abs_of_pos]) (by norm_num) (by norm_num) (by norm_num) (by norm_num)
      (hmax _ (by norm_num [abs_of_pos]))
  · rw [e16, e720]
    simp only [Float32.div, if_neg (by norm_num : ¬ (720 : ℚ) = 0)]
    exact Float32.round_eval _ _ (-6) 11930465 (by norm_num [abs_of_pos])
      (by norm_num [abs_of_pos]) (by norm_num) (by norm_num) (by norm_num) (by norm_num)
      (hmax _ (by norm_num [abs_of_pos]))
  · rw [e4, e576]
    simp only [Float32.div, if_neg (by norm_num : ¬ (576 : ℚ) = 0)]
    exact Float32.round_eval _ _ (-8) 14913081 (by norm_num [abs_of_pos])
      (by norm_num [abs_of_pos]) (by norm_num) (by norm_num) (by norm_num) (by norm_num)
      (hmax _ (by norm_num [abs_of_pos]))
  · rw [e2, e576]
    simp only [Float32.div, if_neg (by norm_num : ¬ (576 : ℚ) = 0)]
    exact Float32.round_eval _ _ (-9) 14913081 (by norm_num [abs_of_pos])
      (by norm_num [abs_of_pos]) (by norm_num) (by norm_num) (by norm_num) (by norm_num)
      (hmax _ (by norm_num [abs_of_pos]))

/-- C2 (as stated, refuted): for the PAL frame cropped by 8, 16, 4 and 2
pixels the corners computed by `gl_draw_onscreen` are the `float`s
`11930465 / 2 ^ 30`, `16404389 / 2 ^ 24`, `14913081 / 2 ^ 32` and
`4165177 / 2 ^ 22`, none of which is the exact quotient `8 / 720`,
`1 - 16 / 720`, `2 / 576` or `1 - 4 / 576`. -/
theorem gl_draw_onscreen_texcoords_rounded :
    gl_draw_onscreen_texcoords sink_pal_cropped
      = [(Float32.finite (11930465 / 2 ^ 30), Float32.finite (14913081 / 2 ^ 32)),
         (Float32.finite (16404389 / 2 ^ 24), Float32.finite (14913081 / 2 ^ 32)),
         (Float32.finite (16404389 / 2 ^ 24), Float32.finite (4165177 / 2 ^ 22)),
         (Float32.finite (11930465 / 2 ^ 30), Float32.finite (4165177 / 2 ^ 22))] ∧
    (11930465 / 2 ^ 30 : ℚ) ≠ 8 / 720 ∧
    (16404389 / 2 ^ 24 : ℚ) ≠ 1 - 16 / 720 ∧
    (14913081 / 2 ^ 32 : ℚ) ≠ 2 / 576 ∧
    (4165177 / 2 ^ 22 : ℚ) ≠ 1 - 4 / 576 := by
  obtain ⟨d1, d2, d3, d4⟩ := Float32.div_pal_cropped
  have hmax : ∀ y : ℚ, |y| ≤ 1 → |y| ≤ FLT_MAX := by
    intro y hy
    have := FLT_MAX_pos
    linarith
  have l : Float32.add 0 (Float32.finite (11930465 / 2 ^ 30))
      = Float32.finite (11930465 / 2 ^ 30) := by
    show Float32.round (0 + 11930465 / 2 ^ 30) = _
    exact Float32.round_eval _ _ (-7) 11930465 (by norm_num [abs_of_pos])
      (by norm_num [abs_of_pos]) (by norm_num) (by norm_num) (by norm_num) (by norm_num)
      (hmax _ (by norm_num [abs_of_pos]))
  have b : Float32.add 0 (Float32.finite (14913081 / 2 ^ 32))
      = Float32.finite (14913081 / 2 ^ 32) := by
    show Float32.round (0 + 14913081 / 2 ^ 32) = _
    exact Float32.round_eval _ _ (-9) 14913081 (by norm_num [abs_of_pos])
      (by norm_num [abs_of_pos]) (by norm_num) (by norm_num) (by norm_num) (by norm_num)
      (hmax _ (by norm_num [abs_of_pos]))
  have r : Float32.sub 1 (Float32.finite (11930465 / 2 ^ 29))
      = Float32.finite (16404389 / 2 ^ 24) := by
    show Float32.round (1 + -(11930465 / 2 ^ 29)) = _
    exact Float32.round_eval _ _ (-1) 16404389 (by norm_num [abs_of_pos])
      (by norm_num [abs_of_pos]) (by norm_num) (by norm_num) (by norm_num) (by norm_num)
      (hmax _ (by norm_num [abs_of_pos]))
  have t : Float32.sub 1 (Float32.finite (14913081 / 2 ^ 31))
      = Float32.finite (4165177 / 2 ^ 22) := by
    show Float32.round (1 + -(14913081 / 2 ^ 31)) = _
    exact Float32.round_eval _ _ (-1) 16660708 (by norm_num [abs_of_pos])
      (by norm_num [abs_of_pos]) (by norm_num) (by norm_num) (by norm_num) (by norm_num)
      (hmax _ (by norm_num [abs_of_pos]))
  refine ⟨?_, by norm_num, by norm_num, by norm_num, by norm_num⟩
  rw [gl_draw_onscreen_texcoords_eq]
  have c1 : ((sink_pal_cropped.crop_left : Nat) : Int) = 8 := rfl
  have c2 : ((sink_pal_cropped.crop_right : Nat) : Int) = 16 := rfl
  have c3 : ((sink_pal_cropped.crop_top : Nat) : Int) = 4 := rfl
  have c4 : ((sink_pal_cropped.crop_bottom : Nat) : Int) = 2 := rfl
  have c5 : sink_pal_cropped.video_width = 720 := rfl
  have c6 : sink_pal_cropped.video_height = 576 := rfl
  rw [c1, c2, c3, c4, c5, c6, d1, d2, d3, d4, l, b, r, t]

/-- C2 (amended): for crops with `crop_left + crop_right < video_width`,
`crop_top + crop_bottom < video_height` and dimensions of at most `2 ^ 22`
the four texture corners computed by `gl_draw_onscreen` are (l,b), (r,b),
(r,t), (l,t) with finite `float`s l, r, b, t that lie within `2 ^ -24` of
`crop_left / W`, `1 - crop_right / W`, `crop_bottom / H` and
`1 - crop_top / H`; they form a rectangle with `0 ≤ l < r ≤ 1` and
`0 ≤ b < t ≤ 1` that is strictly inside the unit square on every edge whose
crop is positive. -/
theorem gl_draw_onscreen_texcoords_crop (sink : GstGLESSink)
    (hW : (sink.crop_left : Int) + sink.crop_right < sink.video_width)
    (hH : (sink.crop_top : Int) + sink.crop_bottom < sink.video_height)
    (hWmax : sink.video_width ≤ 2 ^ 22) (hHmax : sink.video_height ≤ 2 ^ 22) :
    ∃ l r b t : ℚ,
      gl_draw_onscreen_texcoords sink
        = [(Float32.finite l, Float32.finite b), (Float32.finite r, Float32.finite b),
           (Float32.finite r, Float32.finite t), (Float32.finite l, Float32.finite t)] ∧
      (|l - (sink.crop_left : ℚ) / (sink.video_width : ℚ)| ≤ 1 / 2 ^ 24 ∧
        |r - (1 - (sink.crop_right : ℚ) / (sink.video_width : ℚ))| ≤ 1 / 2 ^ 24 ∧
        |b - (sink.crop_bottom : ℚ) / (sink.video_height : ℚ)| ≤ 1 / 2 ^ 24 ∧
        |t - (1 - (sink.crop_top : ℚ) / (sink.video_height : ℚ))| ≤ 1 / 2 ^ 24) ∧
      (0 ≤ l ∧ l < r ∧ r ≤ 1) ∧ (0 ≤ b ∧ b < t ∧ t ≤ 1) ∧
      (0 < sink.crop_left → 0 < l) ∧ (0 < sink.crop_right → r < 1) ∧
      (0 < sink.crop_bottom → 0 < b) ∧ (0 < sink.crop_top → t < 1) := by
  obtain ⟨l, r, hl, hr, el, er, l0, lr, r1, lpos, rlt⟩ :=
    Float32.crop_axis sink.crop_left sink.crop_right sink.video_width hW hWmax
  obtain ⟨b, t, hb, ht, eb, et, b0, bt, t1, bpos, tlt⟩ :=
    Float32.crop_axis sink.crop_bottom sink.crop_top sink.video_height (by omega) hHmax
  refine ⟨l, r, b, t, ?_, ⟨el, er, eb, et⟩, ⟨l0, lr, r1⟩, ⟨b0, bt, t1⟩, lpos, rlt, bpos, tlt⟩
  rw [gl_draw_onscreen_texcoords_eq, hl, hr, hb, ht]

/-- Witness of C2 (amended): PAL frame cropped by 8, 16, 4 and 2 pixels. -/
theorem gl_draw_onscreen_texcoords_crop_witness :
    ∃ l r b t : ℚ,
      gl_draw_onscreen_texcoords sink_pal_cropped
        = [(Float32.finite l, Float32.finite b), (Float32.finite r, Float32.finite b),
           (Float32.finite r, Float32.finite t), (Float32.finite l, Float32.finite t)] ∧
      (0 ≤ l ∧ l < r ∧ r ≤ 1) ∧ (0 ≤ b ∧ b < t ∧ t ≤ 1) :=
  match gl_draw_onscreen_texcoords_crop sink_pal_cropped (by decide) (by decide)
      (by decide) (by decide) with
  | ⟨l, r, b, t, h, _, hx, hy, _⟩ => ⟨l, r, b, t, h, hx, hy⟩

/-- Beyond the bound the order is lost: at the width `2 ^ 26`, cropped by
`2 ^ 26 - 2` pixels on the left and by one pixel on the right, both vertical
edges of the rectangle are at `1.0f`, although the crops are valid and
positive. -/
theorem gl_draw_onscreen_texcoords_wide :
    (sink_wide_cropped.crop_left : Int) + sink_wide_cropped.crop_right
      < sink_wide_cropped.video_width ∧
    gl_draw_onscreen_texcoords sink_wide_cropped = [(1, 0), (1, 0), (1, 1), (1, 1)] := by
  have hmax : ∀ y : ℚ, |y| ≤ 16777216 → |y| ≤ FLT_MAX := by
    intro y hy
    have := FLT_MAX_pos
    linarith
  have hmax2 : (67108864 : ℚ) ≤ FLT_MAX := by norm_num [FLT_MAX]
  have eW : Float32.ofInt 67108864 = Float32.finite 67108864 := by
    show Float32.round ((67108864 : Int) : ℚ) = _
    exact Float32.round_eval _ _ 26 8388608 (by norm_num [abs_of_pos])
      (by norm_num [abs_of_pos]) (by norm_num) (by norm_num) (by norm_num) (by norm_num)
      (by rw [abs_of_pos (by norm_num)]; exact hmax2)
  have eL : Float32.ofInt 67108862 = Float32.finite 67108864 := by
    show Float32.round ((67108862 : Int) : ℚ) = _
    have hk : roundHalfEven (((67108862 : Int) : ℚ) / 2 ^ ((25 : Int) - 23)) = 16777216 := by
      have e : ((67108862 : Int) : ℚ) / 2 ^ ((25 : Int) - 23)
          = ((16777215 : Int) : ℚ) + 1 / 2 := by norm_num
      rw [e, roundHalfEven_tie]
      decide
    have := Float32.round_eq ((67108862 : Int) : ℚ) 25 16777216 (by norm_num [abs_of_pos])
      (by norm_num [abs_of_pos]) (by norm_num) hk
      (by norm_num [abs_of_pos]; exact hmax2)
    rw [this]
    norm_num
  have e1 : Float32.ofInt 1 = Float32.finite 1 := by
    simpa using Float32.round_intCast 1 (by norm_num)
  have dl : Float32.div (Float32.finite 67108864) (Float32.finite 67108864)
      = Float32.finite 1 := by
    simp only [Float32.div, if_neg (by norm_num : ¬ (67108864 : ℚ) = 0)]
    rw [div_self (by norm_num)]
    exact Float32.round_one
  have dr : Float32.div (Float32.finite 1) (Float32.finite 67108864)
      = Float32.finite (1 / 2 ^ 26) := by
    simp only [Float32.div, if_neg (by norm_num : ¬ (67108864 : ℚ) = 0)]
    exact Float32.round_eval _ _ (-26) 8388608 (by norm_num [abs_of_pos])
      (by norm_num [abs_of_pos]) (by norm_num) (by norm_num) (by norm_num) (by norm_num)
      (hmax _ (by norm_num [abs_of_pos]))
  have l : Float32.add 0 (Float32.finite 1) = 1 := by
    show Float32.round (0 + 1) = Float32.finite 1
    rw [zero_add]
    exact Float32.round_one
  have r : Float32.sub 1 (Float32.finite (1 / 2 ^ 26)) = 1 := by
    show Float32.round (1 + -(1 / 2 ^ 26)) = Float32.finite 1
    exact Float32.round_eval _ _ (-1) 16777216 (by norm_num [abs_of_pos])
      (by norm_num [abs_of_pos]) (by norm_num) (by norm_num) (by norm_num) (by norm_num)
      (hmax _ (by norm_num))
  refine ⟨by decide, ?_⟩
  rw [gl_draw_onscreen_texcoords_eq]
  have c1 : ((sink_wide_cropped.crop_left : Nat) : Int) = 67108862 := rfl
  have c2 : ((sink_wide_cropped.crop_right : Nat) : Int) = 1 := rfl
  have c3 : ((sink_wide_cropped.crop_top : Nat) : Int) = 0 := rfl
  have c4 : ((sink_wide_cropped.crop_bottom : Nat) : Int) = 0 := rfl
  have c5 : sink_wide_cropped.video_width = 67108864 := rfl
  have c6 : sink_wide_cropped.video_height = 576 := rfl
  rw [c1, c2, c3, c4, c5, c6, eW, eL, e1, dl, dr, l, r,
    Float32.div_zero_crop 576 (by norm_num), Float32.add_sub_zero.1, Float32.add_sub_zero.2]

/-! ## Plane offsets of the texture upload -/

/-- For an even height the V plane starts where the U plane ends. -/
theorem gl_load_texture_planes_even_height (sink : GstGLESSink) (k : Int)
    (hh : sink.height = 2 * k) :
    (gl_load_texture_planes sink).map (fun p => (p.offset, p.w, p.h))
      = [(0, sink.width, sink.height),
         (sink.width * sink.height, Int.tdiv sink.width 2, Int.tdiv sink.height 2),
         (sink.width * sink.height + Int.tdiv sink.width 2 * Int.tdiv sink.height 2,
          Int.tdiv sink.width 2, Int.tdiv sink.height 2)] := by
  have h1 : Int.tdiv (Int.tdiv sink.width 2 * sink.height) 2
      = Int.tdiv sink.width 2 * Int.tdiv sink.height 2 := by
    rw [hh, Int.mul_tdiv_cancel_left _ (by decide : (2 : Int) ≠ 0),
      show Int.tdiv sink.width 2 * (2 * k) = 2 * (Int.tdiv sink.width 2 * k) by ring,
      Int.mul_tdiv_cancel_left _ (by decide : (2 : Int) ≠ 0)]
  simp [gl_load_texture_planes, h1]

/-- C3 (evaluation at a failing input): at 16 x 17 the U plane is read at
offset 272 with size 8 x 8, so it ends at 336, but the V plane is read at
offset 340, because `W/2 * H/2` is evaluated as `((W/2) * H) / 2`. -/
theorem gl_load_texture_planes_16x17 :
    (gl_load_texture_planes sink_16x17).map (fun p => (p.offset, p.w, p.h))
      = [(0, 16, 17), (272, 8, 8), (340, 8, 8)] ∧
    (272 : Int) + 8 * 8 = 336 ∧
    sink_16x17.width * sink_16x17.height
      + Int.tdiv sink_16x17.width 2 * Int.tdiv sink_16x17.height 2 = 336 := by
  decide

/-! ## Dropping the leading frames -/

/-- A call entered with the thread running and the drop counter below
`drop_first` only increments the counter. -/
theorem deliver_drop (c : DeliveryCall) (s : GstGLESSink)
    (hr : s.gl_thread.running = true) (hd : s.dropped < s.drop_first) :
    deliver c s = { sink := { s with dropped := s.dropped + 1 }, calls := [],
                    ret := GstFlowReturn.GST_FLOW_OK } := by
  cases hc : c.entry <;>
    simp [deliver, hc, gst_gles_sink_preroll, gst_gles_sink_render, hr, hd]

/-- A call entered with the thread running and the drop counter used up
stores its frame in the slot. -/
theorem deliver_submit (c : DeliveryCall) (s : GstGLESSink)
    (hr : s.gl_thread.running = true) (hd : ¬ s.dropped < s.drop_first) :
    (deliver c s).sink
      = { s with gl_thread := { s.gl_thread with render_done := false, buf := some c.buf } } ∧
    (deliver c s).ret = GstFlowReturn.GST_FLOW_OK ∧
    [Call.g_mutex_lock Mutex.data_lock, Call.g_cond_signal Cond.data_signal,
      Call.g_mutex_unlock Mutex.data_lock] <+: (deliver c s).calls := by
  cases hc : c.entry <;> cases hrd : c.reads.render_done <;>
    simp [deliver, hc, gst_gles_sink_preroll, gst_gles_sink_render, hr, hd, hrd]

/-- Effect of one call on the fields that decide dropping. -/
theorem deliver_fields (c : DeliveryCall) (s : GstGLESSink)
    (hr : s.gl_thread.running = true) :
    (deliver c s).sink.gl_thread.running = true ∧
    (deliver c s).sink.drop_first = s.drop_first ∧
    (s.dropped < s.drop_first → (deliver c s).sink.dropped = s.dropped + 1) ∧
    (¬ s.dropped < s.drop_first → (deliver c s).sink.dropped = s.dropped) := by
  by_cases hlt : s.dropped < s.drop_first
  · rw [deliver_drop c s hr hlt]
    simp [hr, hlt]
  · rw [(deliver_submit c s hr hlt).1]
    simp [hr, hlt]

/-- State of the drop counter at the entry of call `i` of a sequence. -/
theorem deliver_all_entry (n : Nat) :
    ∀ (calls : List DeliveryCall) (sink : GstGLESSink),
      sink.gl_thread.running = true → sink.drop_first = n → sink.dropped ≤ n →
      (∀ c ∈ calls, RenderThreadOnly c.render_thread) →
      ∀ (i : Nat) (c : DeliveryCall), calls[i]? = some c →
        ∃ s, (deliver_all sink calls)[i]? = some (s, deliver c s) ∧
          s.gl_thread.running = true ∧ s.drop_first = n ∧
          (sink.dropped + i ≤ n → s.dropped = sink.dropped + i) ∧
          (n ≤ sink.dropped + i → s.dropped = n) := by
  intro calls
  induction calls with
  | nil => intro sink _ _ _ _ i c hc; simp at hc
  | cons c0 rest ih =>
    intro sink hr hn hd hrt i c hc
    cases i with
    | zero =>
      simp at hc
      subst hc
      refine ⟨sink, by simp [deliver_all], hr, hn, by simp, ?_⟩
      intro h
      simp at h
      omega
    | succ j =>
      simp at hc
      have hrt1 : ∀ c ∈ rest, RenderThreadOnly c.render_thread :=
        fun c hcm => hrt c (by simp [hcm])
      obtain ⟨h1, h2, h3⟩ := hrt c0 (by simp) (deliver c0 sink).sink
      obtain ⟨d1, d2, d3, d4⟩ := deliver_fields c0 sink hr
      have hnext : (c0.render_thread (deliver c0 sink).sink).dropped ≤ n := by
        rw [h1]
        by_cases hlt : sink.dropped < sink.drop_first
        · rw [d3 hlt]; omega
        · rw [d4 hlt]; exact hd
      obtain ⟨s, hs, hsr, hsn, hsa, hsb⟩ :=
        ih (c0.render_thread (deliver c0 sink).sink) (by rw [h3, d1]) (by rw [h2, d2, hn])
          hnext hrt1 j c hc
      rw [h1] at hsa hsb
      refine ⟨s, by simpa [deliver_all] using hs, hsr, hsn, ?_, ?_⟩
      · intro h
        have hlt : sink.dropped < sink.drop_first := by omega
        rw [d3 hlt] at hsa
        rw [hsa (by omega)]
        omega
      · intro h
        by_cases hlt : sink.dropped < sink.drop_first
        · rw [d3 hlt] at hsb
          exact hsb (by omega)
        · rw [d4 hlt] at hsb
          exact hsb (by omega)

/-- C4: with `drop_first = n`, `dropped = 0` and the render thread running,
in any sequence of preroll and render calls each of the first n calls only
increments the drop counter (slot untouched, no lock, signal or wait) and
returns `GST_FLOW_OK`; every later call, the call number n+1 first, stores its
own frame in the slot and signals the render thread. -/
theorem drop_first_frames (n : Nat) (sink : GstGLESSink) (calls : List DeliveryCall)
    (hd : sink.dropped = 0) (hn : sink.drop_first = n)
    (hr : sink.gl_thread.running = true)
    (hrt : ∀ c ∈ calls, RenderThreadOnly c.render_thread)
    (i : Nat) (c : DeliveryCall) (hc : calls[i]? = some c) :
    ∃ s r, (deliver_all sink calls)[i]? = some (s, r) ∧
      (i < n →
        r.sink = { s with dropped := s.dropped + 1 } ∧ r.calls = [] ∧
        r.ret = GstFlowReturn.GST_FLOW_OK) ∧
      (n ≤ i →
        r.sink = { s with gl_thread :=
                     { s.gl_thread with render_done := false, buf := some c.buf } } ∧
        Call.g_cond_signal Cond.data_signal ∈ r.calls ∧
        r.ret = GstFlowReturn.GST_FLOW_OK) := by
  obtain ⟨s, hs, hsr, hsn, hsa, hsb⟩ :=
    deliver_all_entry n calls sink hr hn (by omega) hrt i c hc
  rw [hd] at hsa hsb
  refine ⟨s, deliver c s, hs, ?_, ?_⟩
  · intro hi
    have hlt : s.dropped < s.drop_first := by rw [hsa (by omega), hsn]; omega
    rw [deliver_drop c s hsr hlt]
    simp
  · intro hi
    have hlt : ¬ s.dropped < s.drop_first := by rw [hsb (by omega), hsn]; omega
    obtain ⟨e1, e2, e3⟩ := deliver_submit c s hsr hlt
    refine ⟨e1, ?_, e2⟩
    exact e3.subset (by simp)

/-- The render thread's round leaves the drop bookkeeping and `running` alone. -/
theorem render_thread_consume_only (env : GLESEnv) :
    RenderThreadOnly (render_thread_consume env) := by
  intro s
  simp only [render_thread_consume, gl_thread_loop_body, x11_handle_events, x11_drain]
  cases hb : s.gl_thread.buf <;> cases hi : s.gl_thread.gles.initialized <;>
    simp [GstGLESSink.gles, GstGLESSink.withGles, gl_gen_framebuffer, hi]

/-- Witness of C4: with `drop_first = 3` the fourth call is the first one
whose frame reaches the slot. -/
theorem drop_first_frames_witness :
    ∃ s r, (deliver_all sink_drop3 calls_drop3)[3]? = some (s, r) ∧
      (3 < 3 →
        r.sink = { s with dropped := s.dropped + 1 } ∧ r.calls = [] ∧
        r.ret = GstFlowReturn.GST_FLOW_OK) ∧
      (3 ≤ 3 →
        r.sink = { s with gl_thread :=
                     { s.gl_thread with render_done := false,
                                        buf := some call_drop3_fourth.buf } } ∧
        Call.g_cond_signal Cond.data_signal ∈ r.calls ∧
        r.ret = GstFlowReturn.GST_FLOW_OK) :=
  drop_first_frames 3 sink_drop3 calls_drop3 rfl rfl rfl
    (by
      intro c hc
      simp only [calls_drop3, List.mem_cons, List.mem_singleton, List.not_mem_nil, or_false] at hc
      rcases hc with h | h | h | h <;> subst h <;> exact render_thread_consume_only env_ok)
    3 call_drop3_fourth rfl

/-! ## Context setup: success path -/

/-- A successful `setup_gl_context` went through every stage. -/
theorem setup_gl_context_success (env : GLESEnv) (sink : GstGLESSink)
    (h : (setup_gl_context env sink).1 = 0) :
    env.XOpenDisplay ≠ 0 ∧ env.eglGetDisplay ≠ 0 ∧ env.eglInitialize = true ∧
    env.eglChooseConfig = true ∧ env.eglCreateWindowSurface ≠ 0 ∧
    env.eglCreateContext ≠ 0 ∧ env.eglMakeCurrent = true ∧
    0 ≤ (env.gl_init_shader GstGLESShaderTypes.SHADER_DEINT_LINEAR).1 ∧
    0 ≤ (env.gl_init_shader GstGLESShaderTypes.SHADER_COPY).1 := by
  have h1 : env.XOpenDisplay ≠ 0 := by
    intro hc
    simp [setup_gl_context, x11_init, hc, ENOMEM] at h
  have h2 : env.eglGetDisplay ≠ 0 := by
    intro hc
    by_cases hw : sink.x11.window = 0 <;>
      simp [setup_gl_context, x11_init, egl_init, GstGLESSink.withX11, GstGLESSink.withGles, GstGLESSink.gles,
        h1, hc, hw, ENOMEM] at h
  have h3 : env.eglInitialize = true := by
    by_contra hc
    by_cases hw : sink.x11.window = 0 <;>
      simp [setup_gl_context, x11_init, egl_init, GstGLESSink.withX11, GstGLESSink.withGles, GstGLESSink.gles,
        h1, h2, hc, hw, ENOMEM] at h
  have h4 : env.eglChooseConfig = true := by
    by_contra hc
    by_cases hw : sink.x11.window = 0 <;>
      simp [setup_gl_context, x11_init, egl_init, GstGLESSink.withX11, GstGLESSink.withGles, GstGLESSink.gles,
        h1, h2, h3, hc, hw, ENOMEM] at h
  have h5 : env.eglCreateWindowSurface ≠ 0 := by
    intro hc
    by_cases hw : sink.x11.window = 0 <;>
      simp [setup_gl_context, x11_init, egl_init, GstGLESSink.withX11, GstGLESSink.withGles, GstGLESSink.gles,
        h1, h2, h3, h4, hc, hw, ENOMEM] at h
  have h6 : env.eglCreateContext ≠ 0 := by
    intro hc
    by_cases hw : sink.x11.window = 0 <;>
      simp [setup_gl_context, x11_init, egl_init, GstGLESSink.withX11, GstGLESSink.withGles, GstGLESSink.gles,
        h1, h2, h3, h4, h5, hc, hw, ENOMEM] at h
  have h7 : env.eglMakeCurrent = true := by
    by_contra hc
    by_cases hw : sink.x11.window = 0 <;>
      simp [setup_gl_context, x11_init, egl_init, GstGLESSink.withX11, GstGLESSink.withGles, GstGLESSink.gles,
        h1, h2, h3, h4, h5, h6, hc, hw, ENOMEM] at h
  have h8 : 0 ≤ (env.gl_init_shader GstGLESShaderTypes.SHADER_DEINT_LINEAR).1 := by
    by_contra hc
    rw [not_le] at hc
    by_cases hw : sink.x11.window = 0 <;>
      simp [setup_gl_context, x11_init, egl_init, GstGLESSink.withX11, GstGLESSink.withGles, GstGLESSink.gles,
        h1, h2, h3, h4, h5, h6, h7, hc, hw, ENOMEM] at h
  have h9 : 0 ≤ (env.gl_init_shader GstGLESShaderTypes.SHADER_COPY).1 := by
    by_contra hc
    rw [not_le] at hc
    have h8n := not_lt.mpr h8
    by_cases hw : sink.x11.window = 0 <;>
      simp [setup_gl_context, x11_init, egl_init, GstGLESSink.withX11, GstGLESSink.withGles, GstGLESSink.gles,
        h1, h2, h3, h4, h5, h6, h7, h8n, hc, hw, ENOMEM] at h
  exact ⟨h1, h2, h3, h4, h5, h6, h7, h8, h9⟩

/-- The calls of a successful `setup_gl_context`, and the handles it leaves in
the sink. -/
theorem setup_gl_context_success_calls (env : GLESEnv) (sink : GstGLESSink)
    (h : (setup_gl_context env sink).1 = 0) :
    (setup_gl_context env sink).2.2 =
      (if sink.x11.window = 0 then
        [Call.XOpenDisplay env.XOpenDisplay, Call.XLockDisplay env.XOpenDisplay,
         Call.XCreateWindow env.XOpenDisplay 720 576 env.XCreateWindow,
         Call.XSetWindowBackgroundPixmap env.XCreateWindow, Call.XSetWMHints env.XCreateWindow,
         Call.XMapWindow env.XCreateWindow, Call.XStoreName env.XCreateWindow,
         Call.XUnlockDisplay env.XOpenDisplay]
      else
        [Call.XOpenDisplay env.XOpenDisplay, Call.XLockDisplay env.XOpenDisplay,
         Call.XSelectInput sink.x11.window
           (ExposureMask ||| StructureNotifyMask ||| PointerMotionMask |||
            KeyPressMask ||| KeyReleaseMask),
         Call.XGetGeometry sink.x11.window, Call.XUnlockDisplay env.XOpenDisplay]) ++
      [Call.eglGetDisplay env.XOpenDisplay env.eglGetDisplay,
       Call.eglInitialize env.eglGetDisplay,
       Call.eglChooseConfig env.eglGetDisplay,
       Call.eglCreateWindowSurface env.eglGetDisplay
         (if sink.x11.window = 0 then env.XCreateWindow else sink.x11.window)
         env.eglCreateWindowSurface,
       Call.eglCreateContext env.eglGetDisplay env.eglCreateContext,
       Call.eglMakeCurrent env.eglGetDisplay env.eglCreateWindowSurface env.eglCreateContext,
       Call.gl_init_shader GstGLESShaderTypes.SHADER_DEINT_LINEAR
         (env.gl_init_shader GstGLESShaderTypes.SHADER_DEINT_LINEAR).1
         (env.gl_init_shader GstGLESShaderTypes.SHADER_DEINT_LINEAR).2.program,
       Call.gl_init_shader GstGLESShaderTypes.SHADER_COPY
         (env.gl_init_shader GstGLESShaderTypes.SHADER_COPY).1
         (env.gl_init_shader GstGLESShaderTypes.SHADER_COPY).2.program,
       Call.glGenTextures TexFilter.GL_NEAREST (env.glGenTextures TexSlot.y),
       Call.glGenTextures TexFilter.GL_NEAREST (env.glGenTextures TexSlot.u),
       Call.glGenTextures TexFilter.GL_NEAREST (env.glGenTextures TexSlot.v)] ++
      (if sink.x11.external_window then []
       else [Call.got_window_handle
              (if sink.x11.window = 0 then env.XCreateWindow else sink.x11.window)]) ∧
    (setup_gl_context env sink).2.1.x11.display = env.XOpenDisplay ∧
    (setup_gl_context env sink).2.1.x11.window
      = (if sink.x11.window = 0 then env.XCreateWindow else sink.x11.window) ∧
    (setup_gl_context env sink).2.1.x11.external_window = sink.x11.external_window ∧
    (setup_gl_context env sink).2.1.gl_thread.gles
      = { sink.gl_thread.gles with
          display := env.eglGetDisplay, surface := env.eglCreateWindowSurface,
          context := env.eglCreateContext,
          deinterlace := (env.gl_init_shader GstGLESShaderTypes.SHADER_DEINT_LINEAR).2,
          scale := (env.gl_init_shader GstGLESShaderTypes.SHADER_COPY).2,
          y_tex := { id := env.glGenTextures TexSlot.y,
                     loc := env.glGetUniformLocation
                       (env.gl_init_shader GstGLESShaderTypes.SHADER_DEINT_LINEAR).2.program
                       "s_ytex" },
          u_tex := { id := env.glGenTextures TexSlot.u,
                     loc := env.glGetUniformLocation
                       (env.gl_init_shader GstGLESShaderTypes.SHADER_DEINT_LINEAR).2.program
                       "s_utex" },
          v_tex := { id := env.glGenTextures TexSlot.v,
                     loc := env.glGetUniformLocation
                       (env.gl_init_shader GstGLESShaderTypes.SHADER_DEINT_LINEAR).2.program
                       "s_vtex" },
          rgb_tex := { sink.gl_thread.gles.rgb_tex with
                       loc := env.glGetUniformLocation
                         (env.gl_init_shader GstGLESShaderTypes.SHADER_COPY).2.program
                         "s_tex" } } := by
  obtain ⟨h1, h2, h3, h4, h5, h6, h7, h8, h9⟩ := setup_gl_context_success env sink h
  have h8n : ¬ (env.gl_init_shader GstGLESShaderTypes.SHADER_DEINT_LINEAR).1 < 0 := not_lt.mpr h8
  have h9n : ¬ (env.gl_init_shader GstGLESShaderTypes.SHADER_COPY).1 < 0 := not_lt.mpr h9
  by_cases hw : sink.x11.window = 0 <;> by_cases he : sink.x11.external_window = true <;>
    simp [setup_gl_context, x11_init, egl_init, gl_init_textures, gl_create_texture,
      GstGLESSink.withX11, GstGLESSink.withGles, GstGLESSink.gles,
      h1, h2, h3, h4, h5, h6, h7, h8n, h9n, hw, he]

/-! ## Window handle adoption and announcement -/

/-- C5 (as stated, refuted): with the handle 77 supplied before startup a
successful setup creates no window, but it announces no handle at all, so the
announcement list is not `[77]`. -/
theorem setup_gl_context_external_not_announced :
    (setup_gl_context env_ok (gst_gles_video_overlay_set_handle gst_gles_sink_init 77)).1 = 0 ∧
    window_creations
      (setup_gl_context env_ok (gst_gles_video_overlay_set_handle gst_gles_sink_init 77)).2.2
      = [] ∧
    announcements
      (setup_gl_context env_ok (gst_gles_video_overlay_set_handle gst_gles_sink_init 77)).2.2
      = [] ∧
    announcements
      (setup_gl_context env_ok (gst_gles_video_overlay_set_handle gst_gles_sink_init 77)).2.2
      ≠ [77] := by
  decide

/-- C5 (amended): starting from a sink without window, a successful setup
after a non-zero handle `h` was supplied creates no window, renders into `h`
and announces nothing; a successful setup without supplied handle creates one
window and announces that window's handle exactly once. -/
theorem setup_gl_context_window_handle (env : GLESEnv) (sink : GstGLESSink) (h : Nat)
    (hw : sink.x11.window = 0) (he : sink.x11.external_window = false) (hh : h ≠ 0) :
    ((setup_gl_context env (gst_gles_video_overlay_set_handle sink h)).1 = 0 →
      window_creations (setup_gl_context env (gst_gles_video_overlay_set_handle sink h)).2.2 = [] ∧
      announcements (setup_gl_context env (gst_gles_video_overlay_set_handle sink h)).2.2 = [] ∧
      (setup_gl_context env (gst_gles_video_overlay_set_handle sink h)).2.1.x11.window = h) ∧
    ((setup_gl_context env sink).1 = 0 →
      window_creations (setup_gl_context env sink).2.2 = [env.XCreateWindow] ∧
      announcements (setup_gl_context env sink).2.2 = [env.XCreateWindow] ∧
      (setup_gl_context env sink).2.1.x11.window = env.XCreateWindow) := by
  constructor
  · intro hs
    obtain ⟨hl, _, hwin, _, _⟩ :=
      setup_gl_context_success_calls env (gst_gles_video_overlay_set_handle sink h) hs
    rw [hl, hwin]
    simp [gst_gles_video_overlay_set_handle, hw, hh, window_creations, announcements]
  · intro hs
    obtain ⟨hl, _, hwin, _, _⟩ := setup_gl_context_success_calls env sink hs
    rw [hl, hwin]
    simp [hw, he, window_creations, announcements]

/-- Witness of C5 (amended) with the handle 77 and all library calls succeeding. -/
theorem setup_gl_context_window_handle_witness :
    (window_creations
        (setup_gl_context env_ok (gst_gles_video_overlay_set_handle gst_gles_sink_init 77)).2.2
        = [] ∧
      announcements
        (setup_gl_context env_ok (gst_gles_video_overlay_set_handle gst_gles_sink_init 77)).2.2
        = [] ∧
      (setup_gl_context env_ok
        (gst_gles_video_overlay_set_handle gst_gles_sink_init 77)).2.1.x11.window = 77) ∧
    (window_creations (setup_gl_context env_ok gst_gles_sink_init).2.2 = [2] ∧
      announcements (setup_gl_context env_ok gst_gles_sink_init).2.2 = [2] ∧
      (setup_gl_context env_ok gst_gles_sink_init).2.1.x11.window = 2) :=
  ⟨(setup_gl_context_window_handle env_ok gst_gles_sink_init 77 rfl rfl (by decide)).1
      (by decide),
   (setup_gl_context_window_handle env_ok gst_gles_sink_init 77 rfl rfl (by decide)).2
      (by decide)⟩

/-! ## Context setup: failure paths -/

/-- C6 (evaluation at a failing input): when `eglCreateWindowSurface` fails,
`setup_gl_context` returns `-ENOMEM` after `x11_close` only: the window is
destroyed and the X display closed, but the EGL display handle 3 is still
stored and `eglTerminate` was never called. -/
theorem setup_gl_context_surface_failure :
    (setup_gl_context env_no_surface gst_gles_sink_init).1 = -ENOMEM ∧
    (setup_gl_context env_no_surface gst_gles_sink_init).2.2 =
      [Call.XOpenDisplay 1, Call.XLockDisplay 1, Call.XCreateWindow 1 720 576 2,
       Call.XSetWindowBackgroundPixmap 2, Call.XSetWMHints 2, Call.XMapWindow 2,
       Call.XStoreName 2, Call.XUnlockDisplay 1,
       Call.eglGetDisplay 1 3, Call.eglInitialize 3, Call.eglChooseConfig 3,
       Call.eglCreateWindowSurface 3 2 0,
       Call.XLockDisplay 1, Call.XDestroyWindow 2, Call.XSync 1, Call.XUnlockDisplay 1,
       Call.XCloseDisplay 1] ∧
    (setup_gl_context env_no_surface gst_gles_sink_init).2.1.gl_thread.gles.display = 3 ∧
    Call.eglTerminate 3 ∉ (setup_gl_context env_no_surface gst_gles_sink_init).2.2 ∧
    (setup_gl_context env_no_surface gst_gles_sink_init).2.1.x11.display = 0 := by
  decide

/-- A failure of either shader compile is reported only after `egl_close` and
`x11_close`: EGL context, surface and display are destroyed in that order
and their handles cleared, and the X display is closed. -/
theorem setup_gl_context_shader_failure (env : GLESEnv) (sink : GstGLESSink)
    (h1 : env.XOpenDisplay ≠ 0) (h2 : env.eglGetDisplay ≠ 0)
    (h3 : env.eglInitialize = true) (h4 : env.eglChooseConfig = true)
    (h5 : env.eglCreateWindowSurface ≠ 0) (h6 : env.eglCreateContext ≠ 0)
    (h7 : env.eglMakeCurrent = true)
    (hsh : (env.gl_init_shader GstGLESShaderTypes.SHADER_DEINT_LINEAR).1 < 0 ∨
      (env.gl_init_shader GstGLESShaderTypes.SHADER_COPY).1 < 0) :
    (setup_gl_context env sink).1 = -ENOMEM ∧
    (setup_gl_context env sink).2.1.gl_thread.gles.context = 0 ∧
    (setup_gl_context env sink).2.1.gl_thread.gles.surface = 0 ∧
    (setup_gl_context env sink).2.1.gl_thread.gles.display = 0 ∧
    (setup_gl_context env sink).2.1.x11.display = 0 ∧
    egl_teardown_calls (setup_gl_context env sink).2.2 =
      [Call.eglDestroyContext env.eglGetDisplay env.eglCreateContext,
       Call.eglDestroySurface env.eglGetDisplay env.eglCreateWindowSurface,
       Call.eglTerminate env.eglGetDisplay, Call.egl_close_handles] ∧
    (setup_gl_context env sink).2.2.getLast? = some (Call.XCloseDisplay env.XOpenDisplay) := by
  by_cases hs1 : (env.gl_init_shader GstGLESShaderTypes.SHADER_DEINT_LINEAR).1 < 0
  · by_cases hw : sink.x11.window = 0 <;> by_cases he : sink.x11.external_window = true <;>
      by_cases hi : sink.gl_thread.gles.initialized = true <;>
      simp [setup_gl_context, x11_init, egl_init, egl_close, x11_close, egl_teardown_calls,
        h1, h2, h3, h4, h5, h6, h7, hs1, hw, he, hi, List.getLast?_append, List.filter]
  · have hs2 : (env.gl_init_shader GstGLESShaderTypes.SHADER_COPY).1 < 0 := by
      rcases hsh with h | h
      · exact absurd h hs1
      · exact h
    by_cases hw : sink.x11.window = 0 <;> by_cases he : sink.x11.external_window = true <;>
      by_cases hi : sink.gl_thread.gles.initialized = true <;>
      simp [setup_gl_context, x11_init, egl_init, egl_close, x11_close, egl_teardown_calls,
        h1, h2, h3, h4, h5, h6, h7, hs1, hs2, hw, he, hi, List.getLast?_append, List.filter]

/-! ## Preroll after a failed setup -/

/-- The only way for `gst_gles_sink_preroll` to return `GST_FLOW_ERROR` is a
failed `g_thread_try_new`; the outcome of the context setup plays no part. -/
theorem gst_gles_sink_preroll_error_iff (reads : DeliveryReads) (sink : GstGLESSink)
    (buf : GstBuffer) :
    (gst_gles_sink_preroll reads sink buf).ret = GstFlowReturn.GST_FLOW_ERROR ↔
      (sink.gl_thread.running = false ∧ reads.gl_thread_init = 0) := by
  cases hr : sink.gl_thread.running <;> by_cases ht : reads.gl_thread_init = 0 <;>
    cases hra : reads.running_after_init <;> cases hrd : reads.render_done <;>
    by_cases hd : sink.dropped < sink.drop_first <;>
    simp [gst_gles_sink_preroll, hr, ht, hra, hrd, hd]

/-- C7 (evaluation at a failing input): `XOpenDisplay` fails, so the render
thread leaves `running` at `FALSE`, signals once, never enters its loop and
ends.  The preroll call that spawned it waits for that signal, then stores
the frame 42 in the slot, signals `data_signal`, waits on `render_signal` for
a draw, and the return statement it can reach yields `GST_FLOW_OK`. -/
theorem gst_gles_sink_preroll_setup_failed :
    (gl_thread_proc env_no_display run_none gst_gles_sink_init).map
        (fun r => (r.ret, r.sink.gl_thread.running, r.loop))
      = some (-ENOMEM, false, []) ∧
    (gst_gles_sink_preroll reads_setup_failed gst_gles_sink_init 42).ret
      = GstFlowReturn.GST_FLOW_OK ∧
    (gst_gles_sink_preroll reads_setup_failed gst_gles_sink_init 42).sink.gl_thread.buf
      = some 42 ∧
    (gst_gles_sink_preroll reads_setup_failed gst_gles_sink_init 42).calls =
      [Call.prepare_window_handle, Call.g_mutex_lock Mutex.render_lock,
       Call.g_thread_try_new 1,
       Call.g_cond_wait Cond.render_signal Mutex.render_lock,
       Call.g_mutex_unlock Mutex.render_lock,
       Call.g_mutex_lock Mutex.data_lock, Call.g_cond_signal Cond.data_signal,
       Call.g_mutex_unlock Mutex.data_lock,
       Call.g_mutex_lock Mutex.render_lock,
       Call.g_cond_wait Cond.render_signal Mutex.render_lock,
       Call.g_mutex_unlock Mutex.render_lock] := by
  decide

/-! ## Teardown -/

/-- C8: from any state, the EGL teardown calls of `egl_close` are
`eglDestroyContext`, `eglDestroySurface`, `eglTerminate` in this order, each
present exactly when its handle is non-null, followed by the descriptor
cleanup, which is the last call in every case; afterwards context, surface
and display are null and `initialized` is `FALSE`. -/
theorem egl_close_order (sink : GstGLESSink) :
    egl_teardown_calls (egl_close sink).2 =
      (if sink.gl_thread.gles.context ≠ 0 then
        [Call.eglDestroyContext sink.gl_thread.gles.display sink.gl_thread.gles.context]
       else []) ++
      (if sink.gl_thread.gles.surface ≠ 0 then
        [Call.eglDestroySurface sink.gl_thread.gles.display sink.gl_thread.gles.surface]
       else []) ++
      (if sink.gl_thread.gles.display ≠ 0 then
        [Call.eglTerminate sink.gl_thread.gles.display]
       else []) ++
      [Call.egl_close_handles] ∧
    (egl_close sink).2.getLast? = some Call.egl_close_handles ∧
    (egl_close sink).1.gl_thread.gles.context = 0 ∧
    (egl_close sink).1.gl_thread.gles.surface = 0 ∧
    (egl_close sink).1.gl_thread.gles.display = 0 ∧
    (egl_close sink).1.gl_thread.gles.initialized = false := by
  by_cases hi : sink.gl_thread.gles.initialized = true <;>
    by_cases hc : sink.gl_thread.gles.context = 0 <;>
    by_cases hs : sink.gl_thread.gles.surface = 0 <;>
    by_cases hd : sink.gl_thread.gles.display = 0 <;>
    simp [egl_close, egl_teardown_calls, hi, hc, hs, hd, List.filter, List.getLast?_append]

/-- C9: with an open display `x11_close` destroys the window, and resets
`x11.window`, exactly when `external_window` is `FALSE`; for a supplied
window it clears the event selection and keeps `x11.window`; in both cases
the display is closed last and `x11.display` becomes null.  With
`x11.display` already null nothing changes and nothing is called. -/
theorem x11_close_spec (sink : GstGLESSink) :
    (sink.x11.display ≠ 0 →
      (window_destructions (x11_close sink).2
          = (if sink.x11.external_window then [] else [sink.x11.window])) ∧
      ((x11_close sink).1.x11.window
          = (if sink.x11.external_window then sink.x11.window else 0)) ∧
      (sink.x11.external_window = true →
        Call.XSelectInput sink.x11.window 0 ∈ (x11_close sink).2) ∧
      (x11_close sink).2.getLast? = some (Call.XCloseDisplay sink.x11.display) ∧
      (x11_close sink).1.x11.display = 0 ∧
      (x11_close sink).1.x11.external_window = sink.x11.external_window ∧
      (x11_close sink).1.gl_thread = sink.gl_thread) ∧
    (sink.x11.display = 0 → x11_close sink = (sink, [])) := by
  constructor
  · intro hd
    cases he : sink.x11.external_window <;>
      simp [x11_close, hd, he, window_destructions]
  · intro hd
    simp [x11_close, hd]

/-- Witness of C9: an own window is destroyed, a supplied one is not. -/
theorem x11_close_spec_witness :
    (window_destructions (x11_close sink_live).2 = [2] ∧
      (x11_close sink_live).1.x11.window = 0 ∧
      (x11_close sink_live).1.x11.display = 0) ∧
    (window_destructions (x11_close sink_live_external).2 = [] ∧
      (x11_close sink_live_external).1.x11.window = 77 ∧
      (x11_close sink_live_external).1.x11.display = 0) ∧
    x11_close gst_gles_sink_init = (gst_gles_sink_init, []) :=
  ⟨⟨((x11_close_spec sink_live).1 (by decide)).1,
    ((x11_close_spec sink_live).1 (by decide)).2.1,
    ((x11_close_spec sink_live).1 (by decide)).2.2.2.2.1⟩,
   ⟨((x11_close_spec sink_live_external).1 (by decide)).1,
    ((x11_close_spec sink_live_external).1 (by decide)).2.1,
    ((x11_close_spec sink_live_external).1 (by decide)).2.2.2.2.1⟩,
   (x11_close_spec gst_gles_sink_init).2 rfl⟩

/-! ## Lifetime of the resources of one thread run -/

/-- Creation distributes over concatenation of call lists. -/
theorem created_append (a b : List Call) : created (a ++ b) = created a ++ created b := by
  induction a with
  | nil => rfl
  | cons c l ih => simp [created, ih]

/-- Release distributes over concatenation of call lists. -/
theorem released_append (a b : List Call) : released (a ++ b) = released a ++ released b := by
  induction a with
  | nil => rfl
  | cons c l ih => simp [released, ih]

/-- Creation of a call list, head first. -/
theorem created_cons (c : Call) (l : List Call) :
    created (c :: l) = created_by c ++ created l := rfl

/-- Release of a call list, head first. -/
theorem released_cons (c : Call) (l : List Call) :
    released (c :: l) = released_by c ++ released l := rfl

/-- The empty call list creates nothing. -/
theorem created_nil : created [] = [] := rfl

/-- The empty call list releases nothing. -/
theorem released_nil : released [] = [] := rfl

/-- Waiting on a condition creates and releases nothing. -/
theorem created_released_replicate_wait (n : Nat) (c : Cond) (m : Mutex) :
    created (List.replicate n (Call.g_cond_wait c m)) = [] ∧
    released (List.replicate n (Call.g_cond_wait c m)) = [] := by
  induction n with
  | zero => exact ⟨rfl, rfl⟩
  | succ k ih =>
    rw [List.replicate_succ, created_cons, released_cons, ih.1, ih.2]
    exact ⟨rfl, rfl⟩

/-- Pass 2 creates and releases nothing. -/
theorem gl_draw_onscreen_resources (env : GLESEnv) (s : GstGLESSink) :
    created (gl_draw_onscreen env s) = [] ∧ released (gl_draw_onscreen env s) = [] := by
  simp [gl_draw_onscreen, created, released, created_by, released_by]

/-- Pass 1 creates and releases nothing. -/
theorem gl_draw_fbo_resources (env : GLESEnv) (s : GstGLESSink) (buf : GstBuffer) :
    created (gl_draw_fbo env s buf) = [] ∧ released (gl_draw_fbo env s buf) = [] := by
  cases hm : env.gst_buffer_map buf <;>
    simp [gl_draw_fbo, gl_load_texture, gl_load_texture_planes, created, released,
      created_by, released_by, hm]

/-- Draining the X event queue touches neither handles nor frame targets and
creates and releases nothing. -/
theorem x11_drain_resources (env : GLESEnv) :
    ∀ (pending : List XEvent) (s : GstGLESSink),
      owned_handles (x11_drain env s pending).1 = owned_handles s ∧
      frame_targets (x11_drain env s pending).1 = frame_targets s ∧
      created (x11_drain env s pending).2 = [] ∧
      released (x11_drain env s pending).2 = [] := by
  intro pending
  induction pending with
  | nil => intro s; simp [x11_drain, created, released]
  | cons xev rest ih =>
    intro s
    obtain ⟨i1, i2, i3, i4⟩ := ih (x11_handle_event env s xev).1
    have hev : owned_handles (x11_handle_event env s xev).1 = owned_handles s ∧
        frame_targets (x11_handle_event env s xev).1 = frame_targets s ∧
        created (x11_handle_event env s xev).2 = [] ∧
        released (x11_handle_event env s xev).2 = [] := by
      rcases hx : xev.type with _ | _ | t
      · simp only [x11_handle_event, hx]
        exact ⟨by simp [owned_handles], by simp [frame_targets],
          (gl_draw_onscreen_resources env _).1, (gl_draw_onscreen_resources env _).2⟩
      · simp only [x11_handle_event, hx]
        exact ⟨by simp [owned_handles], by simp [frame_targets],
          (gl_draw_onscreen_resources env _).1, (gl_draw_onscreen_resources env _).2⟩
      · simp [x11_handle_event, hx, created, released]
    obtain ⟨e1, e2, e3, e4⟩ := hev
    simp only [x11_drain]
    refine ⟨by rw [i1, e1], by rw [i2, e2], ?_, ?_⟩
    · rw [created_append, e3, i3]; rfl
    · rw [released_append, e4, i4]; rfl

/-- One round of the render loop keeps the handles of the run, releases
nothing, and creates either nothing or, when the frame targets were not yet
allocated, the framebuffer followed by the RGB texture. -/
theorem gl_thread_loop_body_resources (env : GLESEnv) (sink : GstGLESSink) (w : Wakeup) :
    owned_handles (gl_thread_loop_body env sink w).1 = owned_handles sink ∧
    released (gl_thread_loop_body env sink w).2 = [] ∧
    ((frame_targets (gl_thread_loop_body env sink w).1 = frame_targets sink ∧
        created (gl_thread_loop_body env sink w).2 = []) ∨
     (sink.gl_thread.gles.initialized = false ∧
        frame_targets (gl_thread_loop_body env sink w).1
          = (true, env.glGenFramebuffers, env.glGenTextures TexSlot.rgb) ∧
        created (gl_thread_loop_body env sink w).2
          = [Resource.framebuffer env.glGenFramebuffers,
             Resource.texture (env.glGenTextures TexSlot.rgb)])) := by
  obtain ⟨d1, d2, d3, d4⟩ := x11_drain_resources env w.pending sink
  simp only [owned_handles, frame_targets, Prod.mk.injEq, List.cons.injEq, and_true] at d1 d2
  obtain ⟨⟨a1, a2, a3, a4, a5, a6, a7, a8, a9, a10⟩, a11⟩ := d1
  obtain ⟨b1, b2, b3⟩ := d2
  cases hb : w.buf with
  | none =>
    simp [gl_thread_loop_body, x11_handle_events, hb, owned_handles, frame_targets,
      created_append, released_append, created_cons, released_cons, created_nil,
      released_nil, created_by, released_by, created_released_replicate_wait,
      d3, d4, a1, a2, a3, a4, a5, a6, a7, a8, a9, a10, a11, b1, b2, b3]
  | some buf =>
    cases hi : sink.gl_thread.gles.initialized with
    | true =>
      rw [hi] at b1
      simp [gl_thread_loop_body, x11_handle_events, hb, owned_handles, frame_targets,
        created_append, released_append, created_cons, released_cons, created_nil,
      released_nil, created_by, released_by, created_released_replicate_wait,
        gl_draw_fbo_resources, gl_draw_onscreen_resources,
        d3, d4, a1, a2, a3, a4, a5, a6, a7, a8, a9, a10, a11, b1, b2, b3, hi]
    | false =>
      rw [hi] at b1
      simp [gl_thread_loop_body, x11_handle_events, hb, owned_handles, frame_targets,
        created_append, released_append, created_cons, released_cons, created_nil,
      released_nil, created_by, released_by, created_released_replicate_wait,
        gl_draw_fbo_resources, gl_draw_onscreen_resources, gl_gen_framebuffer,
        gl_create_texture,
        d3, d4, a1, a2, a3, a4, a5, a6, a7, a8, a9, a10, a11, b1, b2, b3, hi]

/-- The whole render loop keeps the handles of the run, releases nothing, and
creates either nothing or the framebuffer followed by the RGB texture. -/
theorem gl_thread_loop_resources (env : GLESEnv) :
    ∀ (ws : List Wakeup) (sink s' : GstGLESSink) (l : List Call),
      gl_thread_loop env sink ws = some (s', l) →
      owned_handles s' = owned_handles sink ∧ released l = [] ∧
      ((frame_targets s' = frame_targets sink ∧ created l = []) ∨
       (sink.gl_thread.gles.initialized = false ∧
          frame_targets s' = (true, env.glGenFramebuffers, env.glGenTextures TexSlot.rgb) ∧
          created l = [Resource.framebuffer env.glGenFramebuffers,
                       Resource.texture (env.glGenTextures TexSlot.rgb)])) := by
  intro ws
  induction ws with
  | nil =>
    intro sink s' l h
    cases hr : sink.gl_thread.running <;> simp [gl_thread_loop, hr] at h
    obtain ⟨h1, h2⟩ := h
    subst h1 h2
    exact ⟨rfl, rfl, Or.inl ⟨rfl, rfl⟩⟩
  | cons w rest ih =>
    intro sink s' l h
    cases hr : sink.gl_thread.running with
    | false =>
      simp [gl_thread_loop, hr] at h
      obtain ⟨h1, h2⟩ := h
      subst h1 h2
      exact ⟨rfl, rfl, Or.inl ⟨rfl, rfl⟩⟩
    | true =>
      cases hw : w.leavesWait with
      | false => simp [gl_thread_loop, hr, hw] at h
      | true =>
        simp only [gl_thread_loop, hr, hw] at h
        cases hrec : gl_thread_loop env
            { (gl_thread_loop_body env sink w).1 with
              gl_thread := { (gl_thread_loop_body env sink w).1.gl_thread with
                             running := w.running_next } } rest with
        | none => simp [hrec] at h
        | some r =>
          simp [hrec] at h
          obtain ⟨h1, h2⟩ := h
          obtain ⟨i1, i2, i3⟩ := ih _ r.1 r.2 hrec
          obtain ⟨b1, b2, b3⟩ := gl_thread_loop_body_resources env sink w
          have i1' : owned_handles r.1 = owned_handles (gl_thread_loop_body env sink w).1 := by
            rw [i1]; rfl
          subst h1 h2
          refine ⟨by rw [i1', b1], by rw [released_append, b2, i2]; rfl, ?_⟩
          rcases b3 with ⟨c1, c2⟩ | ⟨c0, c1, c2⟩
          · rcases i3 with ⟨e1, e2⟩ | ⟨e0, e1, e2⟩
            · left
              refine ⟨?_, by rw [created_append, c2, e2]; rfl⟩
              rw [e1, ← c1]; rfl
            · right
              refine ⟨?_, e1, by rw [created_append, c2, e2]; rfl⟩
              have : (gl_thread_loop_body env sink w).1.gl_thread.gles.initialized
                  = sink.gl_thread.gles.initialized := by
                have := congrArg Prod.fst c1
                simpa [frame_targets] using this
              rw [← this]
              exact e0
          · rcases i3 with ⟨e1, e2⟩ | ⟨e0, e1, e2⟩
            · right
              refine ⟨c0, ?_, by rw [created_append, c2, e2]; rfl⟩
              rw [e1, ← c1]; rfl
            · exfalso
              have : (gl_thread_loop_body env sink w).1.gl_thread.gles.initialized = true := by
                have := congrArg Prod.fst c1
                simpa [frame_targets] using this
              simp [this] at e0


/-- C10 (as stated, refuted): a run with successful setup that is stopped
before any frame creates the two shader programs 6, 7 and the YUV textures
8, 9, 10, and its teardown releases none of them; and in a run that drew a
frame the framebuffer 11 is deleted before the RGB texture 12 that was
created after it.  In both runs the released resources are not the reverse
of the created ones. -/
theorem gl_thread_proc_stopped_before_first_frame :
    (gl_thread_proc env_ok run_stopped gst_gles_sink_init).map
        (fun r => (r.ret, r.at_exit.gl_thread.gles.initialized,
                   created (r.startup ++ r.loop), released r.teardown))
      = some (0, false,
          [Resource.x_display 1, Resource.window 2, Resource.egl_display 3,
           Resource.egl_surface 4, Resource.egl_context 5, Resource.shader 6,
           Resource.shader 7, Resource.texture 8, Resource.texture 9, Resource.texture 10],
          [Resource.egl_context 5, Resource.egl_surface 4, Resource.egl_display 3,
           Resource.window 2, Resource.x_display 1]) ∧
    (gl_thread_proc env_ok run_stopped gst_gles_sink_init).map
        (fun r => decide (released r.teardown = (created (r.startup ++ r.loop)).reverse))
      = some false ∧
    (gl_thread_proc env_ok run_one_frame gst_gles_sink_init).map
        (fun r => decide (released r.teardown = (created (r.startup ++ r.loop)).reverse))
      = some false := by
  decide

/-- Resources of a run whose setup succeeded: what the startup creates, that
nothing is released before the loop is left, and what the teardown releases,
by the state of `initialized` when the loop is left. -/
theorem gl_thread_proc_resources (env : GLESEnv) (run : ThreadRun) (sink : GstGLESSink)
    (r : ThreadResult)
    (hinit : sink.gl_thread.gles.initialized = false)
    (hwin : sink.x11.external_window = true ↔ sink.x11.window ≠ 0)
    (hrun : gl_thread_proc env run sink = some r) (hok : r.ret = 0) :
    created r.startup = setup_core env sink ++ setup_gl_objects env ∧
    released (r.startup ++ r.loop) = [] ∧
    ((r.at_exit.gl_thread.gles.initialized = false ∧ created r.loop = [] ∧
        released r.teardown = (setup_core env sink).reverse) ∨
     (r.at_exit.gl_thread.gles.initialized = true ∧
      created r.loop = [Resource.framebuffer env.glGenFramebuffers,
                        Resource.texture (env.glGenTextures TexSlot.rgb)] ∧
      released r.teardown = teardown_gl_objects env ++ (setup_core env sink).reverse ∧
      (released r.teardown).Perm (created (r.startup ++ r.loop)))) := by
  simp only [gl_thread_proc] at hrun
  cases hloop : gl_thread_loop env
      { (setup_gl_context env sink).2.1 with
        gl_thread := { (setup_gl_context env sink).2.1.gl_thread with
          running := ((setup_gl_context env sink).1 == 0) && !run.stop_before_loop } }
      run.wakeups with
  | none => simp [hloop] at hrun
  | some res =>
    simp only [hloop, Option.some.injEq] at hrun
    subst hrun
    simp only at hok
    obtain ⟨h1, h2, h3, h4, h5, h6, h7, h8, h9⟩ := setup_gl_context_success env sink hok
    obtain ⟨hl, hxd, hxw, hxe, hg⟩ := setup_gl_context_success_calls env sink hok
    obtain ⟨i1, i2, i3⟩ := gl_thread_loop_resources env run.wakeups _ res.1 res.2 hloop
    simp only [owned_handles, Prod.mk.injEq, List.cons.injEq, and_true, hxd, hxw, hxe, hg]
      at i1
    obtain ⟨⟨a1, a2, a3, a4, a5, a6, a7, a8, a9, a10⟩, a11⟩ := i1
    have hcs : created (setup_gl_context env sink).2.2
        = setup_core env sink ++ setup_gl_objects env := by
      rw [hl]
      by_cases hw : sink.x11.window = 0 <;> by_cases he : sink.x11.external_window = true <;>
        simp [created_append, created_cons, created_nil, created_by, setup_core,
          setup_gl_objects, h1, h2, h5, h6, h8, h9, hw, he]
    have hrs : released (setup_gl_context env sink).2.2 = [] := by
      rw [hl]
      by_cases hw : sink.x11.window = 0 <;> by_cases he : sink.x11.external_window = true <;>
        simp [released_append, released_cons, released_nil, released_by, hw, he]
    refine ⟨?_, ?_, ?_⟩
    · simp [created_append, created_cons, created_nil, created_by, hcs]
    · simp [released_append, released_cons, released_nil, released_by, hrs, i2]
    · have hx : sink.x11.window = 0 ∧ sink.x11.external_window = false ∨
          sink.x11.window ≠ 0 ∧ sink.x11.external_window = true := by
        by_cases hw : sink.x11.window = 0
        · left
          refine ⟨hw, ?_⟩
          cases he : sink.x11.external_window
          · rfl
          · exact absurd hw (hwin.mp he)
        · right
          exact ⟨hw, hwin.mpr hw⟩
      rcases i3 with ⟨e1, e2⟩ | ⟨e0, e1, e2⟩
      · left
        simp only [frame_targets, Prod.mk.injEq, hg, hinit] at e1
        obtain ⟨f1, f2, f3⟩ := e1
        refine ⟨f1, e2, ?_⟩
        rcases hx with ⟨hw, he⟩ | ⟨hw, he⟩ <;>
          simp [egl_close, x11_close, released_append, released_cons, released_nil,
            released_by, setup_core, a1, a2, a3, a4, a5, a11, f1, h1, h2, h5, h6, hw, he]
      · right
        simp only [frame_targets, Prod.mk.injEq] at e1
        obtain ⟨f1, f2, f3⟩ := e1
        have hrel : released ((egl_close res.1).2 ++ (x11_close (egl_close res.1).1).2)
            = teardown_gl_objects env ++ (setup_core env sink).reverse := by
          rcases hx with ⟨hw, he⟩ | ⟨hw, he⟩ <;>
            simp [egl_close, x11_close, released_append, released_cons, released_nil,
              released_by, setup_core, teardown_gl_objects,
              a1, a2, a3, a4, a5, a6, a7, a8, a9, a10, a11, f1, f2, f3,
              h1, h2, h5, h6, hw, he]
        refine ⟨f1, e2, hrel, ?_⟩
        rw [hrel, created_append, created_append, hcs, e2, List.perm_iff_count]
        intro a
        simp only [List.count_append, List.count_reverse, teardown_gl_objects,
          setup_gl_objects, List.count_cons, List.count_nil, created_cons, created_nil,
          created_by, List.append_nil]
        omega

/-- C10 (amended): in a run whose setup succeeded, entered with `initialized`
`FALSE` and with `external_window` set exactly when a window handle is
present, nothing is released before the loop is left; on leaving the loop the
thread releases last, in the exact reverse of their creation order, the EGL
context, surface and display, the window if it created one, and the X
display.  When a frame was drawn (`initialized` is `TRUE` on leaving the
loop) it deletes before them the framebuffer, the textures Y, U, V, RGB, the
scale shader and the deinterlace shader, in this order, and then the released
resources are exactly the created ones. -/
theorem gl_thread_proc_teardown (env : GLESEnv) (run : ThreadRun) (sink : GstGLESSink)
    (r : ThreadResult)
    (hinit : sink.gl_thread.gles.initialized = false)
    (hwin : sink.x11.external_window = true ↔ sink.x11.window ≠ 0)
    (hrun : gl_thread_proc env run sink = some r) (hok : r.ret = 0) :
    created r.startup = setup_core env sink ++ setup_gl_objects env ∧
    released (r.startup ++ r.loop) = [] ∧
    (setup_core env sink).reverse <:+ released r.teardown ∧
    (r.at_exit.gl_thread.gles.initialized = true →
      created r.loop = [Resource.framebuffer env.glGenFramebuffers,
                        Resource.texture (env.glGenTextures TexSlot.rgb)] ∧
      released r.teardown = teardown_gl_objects env ++ (setup_core env sink).reverse ∧
      (released r.teardown).Perm (created (r.startup ++ r.loop))) := by
  obtain ⟨h1, h2, h3⟩ := gl_thread_proc_resources env run sink r hinit hwin hrun hok
  refine ⟨h1, h2, ?_, ?_⟩
  · rcases h3 with ⟨_, _, e⟩ | ⟨_, _, e, _⟩
    · rw [e]
    · rw [e]
      exact List.suffix_append _ _
  · intro hi
    rcases h3 with ⟨e0, _, _⟩ | ⟨_, e1, e2, e3⟩
    · rw [hi] at e0
      exact absurd e0 (by decide)
    · exact ⟨e1, e2, e3⟩

/-- Witness of C10 (amended): a run that draws one frame and is then stopped. -/
theorem gl_thread_proc_teardown_witness :
    ∃ r, gl_thread_proc env_ok run_one_frame gst_gles_sink_init = some r ∧ r.ret = 0 ∧
      r.at_exit.gl_thread.gles.initialized = true ∧
      created r.startup = setup_core env_ok gst_gles_sink_init ++ setup_gl_objects env_ok ∧
      released (r.startup ++ r.loop) = [] ∧
      (setup_core env_ok gst_gles_sink_init).reverse <:+ released r.teardown ∧
      released r.teardown
        = teardown_gl_objects env_ok ++ (setup_core env_ok gst_gles_sink_init).reverse ∧
      (released r.teardown).Perm (created (r.startup ++ r.loop)) := by
  cases h : gl_thread_proc env_ok run_one_frame gst_gles_sink_init with
  | none => exact absurd h (by decide)
  | some r =>
    have h0 : (gl_thread_proc env_ok run_one_frame gst_gles_sink_init).map
        (fun x => (x.ret, x.at_exit.gl_thread.gles.initialized)) = some (0, true) := by
      decide
    rw [h] at h0
    simp only [Option.map_some', Option.some.injEq, Prod.mk.injEq] at h0
    obtain ⟨hret, hi⟩ := h0
    obtain ⟨t1, t2, t3, t4⟩ :=
      gl_thread_proc_teardown env_ok run_one_frame gst_gles_sink_init r rfl (by decide) h hret
    exact ⟨r, rfl, hret, hi, t1, t2, t3, (t4 hi).2.1, (t4 hi).2.2⟩

/-- The one-frame run releases, in this order, the framebuffer, the four
textures, both shaders, EGL context, surface and display, the window and the
X display. -/
theorem gl_thread_proc_one_frame_released :
    (gl_thread_proc env_ok run_one_frame gst_gles_sink_init).map
        (fun r => (created r.loop, released r.teardown))
      = some ([Resource.framebuffer 11, Resource.texture 12],
          [Resource.framebuffer 11, Resource.texture 8, Resource.texture 9,
           Resource.texture 10, Resource.texture 12, Resource.shader 7, Resource.shader 6,
           Resource.egl_context 5, Resource.egl_surface 4, Resource.egl_display 3,
           Resource.window 2, Resource.x_display 1]) := by
  decide

/-! ## Window handle setter -/

/-- C11: when a window handle is already set, the setter changes nothing,
whatever the new handle is; in particular `x11.window` and
`x11.external_window` keep their values. -/
theorem gst_gles_video_overlay_set_handle_rejects (sink : GstGLESSink) (handle : Nat)
    (hw : sink.x11.window ≠ 0) :
    gst_gles_video_overlay_set_handle sink handle = sink ∧
    (gst_gles_video_overlay_set_handle sink handle).x11.window = sink.x11.window ∧
    (gst_gles_video_overlay_set_handle sink handle).x11.external_window
      = sink.x11.external_window := by
  simp [gst_gles_video_overlay_set_handle, hw]

/-- Witness of C11: the handle 5 is offered to a sink that renders into 77. -/
theorem gst_gles_video_overlay_set_handle_rejects_witness :
    gst_gles_video_overlay_set_handle sink_live_external 5 = sink_live_external ∧
    (gst_gles_video_overlay_set_handle sink_live_external 5).x11.window = 77 ∧
    (gst_gles_video_overlay_set_handle sink_live_external 5).x11.external_window = true :=
  gst_gles_video_overlay_set_handle_rejects sink_live_external 5 (by decide)

/-! ## Format negotiation -/

/-- C12 (as stated, refuted): for parseable NV12 caps the call does not return
`FALSE`: with assertions compiled in it aborts, with assertions compiled out
it stores the geometry and returns `TRUE`. -/
theorem gst_gles_sink_set_caps_nv12 :
    gst_gles_sink_set_caps false (1, 1) gst_gles_sink_init caps_nv12 = SetCapsResult.aborted ∧
    gst_gles_sink_set_caps false (1, 1) gst_gles_sink_init caps_nv12
      ≠ SetCapsResult.returned false gst_gles_sink_init ∧
    gst_gles_sink_set_caps true (1, 1) gst_gles_sink_init caps_nv12
      = SetCapsResult.returned true
          { gst_gles_sink_init with width := 720, height := 576, video_width := 720,
                                    video_height := 576, par_n := 1, par_d := 1 } := by
  decide

/-- A product inside the `gint` range is not changed by the wraparound. -/
theorem gint_wrap_of_range (x : Int) (h1 : -2 ^ 31 ≤ x) (h2 : x < 2 ^ 31) :
    gint_wrap x = x := by
  unfold gint_wrap
  rw [Int.emod_eq_of_lt (by omega) (by omega)]
  omega

/-- The result of the wraparound is a `gint` congruent to the exact value. -/
theorem gint_wrap_range (x : Int) :
    -2 ^ 31 ≤ gint_wrap x ∧ gint_wrap x < 2 ^ 31 ∧ (2 : Int) ^ 32 ∣ x - gint_wrap x := by
  unfold gint_wrap
  have h1 := Int.emod_nonneg (x + 2 ^ 31) (by norm_num : (2 : Int) ^ 32 ≠ 0)
  have h2 := Int.emod_lt_of_pos (x + 2 ^ 31) (by norm_num : (0 : Int) < 2 ^ 32)
  refine ⟨by omega, by omega, ?_⟩
  have h3 := Int.emod_add_ediv (x + 2 ^ 31) (2 ^ 32)
  exact ⟨(x + 2 ^ 31) / 2 ^ 32, by omega⟩

/-- The width stored for I420 caps of 4096 x 4096 with the pixel aspect ratio
1000000 : 1 is negative: the `gint` product wraps. -/
theorem gst_gles_sink_set_caps_wraps :
    gst_gles_sink_set_caps false (1, 1) gst_gles_sink_init caps_i420_wide
      = SetCapsResult.returned true
          { gst_gles_sink_init with width := 4096, height := 4096, video_width := -198967296,
                                    video_height := 4096, par_n := 1, par_d := 1 } ∧
    gst_gles_sink_set_caps false (1, 1) gst_gles_sink_init caps_i420_par_zero
      = SetCapsResult.trapped := by
  decide

/-- C12 (amended): with assertions compiled in, `gst_gles_sink_set_caps`
returns `FALSE`, leaving the sink as it was, when the caps cannot be parsed;
for a parsed format other than I420 it does not return, the assertion aborts
before any geometry is stored; for I420 caps whose pixel aspect ratio has the
denominator 0 it does not return either, the division traps; and whenever it
returns `TRUE` the format is I420, the denominator is not 0, the negotiated
width and height are stored, and `video_width` is the `gint` product
`width * par_n`, wrapped to 32 bits, divided by `par_d` with truncation, which
is `width * par_n / par_d` when the product is in the `gint` range. -/
theorem gst_gles_sink_set_caps_spec (display_ratio : Int × Int) (sink : GstGLESSink)
    (caps : GstCaps) :
    (caps.info = none →
      gst_gles_sink_set_caps false display_ratio sink caps = SetCapsResult.returned false sink) ∧
    (∀ info, caps.info = some info → info.format ≠ GstVideoFormat.GST_VIDEO_FORMAT_I420 →
      gst_gles_sink_set_caps false display_ratio sink caps = SetCapsResult.aborted) ∧
    (∀ info, caps.info = some info → info.format = GstVideoFormat.GST_VIDEO_FORMAT_I420 →
      info.par_d = 0 →
      gst_gles_sink_set_caps false display_ratio sink caps = SetCapsResult.trapped) ∧
    (∀ s, gst_gles_sink_set_caps false display_ratio sink caps = SetCapsResult.returned true s →
      ∃ info, caps.info = some info ∧ info.format = GstVideoFormat.GST_VIDEO_FORMAT_I420 ∧
        info.par_d ≠ 0 ∧
        s.width = info.width ∧ s.height = info.height ∧ s.video_height = info.height ∧
        s.video_width = Int.tdiv (gint_wrap (info.width * info.par_n)) info.par_d ∧
        (-2 ^ 31 ≤ info.width * info.par_n → info.width * info.par_n < 2 ^ 31 →
          s.video_width = Int.tdiv (info.width * info.par_n) info.par_d)) := by
  refine ⟨?_, ?_, ?_, ?_⟩
  · intro h
    simp [gst_gles_sink_set_caps, h]
  · intro info h hf
    simp [gst_gles_sink_set_caps, h, hf]
  · intro info h hf hd
    simp [gst_gles_sink_set_caps, h, hf, hd]
  · intro s h
    cases hi : caps.info with
    | none => simp [gst_gles_sink_set_caps, hi] at h
    | some info =>
      by_cases hf : info.format = GstVideoFormat.GST_VIDEO_FORMAT_I420
      · simp [gst_gles_sink_set_caps, hi, hf] at h
        split_ifs at h with ht
        simp only [SetCapsResult.returned.injEq, true_and] at h
        subst h
        refine ⟨info, rfl, hf, fun h0 => ht (Or.inl h0), rfl, rfl, rfl, rfl, ?_⟩
        intro h1 h2
        show Int.tdiv (gint_wrap (info.width * info.par_n)) info.par_d = _
        rw [gint_wrap_of_range _ h1 h2]
      · simp [gst_gles_sink_set_caps, hi, hf] at h

/-- Witness of C12 (amended) on I420 caps of PAL size. -/
theorem gst_gles_sink_set_caps_spec_witness :
    ∃ info, caps_i420.info = some info ∧
      info.format = GstVideoFormat.GST_VIDEO_FORMAT_I420 ∧ info.par_d ≠ 0 ∧
      (720 : Int) = info.width ∧ (576 : Int) = info.height :=
  match (gst_gles_sink_set_caps_spec (1, 1) gst_gles_sink_init caps_i420).2.2.2
      { gst_gles_sink_init with width := 720, height := 576, video_width := 720,
                                video_height := 576, par_n := 1, par_d := 1 }
      (by decide) with
  | ⟨info, h1, h2, h3, h4, h5, _⟩ => ⟨info, h1, h2, h3, h4, h5⟩

/-! ## Stop -/

/-- When `running` is set, `gl_thread_stop` clears the flag and the slot,
signals `data_signal` and joins the thread as its last call. -/
theorem gl_thread_stop_running (sink : GstGLESSink) (hr : sink.gl_thread.running = true) :
    joined (gl_thread_stop sink).2 = [sink.gl_thread.handle] ∧
    (gl_thread_stop sink).2.getLast? = some (Call.g_thread_join sink.gl_thread.handle) ∧
    (gl_thread_stop sink).1.gl_thread.running = false ∧
    (gl_thread_stop sink).1.gl_thread.buf = none := by
  simp [gl_thread_stop, hr, joined]

/-- C13 (evaluation at a failing input): the first preroll spawns the thread 1
and drops its frame; the thread's setup fails at `XOpenDisplay`, so `running`
stays `FALSE`.  `gst_gles_sink_stop` then returns `TRUE` without any call: the
spawned thread 1 is not joined. -/
theorem gst_gles_sink_stop_after_failed_setup :
    (gst_gles_sink_preroll reads_setup_failed sink_drop1 42).ret = GstFlowReturn.GST_FLOW_OK ∧
    (gst_gles_sink_preroll reads_setup_failed sink_drop1 42).sink.gl_thread.handle = 1 ∧
    (gl_thread_proc env_no_display run_none sink_drop1).map
        (fun r => (r.ret, r.sink.gl_thread.running)) = some (-ENOMEM, false) ∧
    (gst_gles_sink_stop (gst_gles_sink_preroll reads_setup_failed sink_drop1 42).sink).calls
      = [] ∧
    joined (gst_gles_sink_stop (gst_gles_sink_preroll reads_setup_failed sink_drop1 42).sink).calls
      = [] ∧
    (gst_gles_sink_stop (gst_gles_sink_preroll reads_setup_failed sink_drop1 42).sink).ret
      = true := by
  decide

/-! ## Handoff under interleaving -/

/-- With the streaming thread asleep in time, the frame is drawn once and the
call returns. -/
theorem handoff_in_time :
    (handoff_run schedule_in_time (handoff_init [101])).map
        (fun s => (s.dpc, s.drawn, s.returned))
      = some (DeliveryPc.idle, [101], [101]) := by
  decide

/-- C14 (evaluation at a failing interleaving): one frame is submitted.  The
render thread draws it and signals `render_signal` after the streaming thread
has read `render_done` as `FALSE` (line 1157) and before it waits (line
1159).  The signal is lost: the frame 101 is drawn, the call has not
returned, the streaming thread sleeps in `g_cond_wait`, the render thread
sleeps on `data_signal`, and neither thread can take a step. -/
theorem handoff_lost_wakeup :
    (handoff_run schedule_lost_wakeup (handoff_init [101])).map
        (fun s => (s.dpc, s.rpc)) = some (DeliveryPc.asleep, RenderPc.asleep) ∧
    (handoff_run schedule_lost_wakeup (handoff_init [101])).map
        (fun s => (s.drawn, s.returned)) = some ([101], []) ∧
    (handoff_run schedule_lost_wakeup (handoff_init [101])).map
        (fun s => (s.buf, s.render_done)) = some (none, true) ∧
    (handoff_run schedule_lost_wakeup (handoff_init [101])).map
        (fun s => ((handoff_step Thread.delivery s).isNone,
                   (handoff_step Thread.render s).isNone))
      = some (true, true) := by
  decide

/-! ## Letterbox placement -/

/-- Integer division rounds down by less than one divisor. -/
theorem ediv_mul_bounds (a b : Int) (hb : 0 < b) : a / b * b ≤ a ∧ a < a / b * b + b := by
  constructor
  · exact Int.ediv_mul_le a (ne_of_gt hb)
  · have h := Int.lt_ediv_add_one_mul_self a hb
    linarith [add_mul (a / b) 1 b]

/-- Containment, centring and aspect of `computeLetterbox` on positive sizes. -/
theorem computeLetterbox_spec (srcW srcH dstW dstH : Int)
    (hsw : 0 < srcW) (hsh : 0 < srcH) (hdw : 0 < dstW) (hdh : 0 < dstH) :
    (0 ≤ (computeLetterbox srcW srcH dstW dstH).x ∧
      0 ≤ (computeLetterbox srcW srcH dstW dstH).y ∧
      0 ≤ (computeLetterbox srcW srcH dstW dstH).w ∧
      0 ≤ (computeLetterbox srcW srcH dstW dstH).h ∧
      (computeLetterbox srcW srcH dstW dstH).x + (computeLetterbox srcW srcH dstW dstH).w
        ≤ dstW ∧
      (computeLetterbox srcW srcH dstW dstH).y + (computeLetterbox srcW srcH dstW dstH).h
        ≤ dstH) ∧
    (0 ≤ dstW - ((computeLetterbox srcW srcH dstW dstH).x
                  + (computeLetterbox srcW srcH dstW dstH).w)
          - (computeLetterbox srcW srcH dstW dstH).x ∧
      dstW - ((computeLetterbox srcW srcH dstW dstH).x
                + (computeLetterbox srcW srcH dstW dstH).w)
          - (computeLetterbox srcW srcH dstW dstH).x ≤ 1 ∧
      0 ≤ dstH - ((computeLetterbox srcW srcH dstW dstH).y
                  + (computeLetterbox srcW srcH dstW dstH).h)
          - (computeLetterbox srcW srcH dstW dstH).y ∧
      dstH - ((computeLetterbox srcW srcH dstW dstH).y
                + (computeLetterbox srcW srcH dstW dstH).h)
          - (computeLetterbox srcW srcH dstW dstH).y ≤ 1) ∧
    (srcH * dstW < srcW * dstH →
      (computeLetterbox srcW srcH dstW dstH).w = dstW ∧
      0 ≤ (computeLetterbox srcW srcH dstW dstH).w * srcH
            - (computeLetterbox srcW srcH dstW dstH).h * srcW ∧
      (computeLetterbox srcW srcH dstW dstH).w * srcH
            - (computeLetterbox srcW srcH dstW dstH).h * srcW < srcW) ∧
    (srcW * dstH < srcH * dstW →
      (computeLetterbox srcW srcH dstW dstH).h = dstH ∧
      0 ≤ (computeLetterbox srcW srcH dstW dstH).h * srcW
            - (computeLetterbox srcW srcH dstW dstH).w * srcH ∧
      (computeLetterbox srcW srcH dstW dstH).h * srcW
            - (computeLetterbox srcW srcH dstW dstH).w * srcH < srcH) ∧
    (srcW * dstH = srcH * dstW →
      (computeLetterbox srcW srcH dstW dstH).w = dstW ∧
      (computeLetterbox srcW srcH dstW dstH).h = dstH) := by
  by_cases hA : srcH * dstW < srcW * dstH
  · have hnB : ¬ srcW * dstH < srcH * dstW := by omega
    obtain ⟨b1, b2⟩ := ediv_mul_bounds (dstW * srcH) srcW hsw
    have h0 : 0 ≤ dstW * srcH / srcW :=
      Int.ediv_nonneg (mul_nonneg hdw.le hsh.le) hsw.le
    have hlt : dstW * srcH / srcW < dstH := by
      by_contra hc
      push_neg at hc
      have := mul_le_mul_of_nonneg_right hc hsw.le
      linarith
    have e : computeLetterbox srcW srcH dstW dstH
        = { x := 0, y := (dstH - dstW * srcH / srcW) / 2, w := dstW,
            h := dstW * srcH / srcW } := by
      simp [computeLetterbox, hA]
    rw [e]
    dsimp only
    refine ⟨⟨le_refl 0, by omega, hdw.le, h0, by omega, by omega⟩,
      ⟨by omega, by omega, by omega, by omega⟩, ?_, ?_, ?_⟩
    · intro _
      exact ⟨rfl, by linarith, by linarith⟩
    · intro h
      exact absurd h hnB
    · intro h
      omega
  · by_cases hB : srcW * dstH < srcH * dstW
    · obtain ⟨b1, b2⟩ := ediv_mul_bounds (dstH * srcW) srcH hsh
      have h0 : 0 ≤ dstH * srcW / srcH :=
        Int.ediv_nonneg (mul_nonneg hdh.le hsw.le) hsh.le
      have hlt : dstH * srcW / srcH < dstW := by
        by_contra hc
        push_neg at hc
        have := mul_le_mul_of_nonneg_right hc hsh.le
        linarith
      have e : computeLetterbox srcW srcH dstW dstH
          = { x := (dstW - dstH * srcW / srcH) / 2, y := 0, w := dstH * srcW / srcH,
              h := dstH } := by
        simp [computeLetterbox, hA, hB]
      rw [e]
      dsimp only
      refine ⟨⟨by omega, le_refl 0, h0, hdh.le, by omega, by omega⟩,
        ⟨by omega, by omega, by omega, by omega⟩, ?_, ?_, ?_⟩
      · intro h
        exact absurd h hA
      · intro _
        exact ⟨rfl, by linarith, by linarith⟩
      · intro h
        omega
    · have e : computeLetterbox srcW srcH dstW dstH
          = { x := 0, y := 0, w := dstW, h := dstH } := by
        simp [computeLetterbox, hA, hB]
      rw [e]
      dsimp only
      refine ⟨⟨le_refl 0, le_refl 0, hdw.le, hdh.le, by omega, by omega⟩,
        ⟨by omega, by omega, by omega, by omega⟩, ?_, ?_, ?_⟩
      · intro h
        exact absurd h hA
      · intro h
        exact absurd h hB
      · intro _
        exact ⟨rfl, rfl⟩

/-- C15: with `gst_video_sink_center_rect` behaving as the letterbox placement
of the spec, the rectangle `r` given to `glViewport` in Pass 2 is the
placement of the cropped video size in the window.  For positive sizes it
lies inside the window, its margins on opposing sides differ by at most one
pixel, and it keeps the source aspect up to rounding down of the
non-constraining dimension; which dimension constrains is decided by comparing
`srcW*dstH` with `srcH*dstW`. -/
theorem gl_draw_onscreen_letterbox (env : GLESEnv) (sink : GstGLESSink)
    (srcW srcH dstW dstH : Int) (r : GstVideoRectangle)
    (henv : env.gst_video_sink_center_rect = center_rect_letterbox)
    (hsrcW : srcW = sink.video_width - sink.crop_left - sink.crop_right)
    (hsrcH : srcH = sink.video_height - sink.crop_top - sink.crop_bottom)
    (hdstW : dstW = sink.x11.width) (hdstH : dstH = sink.x11.height)
    (hr : r = gl_draw_onscreen_result env sink)
    (hsw : 0 < srcW) (hsh : 0 < srcH) (hdw : 0 < dstW) (hdh : 0 < dstH) :
    Call.glViewport r.x r.y r.w r.h ∈ gl_draw_onscreen env sink ∧
    r = computeLetterbox srcW srcH dstW dstH ∧
    (0 ≤ r.x ∧ 0 ≤ r.y ∧ 0 ≤ r.w ∧ 0 ≤ r.h ∧ r.x + r.w ≤ dstW ∧ r.y + r.h ≤ dstH) ∧
    (0 ≤ dstW - (r.x + r.w) - r.x ∧ dstW - (r.x + r.w) - r.x ≤ 1 ∧
      0 ≤ dstH - (r.y + r.h) - r.y ∧ dstH - (r.y + r.h) - r.y ≤ 1) ∧
    (srcH * dstW < srcW * dstH →
      r.w = dstW ∧ 0 ≤ r.w * srcH - r.h * srcW ∧ r.w * srcH - r.h * srcW < srcW) ∧
    (srcW * dstH < srcH * dstW →
      r.h = dstH ∧ 0 ≤ r.h * srcW - r.w * srcH ∧ r.h * srcW - r.w * srcH < srcH) ∧
    (srcW * dstH = srcH * dstW → r.w = dstW ∧ r.h = dstH) := by
  have hrl : r = computeLetterbox srcW srcH dstW dstH := by
    rw [hr, gl_draw_onscreen_result, henv, center_rect_letterbox, gl_draw_onscreen_src,
      gl_draw_onscreen_dst, hsrcW, hsrcH, hdstW, hdstH]
  refine ⟨?_, hrl, ?_⟩
  · rw [hr]
    simp [gl_draw_onscreen, gl_draw_onscreen_result]
  · rw [hrl]
    exact computeLetterbox_spec srcW srcH dstW dstH hsw hsh hdw hdh

/-- Witness of C15: the cropped PAL frame, 696 x 570, in a window of
1024 x 768 is placed at x = 43 with size 937 x 768. -/
theorem gl_draw_onscreen_letterbox_witness :
    Call.glViewport 43 0 937 768 ∈ gl_draw_onscreen env_letterbox sink_pal_cropped_window ∧
    (⟨43, 0, 937, 768⟩ : GstVideoRectangle) = computeLetterbox 696 570 1024 768 :=
  ⟨(gl_draw_onscreen_letterbox env_letterbox sink_pal_cropped_window 696 570 1024 768
      ⟨43, 0, 937, 768⟩ rfl (by decide) (by decide) (by decide) (by decide) (by decide)
      (by decide) (by decide) (by decide) (by decide)).1,
   (gl_draw_onscreen_letterbox env_letterbox sink_pal_cropped_window 696 570 1024 768
      ⟨43, 0, 937, 768⟩ rfl (by decide) (by decide) (by decide) (by decide) (by decide)
      (by decide) (by decide) (by decide) (by decide)).2.1⟩

/-! ## The event pump -/

/-- Counting draws distributes over concatenation. -/
theorem draw_count_append (a b : List Call) :
    draw_count (a ++ b) = draw_count a + draw_count b := by
  simp [draw_count, List.countP_append]

/-- Counting presents distributes over concatenation. -/
theorem present_count_append (a b : List Call) :
    present_count (a ++ b) = present_count a + present_count b := by
  simp [present_count, List.countP_append]

/-- Counting completion signals distributes over concatenation. -/
theorem completion_signals_append (a b : List Call) :
    completion_signals (a ++ b) = completion_signals a + completion_signals b := by
  simp [completion_signals, List.countP_append]

/-- Waiting on `data_signal` is no draw, no present and no completion signal. -/
theorem replicate_wait_counts (n : Nat) :
    draw_count (List.replicate n (Call.g_cond_wait Cond.data_signal Mutex.data_lock)) = 0 ∧
    present_count (List.replicate n (Call.g_cond_wait Cond.data_signal Mutex.data_lock)) = 0 ∧
    completion_signals
      (List.replicate n (Call.g_cond_wait Cond.data_signal Mutex.data_lock)) = 0 := by
  induction n with
  | zero => exact ⟨rfl, rfl, rfl⟩
  | succ k ih =>
    obtain ⟨i1, i2, i3⟩ := ih
    simp only [draw_count, present_count, completion_signals] at i1 i2 i3 ⊢
    simp [List.replicate_succ, List.countP_cons, i1, i2, i3]

/-- Pass 2 is one draw and one present, and no completion signal. -/
theorem gl_draw_onscreen_counts (env : GLESEnv) (s : GstGLESSink) :
    draw_count (gl_draw_onscreen env s) = 1 ∧ present_count (gl_draw_onscreen env s) = 1 ∧
    completion_signals (gl_draw_onscreen env s) = 0 := by
  simp [gl_draw_onscreen, draw_count, present_count, completion_signals, List.countP_cons]

/-- Pass 1 is one draw and no present, and no completion signal. -/
theorem gl_draw_fbo_counts (env : GLESEnv) (s : GstGLESSink) (buf : GstBuffer) :
    draw_count (gl_draw_fbo env s buf) = 1 ∧ present_count (gl_draw_fbo env s buf) = 0 ∧
    completion_signals (gl_draw_fbo env s buf) = 0 := by
  cases hm : env.gst_buffer_map buf <;>
    simp [gl_draw_fbo, gl_load_texture, gl_load_texture_planes, draw_count, present_count,
      completion_signals, List.countP_cons, List.countP_append, hm]

/-- Generating the frame targets is no draw, no present and no completion
signal. -/
theorem gl_gen_framebuffer_counts (env : GLESEnv) (s : GstGLESSink) :
    draw_count (gl_gen_framebuffer env s).2 = 0 ∧
    present_count (gl_gen_framebuffer env s).2 = 0 ∧
    completion_signals (gl_gen_framebuffer env s).2 = 0 := by
  simp [gl_gen_framebuffer, gl_create_texture, draw_count, present_count,
    completion_signals, List.countP_cons]

/-- Handling one event: an event that reaches the redraw stores its width and
height and runs Pass 2 on the new geometry, any other event does nothing. -/
theorem x11_handle_event_spec (env : GLESEnv) (sink : GstGLESSink) (xev : XEvent) :
    x11_handle_event env sink xev
      = (if xev.reachesRedraw then
          (with_geometry sink xev, gl_draw_onscreen env (with_geometry sink xev))
         else (sink, [])) := by
  rcases hx : xev.type with _ | _ | t <;>
    simp [x11_handle_event, XEvent.reachesRedraw, with_geometry, hx]

/-- The geometry of an earlier event is overwritten by a later one. -/
theorem with_geometry_twice (sink : GstGLESSink) (a b : XEvent) :
    with_geometry (with_geometry sink a) b = with_geometry sink b := rfl

/-- The queue drained event by event: Pass 2 once per event that reaches the
redraw, each on the geometry of its event; the sink ends with the geometry of
the last such event. -/
theorem x11_drain_spec (env : GLESEnv) :
    ∀ (pending : List XEvent) (sink : GstGLESSink),
      (x11_drain env sink pending).2
        = (pending.filter XEvent.reachesRedraw).flatMap
            (fun e => gl_draw_onscreen env (with_geometry sink e)) ∧
      (x11_drain env sink pending).1
        = (match (pending.filter XEvent.reachesRedraw).getLast? with
           | none => sink
           | some e => with_geometry sink e) := by
  intro pending
  induction pending with
  | nil => intro sink; simp [x11_drain]
  | cons xev rest ih =>
    intro sink
    simp only [x11_drain, x11_handle_event_spec]
    cases hc : xev.reachesRedraw with
    | false =>
      obtain ⟨i1, i2⟩ := ih sink
      simp [hc, i1, i2]
    | true =>
      obtain ⟨i1, i2⟩ := ih (with_geometry sink xev)
      simp only [if_true, i1, i2, List.filter_cons, hc, List.flatMap_cons, with_geometry_twice]
      refine ⟨trivial, ?_⟩
      cases hl : (List.filter XEvent.reachesRedraw rest).getLast? with
      | none =>
        have : List.filter XEvent.reachesRedraw rest = [] := by
          simpa using hl
        simp [this]
      | some e =>
        have : (xev :: List.filter XEvent.reachesRedraw rest).getLast? = some e := by
          rw [List.getLast?_cons]
          simp [hl]
        simp [this]

/-- One Pass 2 per element: as many draws and presents as elements, and no
completion signal. -/
theorem flatMap_onscreen_counts (env : GLESEnv) (f : XEvent → GstGLESSink) :
    ∀ (evs : List XEvent),
      draw_count (evs.flatMap (fun e => gl_draw_onscreen env (f e))) = evs.length ∧
      present_count (evs.flatMap (fun e => gl_draw_onscreen env (f e))) = evs.length ∧
      completion_signals (evs.flatMap (fun e => gl_draw_onscreen env (f e))) = 0 := by
  intro evs
  induction evs with
  | nil => simp [draw_count, present_count, completion_signals]
  | cons e rest ih =>
    obtain ⟨i1, i2, i3⟩ := ih
    obtain ⟨c1, c2, c3⟩ := gl_draw_onscreen_counts env (f e)
    refine ⟨?_, ?_, ?_⟩
    · rw [List.flatMap_cons, draw_count_append, i1, c1, List.length_cons]
      omega
    · rw [List.flatMap_cons, present_count_append, i2, c2, List.length_cons]
      omega
    · rw [List.flatMap_cons, completion_signals_append, i3, c3]

/-- The calls and the effect of the whole pump: between lock and unlock of
the display one Pass 2 per pending event that reaches the redraw
(`ConfigureNotify` or `ConfigureRequest`), each on the geometry of its event,
and nothing else; the sink ends with the geometry of the last such event. -/
theorem x11_handle_events_calls (env : GLESEnv) (sink : GstGLESSink) (pending : List XEvent) :
    (x11_handle_events env sink pending).2
      = [Call.XLockDisplay sink.x11.display] ++
        (pending.filter XEvent.reachesRedraw).flatMap
          (fun e => gl_draw_onscreen env (with_geometry sink e)) ++
        [Call.XUnlockDisplay sink.x11.display] ∧
    (x11_handle_events env sink pending).1
      = (match (pending.filter XEvent.reachesRedraw).getLast? with
         | none => sink
         | some e => with_geometry sink e) ∧
    present_count (x11_handle_events env sink pending).2
      = (pending.filter XEvent.reachesRedraw).length ∧
    draw_count (x11_handle_events env sink pending).2
      = (pending.filter XEvent.reachesRedraw).length ∧
    completion_signals (x11_handle_events env sink pending).2 = 0 := by
  obtain ⟨d1, d2⟩ := x11_drain_spec env pending sink
  obtain ⟨c1, c2, c3⟩ := flatMap_onscreen_counts env (with_geometry sink)
    (pending.filter XEvent.reachesRedraw)
  refine ⟨?_, ?_, ?_, ?_, ?_⟩
  · simp only [x11_handle_events, d1]
  · simp only [x11_handle_events, d2]
  · simp only [x11_handle_events, d1, present_count_append, c2]
    simp [present_count]
  · simp only [x11_handle_events, d1, draw_count_append, c1]
    simp [draw_count]
  · simp only [x11_handle_events, d1, completion_signals_append, c3]
    simp [completion_signals]

/-- An event of a type other than `ConfigureRequest` and `ConfigureNotify`
changes nothing and draws nothing; a `ConfigureNotify` stores its width and
height and runs Pass 2 with present once, without Pass 1. -/
theorem x11_handle_event_notify_and_others (env : GLESEnv) (sink : GstGLESSink)
    (xev : XEvent) :
    (∀ t, xev.type = XEventType.other t → x11_handle_event env sink xev = (sink, [])) ∧
    (xev.type = XEventType.ConfigureNotify →
      (x11_handle_event env sink xev).1.x11.width = xev.width ∧
      (x11_handle_event env sink xev).1.x11.height = xev.height ∧
      (x11_handle_event env sink xev).2
        = gl_draw_onscreen env (x11_handle_event env sink xev).1 ∧
      draw_count (x11_handle_event env sink xev).2 = 1 ∧
      present_count (x11_handle_event env sink xev).2 = 1) := by
  constructor
  · intro t ht
    simp [x11_handle_event, ht]
  · intro ht
    have h : x11_handle_event env sink xev
        = (with_geometry sink xev, gl_draw_onscreen env (with_geometry sink xev)) := by
      simp [x11_handle_event, with_geometry, ht]
    rw [h]
    exact ⟨rfl, rfl, rfl, (gl_draw_onscreen_counts env _).1, (gl_draw_onscreen_counts env _).2.1⟩

/-- C18 (evaluation at a failing input): the queue holds one event of type
`ConfigureRequest`, which is not a `ConfigureNotify`.  Its case has no
`break`: the window geometry changes from 720 x 576 to the 640 x 480 of the
request and Pass 2 with present runs once, where an `Expose` event in the
same place changes nothing and draws nothing. -/
theorem x11_handle_events_configure_request :
    xev_request.type = XEventType.ConfigureRequest ∧
    (sink_running.x11.width, sink_running.x11.height) = (720, 576) ∧
    ((x11_handle_events env_ok sink_running [xev_request]).1.x11.width,
      (x11_handle_events env_ok sink_running [xev_request]).1.x11.height) = (640, 480) ∧
    draw_count (x11_handle_events env_ok sink_running [xev_request]).2 = 1 ∧
    present_count (x11_handle_events env_ok sink_running [xev_request]).2 = 1 ∧
    ((x11_handle_events env_ok sink_running [xev_expose]).1.x11.width,
      (x11_handle_events env_ok sink_running [xev_expose]).1.x11.height) = (720, 576) ∧
    draw_count (x11_handle_events env_ok sink_running [xev_expose]).2 = 0 ∧
    present_count (x11_handle_events env_ok sink_running [xev_expose]).2 = 0 := by
  decide

/-- The pump on a notify, an expose and a request event: two redraws, the
window ends at the 640 x 480 of the request. -/
theorem x11_handle_events_sample :
    present_count (x11_handle_events env_ok sink_running
        [xev_notify, xev_expose, xev_request]).2 = 2 ∧
    draw_count (x11_handle_events env_ok sink_running
        [xev_notify, xev_expose, xev_request]).2 = 2 ∧
    (x11_handle_events env_ok sink_running
        [xev_notify, xev_expose, xev_request]).1.x11.width = 640 ∧
    (x11_handle_events env_ok sink_running
        [xev_notify, xev_expose, xev_request]).1.x11.height = 480 := by
  decide

/-! ## One round of the render loop -/

/-- The event pump leaves the render-thread record and the display alone. -/
theorem x11_handle_events_gl_thread (env : GLESEnv) (sink : GstGLESSink)
    (pending : List XEvent) :
    (x11_handle_events env sink pending).1.gl_thread = sink.gl_thread ∧
    (x11_handle_events env sink pending).1.x11.display = sink.x11.display := by
  simp only [x11_handle_events, (x11_drain_spec env pending sink).2]
  cases (pending.filter XEvent.reachesRedraw).getLast? <;> exact ⟨rfl, rfl⟩

/-- The calls of one round, by the content of the slot. -/
theorem gl_thread_loop_body_calls (env : GLESEnv) (sink : GstGLESSink) (w : Wakeup) :
    (w.buf = none →
      (gl_thread_loop_body env sink w).2
        = (x11_handle_events env sink w.pending).2 ++
          [Call.g_mutex_lock Mutex.data_lock] ++
          List.replicate w.waits (Call.g_cond_wait Cond.data_signal Mutex.data_lock) ++
          [Call.g_mutex_unlock Mutex.data_lock,
           Call.g_mutex_lock Mutex.render_lock,
           Call.g_cond_signal Cond.render_signal,
           Call.g_mutex_unlock Mutex.render_lock]) ∧
    (∀ buf, w.buf = some buf →
      (gl_thread_loop_body env sink w).2
        = (x11_handle_events env sink w.pending).2 ++
          [Call.g_mutex_lock Mutex.data_lock] ++
          List.replicate w.waits (Call.g_cond_wait Cond.data_signal Mutex.data_lock) ++
          (loop_frame_targets env (loop_slot_state env sink w)).2 ++
          [Call.XLockDisplay sink.x11.display] ++
          gl_draw_fbo env (loop_frame_targets env (loop_slot_state env sink w)).1 buf ++
          gl_draw_onscreen env (loop_frame_targets env (loop_slot_state env sink w)).1 ++
          [Call.XUnlockDisplay sink.x11.display,
           Call.g_mutex_unlock Mutex.data_lock,
           Call.g_mutex_lock Mutex.render_lock,
           Call.g_cond_signal Cond.render_signal,
           Call.g_mutex_unlock Mutex.render_lock]) := by
  obtain ⟨hg, hd⟩ := x11_handle_events_gl_thread env sink w.pending
  constructor
  · intro hb
    simp [gl_thread_loop_body, hb]
  · intro buf hb
    cases hi : sink.gl_thread.gles.initialized <;>
      simp [gl_thread_loop_body, loop_frame_targets, loop_slot_state, hb, hg, hi, hd,
        gl_gen_framebuffer]

/-- The frame targets after the test of lines 738-742. -/
theorem loop_frame_targets_spec (env : GLESEnv) (sink : GstGLESSink) (w : Wakeup) :
    (sink.gl_thread.gles.initialized = false →
      (loop_frame_targets env (loop_slot_state env sink w)).2
        = (gl_gen_framebuffer env (loop_slot_state env sink w)).2 ∧
      framebuffers_created (loop_frame_targets env (loop_slot_state env sink w)).2
        = [env.glGenFramebuffers]) ∧
    (sink.gl_thread.gles.initialized = true →
      (loop_frame_targets env (loop_slot_state env sink w)).2 = []) ∧
    (loop_frame_targets env (loop_slot_state env sink w)).1.gl_thread.gles.initialized = true ∧
    draw_count (loop_frame_targets env (loop_slot_state env sink w)).2 = 0 ∧
    present_count (loop_frame_targets env (loop_slot_state env sink w)).2 = 0 ∧
    completion_signals (loop_frame_targets env (loop_slot_state env sink w)).2 = 0 := by
  obtain ⟨hg, _⟩ := x11_handle_events_gl_thread env sink w.pending
  refine ⟨?_, ?_, ?_, ?_, ?_, ?_⟩
  · intro hi
    simp [loop_frame_targets, loop_slot_state, hg, hi, framebuffers_created,
      gl_gen_framebuffer, gl_create_texture, created_cons, created_nil, created_by]
  · intro hi
    simp [loop_frame_targets, loop_slot_state, hg, hi]
  · cases hi : sink.gl_thread.gles.initialized <;>
      simp [loop_frame_targets, loop_slot_state, hg, hi, gl_gen_framebuffer]
  · cases hi : sink.gl_thread.gles.initialized
    · simp only [loop_frame_targets, loop_slot_state, GstGLESSink.gles, hg, hi]
      exact (gl_gen_framebuffer_counts env _).1
    · simp [loop_frame_targets, loop_slot_state, hg, hi, draw_count]
  · cases hi : sink.gl_thread.gles.initialized
    · simp only [loop_frame_targets, loop_slot_state, GstGLESSink.gles, hg, hi]
      exact (gl_gen_framebuffer_counts env _).2.1
    · simp [loop_frame_targets, loop_slot_state, hg, hi, present_count]
  · cases hi : sink.gl_thread.gles.initialized
    · simp only [loop_frame_targets, loop_slot_state, GstGLESSink.gles, hg, hi]
      exact (gl_gen_framebuffer_counts env _).2.2
    · simp [loop_frame_targets, loop_slot_state, hg, hi, completion_signals]

/-- Draws, presents and completion signals of one round: those of the event
pump, plus two draws and one present when the slot holds a frame, plus one
completion signal in every case. -/
theorem gl_thread_loop_body_counts (env : GLESEnv) (sink : GstGLESSink) (w : Wakeup) :
    draw_count (gl_thread_loop_body env sink w).2
      = (w.pending.filter XEvent.reachesRedraw).length + (if w.buf.isSome then 2 else 0) ∧
    present_count (gl_thread_loop_body env sink w).2
      = (w.pending.filter XEvent.reachesRedraw).length + (if w.buf.isSome then 1 else 0) ∧
    completion_signals (gl_thread_loop_body env sink w).2 = 1 := by
  obtain ⟨_, _, p1, p2, p3⟩ := x11_handle_events_calls env sink w.pending
  obtain ⟨r1, r2, r3⟩ := replicate_wait_counts w.waits
  obtain ⟨_, _, _, t1, t2, t3⟩ := loop_frame_targets_spec env sink w
  cases hb : w.buf with
  | none =>
    rw [(gl_thread_loop_body_calls env sink w).1 hb]
    simp only [draw_count_append, present_count_append, completion_signals_append,
      p1, p2, p3, r1, r2, r3]
    simp [draw_count, present_count, completion_signals, List.countP_cons]
  | some buf =>
    rw [(gl_thread_loop_body_calls env sink w).2 buf hb]
    obtain ⟨f1, f2, f3⟩ := gl_draw_fbo_counts env
      (loop_frame_targets env (loop_slot_state env sink w)).1 buf
    obtain ⟨o1, o2, o3⟩ := gl_draw_onscreen_counts env
      (loop_frame_targets env (loop_slot_state env sink w)).1
    simp only [draw_count_append, present_count_append, completion_signals_append,
      p1, p2, p3, r1, r2, r3, t1, t2, t3, f1, f2, f3, o1, o2, o3]
    simp [draw_count, present_count, completion_signals, List.countP_cons]

/-- Frame targets after one round, and the framebuffer it creates: the one of
the first frame, and only when `initialized` was `FALSE`. -/
theorem gl_thread_loop_body_targets (env : GLESEnv) (sink : GstGLESSink) (w : Wakeup) :
    (gl_thread_loop_body env sink w).1.gl_thread.gles.initialized
      = (sink.gl_thread.gles.initialized || w.buf.isSome) ∧
    framebuffers_created (gl_thread_loop_body env sink w).2
      = (if !sink.gl_thread.gles.initialized && w.buf.isSome then [env.glGenFramebuffers]
         else []) := by
  obtain ⟨hg, _⟩ := x11_handle_events_gl_thread env sink w.pending
  have hp := (x11_drain_resources env w.pending sink).2.2.1
  have hpump : created (x11_handle_events env sink w.pending).2 = [] := by
    simp [x11_handle_events, created_append, created_cons, created_nil, created_by, hp]
  have hwait := (created_released_replicate_wait w.waits Cond.data_signal Mutex.data_lock).1
  cases hb : w.buf with
  | none =>
    constructor
    · simp [gl_thread_loop_body, hb, hg]
    · rw [(gl_thread_loop_body_calls env sink w).1 hb]
      simp [framebuffers_created, created_append, created_cons, created_nil, created_by,
        hpump, hwait]
  | some buf =>
    constructor
    · cases hi : sink.gl_thread.gles.initialized <;>
        simp [gl_thread_loop_body, hb, hg, hi, gl_gen_framebuffer]
    · rw [(gl_thread_loop_body_calls env sink w).2 buf hb]
      cases hi : sink.gl_thread.gles.initialized <;>
        simp [framebuffers_created, created_append, created_cons, created_nil, created_by,
          hpump, hwait, gl_draw_fbo_resources, gl_draw_onscreen_resources,
          loop_frame_targets, loop_slot_state, hg, hi, gl_gen_framebuffer, gl_create_texture]

/-- The calls of a loop that has been left are the calls of its completed
rounds, in order. -/
theorem gl_thread_loop_eq_trace (env : GLESEnv) :
    ∀ (ws : List Wakeup) (sink s' : GstGLESSink) (l : List Call),
      gl_thread_loop env sink ws = some (s', l) →
      l = ((gl_thread_trace env sink ws).map Prod.snd).flatten := by
  intro ws
  induction ws with
  | nil =>
    intro sink s' l h
    cases hr : sink.gl_thread.running <;> simp [gl_thread_loop, hr] at h
    simp [gl_thread_trace, h.2]
  | cons w rest ih =>
    intro sink s' l h
    cases hr : sink.gl_thread.running with
    | false =>
      simp [gl_thread_loop, hr] at h
      simp [gl_thread_trace, hr, h.2]
    | true =>
      cases hw : w.leavesWait with
      | false => simp [gl_thread_loop, hr, hw] at h
      | true =>
        simp only [gl_thread_loop, hr, hw] at h
        cases hrec : gl_thread_loop env
            { (gl_thread_loop_body env sink w).1 with
              gl_thread := { (gl_thread_loop_body env sink w).1.gl_thread with
                             running := w.running_next } } rest with
        | none => simp [hrec] at h
        | some r =>
          simp [hrec] at h
          have := ih _ r.1 r.2 hrec
          simp [gl_thread_trace, hr, hw, ← h.2, ← this]

/-- Once the frame targets exist, no round creates a framebuffer. -/
theorem gl_thread_trace_initialized (env : GLESEnv) :
    ∀ (ws : List Wakeup) (sink : GstGLESSink),
      sink.gl_thread.gles.initialized = true →
      ∀ p ∈ gl_thread_trace env sink ws, framebuffers_created p.2 = [] := by
  intro ws
  induction ws with
  | nil => intro sink _ p hp; simp [gl_thread_trace] at hp
  | cons w rest ih =>
    intro sink hi p hp
    cases hr : sink.gl_thread.running with
    | false => simp [gl_thread_trace, hr] at hp
    | true =>
      cases hw : w.leavesWait with
      | false => simp [gl_thread_trace, hr, hw] at hp
      | true =>
        obtain ⟨t1, t2⟩ := gl_thread_loop_body_targets env sink w
        simp only [gl_thread_trace, hr, hw, Bool.not_true, Bool.false_eq_true, if_false,
          List.mem_cons] at hp
        rcases hp with hp | hp
        · rw [hp, t2]
          simp [hi]
        · exact ih _ (by simp [t1, hi]) p hp

/-- In a loop entered with `initialized` `FALSE`, the round that creates the
framebuffer is the first round that finds a frame, and no other. -/
theorem gl_thread_trace_framebuffer (env : GLESEnv) :
    ∀ (ws : List Wakeup) (sink : GstGLESSink),
      sink.gl_thread.gles.initialized = false →
      ∀ (pre post : List (Wakeup × List Call)) (w : Wakeup) (l : List Call),
        gl_thread_trace env sink ws = pre ++ (w, l) :: post →
        framebuffers_created l
          = (if w.buf.isSome && pre.all (fun p => p.1.buf.isNone) then [env.glGenFramebuffers]
             else []) := by
  intro ws
  induction ws with
  | nil =>
    intro sink _ pre post w l h
    simp [gl_thread_trace] at h
  | cons w0 rest ih =>
    intro sink hi pre post w l h
    cases hr : sink.gl_thread.running with
    | false => simp [gl_thread_trace, hr] at h
    | true =>
      cases hw : w0.leavesWait with
      | false => simp [gl_thread_trace, hr, hw] at h
      | true =>
        obtain ⟨t1, t2⟩ := gl_thread_loop_body_targets env sink w0
        simp only [gl_thread_trace, hr, hw, Bool.not_true, Bool.false_eq_true, if_false] at h
        cases pre with
        | nil =>
          simp only [List.nil_append, List.cons.injEq, Prod.mk.injEq] at h
          obtain ⟨⟨hw0, hl⟩, _⟩ := h
          subst hw0
          rw [← hl, t2]
          simp [hi]
        | cons p pre' =>
          simp only [List.cons_append, List.cons.injEq] at h
          obtain ⟨hp, hrest⟩ := h
          cases hb : w0.buf with
          | none =>
            have hnext := ih _ (by simp [t1, hi, hb]) pre' post w l hrest
            subst hp
            rw [hnext]
            simp only [List.all_cons, hb, Option.isNone_none, Bool.true_and]
          | some b =>
            have hmem : (w, l) ∈ gl_thread_trace env
                { (gl_thread_loop_body env sink w0).1 with
                  gl_thread := { (gl_thread_loop_body env sink w0).1.gl_thread with
                                 running := w0.running_next } } rest := by
              rw [hrest]
              simp
            have hnone := gl_thread_trace_initialized env rest _ (by simp [t1, hb]) (w, l) hmem
            subst hp
            rw [hnone]
            simp only [List.all_cons, hb, Option.isNone_some, Bool.false_and, Bool.and_false,
              Bool.false_eq_true, if_false]

/-- The `running` flag after one round is the one read after the wait, and
`render_done` is set exactly when the slot held a frame. -/
theorem gl_thread_loop_body_flags (env : GLESEnv) (sink : GstGLESSink) (w : Wakeup) :
    (gl_thread_loop_body env sink w).1.gl_thread.running = w.running ∧
    (gl_thread_loop_body env sink w).1.gl_thread.buf = none ∧
    (gl_thread_loop_body env sink w).1.gl_thread.render_done
      = (w.buf.isSome || sink.gl_thread.render_done) := by
  obtain ⟨hg, _⟩ := x11_handle_events_gl_thread env sink w.pending
  cases hb : w.buf <;> cases hi : sink.gl_thread.gles.initialized <;>
    simp [gl_thread_loop_body, hb, hg, hi, gl_gen_framebuffer]

/-- C16 (as stated, refuted): the round finds the frame 101 in the slot and a
`ConfigureNotify` in the event queue.  It draws three times and presents
twice, not once: the event pump runs Pass 2 with present before the frame is
looked at, and on this first frame before the frame targets are generated
(`initialized` is `FALSE` and the pump creates no framebuffer). -/
theorem gl_thread_loop_body_resize_presents_twice :
    wakeup_frame_resized.buf = some 101 ∧
    sink_running.gl_thread.gles.initialized = false ∧
    draw_count (gl_thread_loop_body env_ok sink_running wakeup_frame_resized).2 = 3 ∧
    present_count (gl_thread_loop_body env_ok sink_running wakeup_frame_resized).2 = 2 ∧
    present_count (x11_handle_events env_ok sink_running wakeup_frame_resized.pending).2 = 1 ∧
    framebuffers_created (x11_handle_events env_ok sink_running wakeup_frame_resized.pending).2
      = [] ∧
    (x11_handle_events env_ok sink_running wakeup_frame_resized.pending).2
      <+: (gl_thread_loop_body env_ok sink_running wakeup_frame_resized).2 := by
  refine ⟨rfl, by decide, by decide, by decide, by decide, by decide, ?_⟩
  rw [(gl_thread_loop_body_calls env_ok sink_running wakeup_frame_resized).2 101 rfl]
  simp only [List.append_assoc]
  exact ⟨_, rfl⟩

/-- C16 (amended): a round of the render loop that finds the frame `buf` in
the slot performs exactly these calls, in this order: the event pump (one
Pass 2 with present for each pending event that reaches the redraw, no
Pass 1), the lock of `data_lock` and the waits on `data_signal`, the
generation of the frame targets (`gl_gen_framebuffer`, only when `initialized`
is `FALSE`; afterwards it is `TRUE`), Pass 1 on `buf` (one draw, no present),
Pass 2 (one draw, one present), the unlocks and one signal of `render_signal`.
With `k` pending events that reach the redraw the round draws `k + 2` times
and presents `k + 1` times.  It leaves the slot empty, `render_done` `TRUE`
and `initialized` `TRUE`.  Among the completed rounds of a loop entered with
`initialized` `FALSE`, whether the loop is ever left or not, the round that
creates the framebuffer is the first one that finds a frame, and no other
round creates one. -/
theorem gl_thread_loop_body_frame (env : GLESEnv) (sink : GstGLESSink) (w : Wakeup)
    (buf : GstBuffer) (hb : w.buf = some buf) :
    (gl_thread_loop_body env sink w).2
      = (x11_handle_events env sink w.pending).2 ++
        [Call.g_mutex_lock Mutex.data_lock] ++
        List.replicate w.waits (Call.g_cond_wait Cond.data_signal Mutex.data_lock) ++
        (loop_frame_targets env (loop_slot_state env sink w)).2 ++
        [Call.XLockDisplay sink.x11.display] ++
        gl_draw_fbo env (loop_frame_targets env (loop_slot_state env sink w)).1 buf ++
        gl_draw_onscreen env (loop_frame_targets env (loop_slot_state env sink w)).1 ++
        [Call.XUnlockDisplay sink.x11.display,
         Call.g_mutex_unlock Mutex.data_lock,
         Call.g_mutex_lock Mutex.render_lock,
         Call.g_cond_signal Cond.render_signal,
         Call.g_mutex_unlock Mutex.render_lock] ∧
    (draw_count (x11_handle_events env sink w.pending).2
        = (w.pending.filter XEvent.reachesRedraw).length ∧
      present_count (x11_handle_events env sink w.pending).2
        = (w.pending.filter XEvent.reachesRedraw).length) ∧
    (sink.gl_thread.gles.initialized = false →
      (loop_frame_targets env (loop_slot_state env sink w)).2
        = (gl_gen_framebuffer env (loop_slot_state env sink w)).2 ∧
      framebuffers_created (loop_frame_targets env (loop_slot_state env sink w)).2
        = [env.glGenFramebuffers]) ∧
    (sink.gl_thread.gles.initialized = true →
      (loop_frame_targets env (loop_slot_state env sink w)).2 = []) ∧
    (loop_frame_targets env (loop_slot_state env sink w)).1.gl_thread.gles.initialized = true ∧
    (draw_count (gl_draw_fbo env (loop_frame_targets env (loop_slot_state env sink w)).1 buf)
        = 1 ∧
      present_count (gl_draw_fbo env (loop_frame_targets env (loop_slot_state env sink w)).1 buf)
        = 0 ∧
      draw_count (gl_draw_onscreen env (loop_frame_targets env (loop_slot_state env sink w)).1)
        = 1 ∧
      present_count (gl_draw_onscreen env (loop_frame_targets env (loop_slot_state env sink w)).1)
        = 1) ∧
    (draw_count (gl_thread_loop_body env sink w).2
        = (w.pending.filter XEvent.reachesRedraw).length + 2 ∧
      present_count (gl_thread_loop_body env sink w).2
        = (w.pending.filter XEvent.reachesRedraw).length + 1 ∧
      completion_signals (gl_thread_loop_body env sink w).2 = 1) ∧
    ((gl_thread_loop_body env sink w).1.gl_thread.buf = none ∧
      (gl_thread_loop_body env sink w).1.gl_thread.render_done = true ∧
      (gl_thread_loop_body env sink w).1.gl_thread.gles.initialized = true) ∧
    (∀ (ws : List Wakeup) (s0 : GstGLESSink),
      s0.gl_thread.gles.initialized = false →
      ∀ (pre post : List (Wakeup × List Call)) (w1 : Wakeup) (l : List Call),
        gl_thread_trace env s0 ws = pre ++ (w1, l) :: post →
        framebuffers_created l
          = (if w1.buf.isSome && pre.all (fun p => p.1.buf.isNone)
             then [env.glGenFramebuffers] else [])) := by
  obtain ⟨_, _, p1, p2, _⟩ := x11_handle_events_calls env sink w.pending
  obtain ⟨t1, t2, t3, _⟩ := loop_frame_targets_spec env sink w
  obtain ⟨c1, c2, c3⟩ := gl_thread_loop_body_counts env sink w
  obtain ⟨f1, f2, f3⟩ := gl_thread_loop_body_flags env sink w
  refine ⟨(gl_thread_loop_body_calls env sink w).2 buf hb, ⟨p2, p1⟩, t1, t2, t3,
    ⟨(gl_draw_fbo_counts env _ buf).1, (gl_draw_fbo_counts env _ buf).2.1,
      (gl_draw_onscreen_counts env _).1, (gl_draw_onscreen_counts env _).2.1⟩,
    ⟨?_, ?_, c3⟩, ⟨f2, ?_, ?_⟩, ?_⟩
  · rw [c1]; simp [hb]
  · rw [c2]; simp [hb]
  · rw [f3]; simp [hb]
  · rw [(gl_thread_loop_body_targets env sink w).1]; simp [hb]
  · intro ws s0 hi pre post w1 l h
    exact gl_thread_trace_framebuffer env ws s0 hi pre post w1 l h

/-- Witness of C16 (amended): the first frame 101 on a thread that has just
been set up, with a resize pending. -/
theorem gl_thread_loop_body_frame_witness :
    (draw_count (gl_thread_loop_body env_ok sink_running wakeup_frame_resized).2
        = (wakeup_frame_resized.pending.filter XEvent.reachesRedraw).length + 2 ∧
      present_count (gl_thread_loop_body env_ok sink_running wakeup_frame_resized).2
        = (wakeup_frame_resized.pending.filter XEvent.reachesRedraw).length + 1 ∧
      completion_signals (gl_thread_loop_body env_ok sink_running wakeup_frame_resized).2
        = 1) ∧
    ((gl_thread_loop_body env_ok sink_running wakeup_frame_resized).1.gl_thread.buf = none ∧
      (gl_thread_loop_body env_ok sink_running wakeup_frame_resized).1.gl_thread.render_done
        = true ∧
      (gl_thread_loop_body env_ok sink_running wakeup_frame_resized).1.gl_thread.gles.initialized
        = true) ∧
    framebuffers_created
        (loop_frame_targets env_ok (loop_slot_state env_ok sink_running wakeup_frame_resized)).2
      = [env_ok.glGenFramebuffers] :=
  ⟨(gl_thread_loop_body_frame env_ok sink_running wakeup_frame_resized 101 rfl).2.2.2.2.2.2.1,
   (gl_thread_loop_body_frame env_ok sink_running wakeup_frame_resized 101 rfl).2.2.2.2.2.2.2.1,
   ((gl_thread_loop_body_frame env_ok sink_running wakeup_frame_resized 101 rfl).2.2.1
      (by decide)).2⟩

/-- Three frames on a loop that is not left on these wake-ups: the
framebuffer is created in the round of the first frame only. -/
theorem gl_thread_trace_sample :
    (gl_thread_trace env_ok sink_running
        [wakeup_frame_resized, wakeup_frame, wakeup_frame]).map
      (fun p => framebuffers_created p.2)
      = [[env_ok.glGenFramebuffers], [], []] ∧
    gl_thread_loop env_ok sink_running [wakeup_frame_resized, wakeup_frame, wakeup_frame]
      = none := by
  decide

/-- The calls of `gst_gles_sink_preroll` release `render_lock` as often as
they take it in every case but one: the thread was spawned and `running` was
read as `TRUE` at the second test. -/
theorem gst_gles_sink_preroll_lock_balance (reads : DeliveryReads) (sink : GstGLESSink)
    (buf : GstBuffer) :
    unlock_count Mutex.render_lock (gst_gles_sink_preroll reads sink buf).calls
        = lock_count Mutex.render_lock (gst_gles_sink_preroll reads sink buf).calls ↔
      ¬ (sink.gl_thread.running = false ∧ reads.gl_thread_init ≠ 0 ∧
          reads.running_after_init = true) := by
  cases hr : sink.gl_thread.running <;> by_cases ht : reads.gl_thread_init = 0 <;>
    cases hra : reads.running_after_init <;> cases hrd : reads.render_done <;>
    by_cases hd : sink.dropped < sink.drop_first <;>
    simp [gst_gles_sink_preroll, hr, ht, hra, hrd, hd, lock_count, unlock_count,
      List.count_cons]

/-- C19 (evaluation at a failing input): the first preroll on a sink that
drops one frame spawns the thread 1, which has set `running` to `TRUE` when
the call reads it at line 1104.  The call skips the wait together with the
unlock and returns `GST_FLOW_OK` through the drop path: `render_lock` was
taken once and never released. -/
theorem gst_gles_sink_preroll_keeps_render_lock :
    (gst_gles_sink_preroll reads_running_early sink_drop1 42).ret
      = GstFlowReturn.GST_FLOW_OK ∧
    (gst_gles_sink_preroll reads_running_early sink_drop1 42).calls
      = [Call.prepare_window_handle, Call.g_mutex_lock Mutex.render_lock,
         Call.g_thread_try_new 1] ∧
    lock_count Mutex.render_lock
        (gst_gles_sink_preroll reads_running_early sink_drop1 42).calls = 1 ∧
    unlock_count Mutex.render_lock
        (gst_gles_sink_preroll reads_running_early sink_drop1 42).calls = 0 := by
  decide

/-! ## The window-ownership flag -/

/-- As long as the setter is given non-zero handles, the flag
`external_window` is set only together with a window handle: the setter,
`x11_init` and `x11_close` keep this, and a window created by `x11_init` then
belongs to a sink with `external_window` `FALSE`. -/
theorem external_implies_window_preserved (env : GLESEnv) (s : GstGLESSink)
    (width height : Int) (hs : external_implies_window s) :
    (∀ handle, handle ≠ 0 →
      external_implies_window (gst_gles_video_overlay_set_handle s handle)) ∧
    ((x11_init env s width height).1 = 0 →
      (x11_init env s width height).2.1.x11.external_window = s.x11.external_window ∧
      (window_creations (x11_init env s width height).2.2 ≠ [] →
        s.x11.external_window = false)) ∧
    external_implies_window (x11_close s).1 := by
  refine ⟨?_, ?_, ?_⟩
  · intro handle hh
    by_cases hw : s.x11.window = 0
    · simp [external_implies_window, gst_gles_video_overlay_set_handle, hw, hh]
    · simpa [gst_gles_video_overlay_set_handle, hw] using hs
  · intro hret
    by_cases hd : env.XOpenDisplay = 0
    · simp [x11_init, hd] at hret
    · by_cases hw : s.x11.window = 0
      · refine ⟨by simp [x11_init, hd, hw], ?_⟩
        intro _
        cases he : s.x11.external_window
        · rfl
        · exact absurd hw (hs he)
      · refine ⟨by simp [x11_init, hd, hw], ?_⟩
        intro hc
        simp [x11_init, hd, hw, window_creations] at hc
  · by_cases hd : s.x11.display = 0
    · simpa [x11_close, hd] using hs
    · cases he : s.x11.external_window
      · simp [external_implies_window, x11_close, hd, he]
      · have := hs he
        simp [external_implies_window, x11_close, hd, he, this]

/-- C20 (evaluation at a failing input): the setter is called with the handle
0 on a fresh sink.  It sets `external_window` while `x11.window` is 0; the
setup then creates the window 2 itself and does not announce it, and
`x11_close` closes the display without destroying that window. -/
theorem set_handle_zero_marks_own_window_external :
    sink_handle_zero.x11.external_window = true ∧
    sink_handle_zero.x11.window = 0 ∧
    (setup_gl_context env_ok sink_handle_zero).1 = 0 ∧
    window_creations (setup_gl_context env_ok sink_handle_zero).2.2 = [2] ∧
    announcements (setup_gl_context env_ok sink_handle_zero).2.2 = [] ∧
    (setup_gl_context env_ok sink_handle_zero).2.1.x11.external_window = true ∧
    window_destructions (x11_close (setup_gl_context env_ok sink_handle_zero).2.1).2 = [] ∧
    (x11_close (setup_gl_context env_ok sink_handle_zero).2.1).2.getLast?
      = some (Call.XCloseDisplay 1) ∧
    (x11_close (setup_gl_context env_ok sink_handle_zero).2.1).1.x11.window = 2 := by
  decide

end GLESSink
